import Mathlib

/-!
# PhysIKA: 2D vector core, point set accessors and ellipsoid shader helpers

A shallow embedding of

* `Physika_Src/Physika_Core/Vectors/vector_2d.cpp` (class `Vector<Scalar,2>`),
* `Physika_Src/Physika_Framework/Topology/PointSet.h` (the inline accessors),
* `Physika_Src/Physika_Render/OpenGL_Shaders/shader_srcs.h`
  (the ellipsoid depth shaders, the point sprite fragment shaders, `shadowSample`, the
  geometry shaders and the depth blur shader),

followed by theorems about them.

Conventions of the embedding of `vector_2d.cpp`:

* the template parameter `Scalar` is a Lean type together with a record
  `ScalarOps Scalar` of the scalar operations the file uses;
* the preprocessor switch between the two storages is a value of `StorageKind`;
* vector objects live in a store `Fin n → Vector Scalar k` (the `n` vector
  objects in scope); a C++ reference to a vector is its address `Fin n`, a
  reference to a component (`Scalar&`) is a `ScalarRef`;
* a member function is a computation `Exec σ α := σ → Except PhysikaException α × σ`:
  it returns a value or throws, and the store it leaves behind is kept in both cases.
-/

namespace Physika

/-! ## Exceptions and computations -/

/-- The exception class `PhysikaException`, carrying its message. -/
structure PhysikaException where
  what : String
deriving DecidableEq, Repr

/-- A computation over a state `σ` that returns an `α` or throws a `PhysikaException`;
the state reached is kept when it throws. -/
def Exec (σ α : Type) : Type := σ → Except PhysikaException α × σ

namespace Exec

variable {σ α β : Type}

/-- The computation `return a`. -/
def ret (a : α) : Exec σ α := fun s => (Except.ok a, s)

/-- The computation `throw e`. -/
def raise (e : PhysikaException) : Exec σ α := fun s => (Except.error e, s)

/-- Sequencing: run `m`, and if it did not throw continue with `f`. -/
def andThen (m : Exec σ α) (f : α → Exec σ β) : Exec σ β := fun s =>
  match m s with
  | (Except.ok a, s1) => f a s1
  | (Except.error e, s1) => (Except.error e, s1)

/-- The loop `for (unsigned int i = 0; i < n; ++i) body(i);`. -/
def forUpTo : (n : Nat) → (body : Nat → Exec σ Unit) → Exec σ Unit
  | 0, _ => ret ()
  | n + 1, body => andThen (forUpTo n body) (fun _ => body n)

/-- The loop `for (unsigned int i = 0; i < n; ++i) body(i);` whose body may execute
`return r;` (the body yields `some r`), followed by `return dflt;` after the loop. -/
def forUpToReturning : (n : Nat) → (body : Nat → Exec σ (Option α)) → (dflt : α) → Exec σ α
  | n, body, dflt => go n 0 body dflt
where
  /-- Iterations `i, i+1, ..` with `fuel` of them left. -/
  go : (fuel : Nat) → (i : Nat) → (body : Nat → Exec σ (Option α)) → (dflt : α) → Exec σ α
    | 0, _, _, dflt => ret dflt
    | fuel + 1, i, body, dflt =>
        andThen (body i) (fun r =>
          match r with
          | some a => ret a
          | none => go fuel (i + 1) body dflt)

end Exec

/-! ## Scalars -/

/-- The operations on the template parameter `Scalar` that `vector_2d.cpp` uses.
Every arithmetic field is the C++ operation followed by the conversion of the
result back to `Scalar`. -/
structure ScalarOps (Scalar : Type) where
  /-- The literal `0` converted to `Scalar`. -/
  zero : Scalar
  /-- Expression `a + b` -/
  add : Scalar → Scalar → Scalar
  /-- Expression `a - b` -/
  sub : Scalar → Scalar → Scalar
  /-- Expression `a * b` -/
  mul : Scalar → Scalar → Scalar
  /-- Expression `a / b` -/
  div : Scalar → Scalar → Scalar
  /-- Expression `-a` -/
  neg : Scalar → Scalar
  /-- Expression `a != b` -/
  ne : Scalar → Scalar → Bool
  /-- Expression `a <= b` -/
  le : Scalar → Scalar → Bool
  /-- Expression `a > b` -/
  gt : Scalar → Scalar → Bool
  /-- Expression `abs(a)` -/
  abs : Scalar → Scalar
  /-- Expression `std::numeric_limits<Scalar>::epsilon()` -/
  epsilon : Scalar
  /-- Expression `is_floating_point<Scalar>::value` -/
  is_floating_point : Bool
  /-- Expression `isEqual(a, b)` of `math_utilities.h` -/
  isEqual : Scalar → Scalar → Bool
  /-- Expression `static_cast<Scalar>(sqrt(a))` -/
  sqrt : Scalar → Scalar

/-- The integer instantiations of `Scalar`: mathematical integers (no overflow),
or `w`-bit unsigned / two's complement signed machine integers. -/
inductive IntType where
  | exact
  | unsignedBits (w : Nat)
  | signedBits (w : Nat)
deriving DecidableEq, Repr

/-- Conversion of an integer result to the scalar type: the identity for exact
integers, reduction modulo `2^w` into `[0, 2^w)` for unsigned and into
`[-2^(w-1), 2^(w-1))` for signed types. -/
def IntType.wrap : IntType → Int → Int
  | IntType.exact, z => z
  | IntType.unsignedBits w, z => z % 2 ^ w
  | IntType.signedBits w, z => (z + 2 ^ (w - 1)) % 2 ^ w - 2 ^ (w - 1)

/-- The values of an integer scalar type: every integer for exact integers, `[0, 2^w)`
for `w`-bit unsigned and `[-2^(w-1), 2^(w-1))` for `w`-bit signed types (`w ≥ 1`). -/
def IntType.inRange : IntType → Int → Prop
  | IntType.exact, _ => True
  | IntType.unsignedBits w, z => 0 ≤ z ∧ z < 2 ^ w
  | IntType.signedBits w, z => 0 < w ∧ -(2 ^ (w - 1)) ≤ z ∧ z < 2 ^ (w - 1)

/-- The modulus of the arithmetic of an integer scalar type: `2^w` for the `w`-bit types,
and `0` (congruence modulo `0` is equality) for exact integers. -/
def IntType.modulus : IntType → Int
  | IntType.exact => 0
  | IntType.unsignedBits w => 2 ^ w
  | IntType.signedBits w => 2 ^ w

/-- Modelled from the spec: `abs` comes from `<cstdlib>` / `math_utilities.h`, which
are not part of the sources at hand; `abs(z)` is a value of the scalar type, the absolute
value of `z` converted to it. For the least value `-2^(w-1)` of a signed type the absolute
value `2^(w-1)` is no value of the type and the conversion gives `-2^(w-1)` back. -/
def intAbs (T : IntType) (z : Int) : Int := T.wrap |z|

/-- Modelled from the spec: `sqrt` comes from `<cmath>` / `math_utilities.h`, which are
not part of the sources at hand. This is the exact integer square root, the integer part
of the square root of `z` (of `0` for a negative argument), converted to the scalar type.
The code computes `static_cast<Scalar>(sqrt(z))` through a floating-point square root,
which gives this value only where that square root is exact (not for every sum above
`2^53`, and not for a negative argument); `intOpsWith` takes the cast square root as a
parameter instead. -/
def intSqrt (T : IntType) (z : Int) : Int := T.wrap (Int.ofNat (Nat.sqrt z.toNat))

/-- The scalar operations of an integer `Scalar`. `isEqual` is only called when
`is_floating_point<Scalar>::value` holds, so it is left as a parameter. `div` is the
truncating quotient converted to the type; the quotient of the least signed value by `-1`
is no value of the type, and the C++ division is undefined there. -/
def intOps (T : IntType) (isEqual : Int → Int → Bool) : ScalarOps Int where
  zero := 0
  add := fun a b => T.wrap (a + b)
  sub := fun a b => T.wrap (a - b)
  mul := fun a b => T.wrap (a * b)
  div := fun a b => T.wrap (Int.tdiv a b)
  neg := fun a => T.wrap (-a)
  ne := fun a b => a != b
  le := fun a b => decide (a ≤ b)
  gt := fun a b => decide (a > b)
  abs := intAbs T
  epsilon := 0
  is_floating_point := false
  isEqual := isEqual
  sqrt := intSqrt T

/-- The scalar operations of an integer `Scalar` with `static_cast<Scalar>(sqrt(a))`, a
floating-point computation, given as the function `sqrtCast` of the scalar `a`. -/
def intOpsWith (T : IntType) (isEqual : Int → Int → Bool) (sqrtCast : Int → Int) :
    ScalarOps Int where
  zero := 0
  add := fun a b => T.wrap (a + b)
  sub := fun a b => T.wrap (a - b)
  mul := fun a b => T.wrap (a * b)
  div := fun a b => T.wrap (Int.tdiv a b)
  neg := fun a => T.wrap (-a)
  ne := fun a b => a != b
  le := fun a b => decide (a ≤ b)
  gt := fun a b => decide (a > b)
  abs := intAbs T
  epsilon := 0
  is_floating_point := false
  isEqual := isEqual
  sqrt := sqrtCast

/-! ## Storage and vector objects -/

/-- The storage strategy selected by the preprocessor. With neither macro defined the
two-argument constructor stores nothing and `operator[]` has no `return` statement; that
configuration is not part of the embedding. -/
inductive StorageKind where
  | PHYSIKA_USE_EIGEN_VECTOR
  | PHYSIKA_USE_BUILT_IN_VECTOR
deriving DecidableEq, Repr

/-- A `Vector<Scalar,2>` object: its single data member, which is
`Eigen::Matrix<Scalar,2,1> eigen_vector_2x_` (a coefficient map) under
`PHYSIKA_USE_EIGEN_VECTOR` and `Scalar data_[2]` under `PHYSIKA_USE_BUILT_IN_VECTOR`. -/
inductive Vector (Scalar : Type) : StorageKind → Type where
  | eigen (eigen_vector_2x_ : Fin 2 → Scalar) : Vector Scalar StorageKind.PHYSIKA_USE_EIGEN_VECTOR
  | builtIn (data_ : Scalar × Scalar) : Vector Scalar StorageKind.PHYSIKA_USE_BUILT_IN_VECTOR

variable {Scalar : Type} {k : StorageKind} {n : Nat}

/-- Reading `eigen_vector_2x_(i)` resp. `data_[i]`. -/
def Vector.storageGet : Vector Scalar k → Fin 2 → Scalar
  | Vector.eigen m, i => m i
  | Vector.builtIn d, i => if i = 0 then d.1 else d.2

/-- Assigning to `eigen_vector_2x_(i)` resp. `data_[i]`. -/
def Vector.storageSet : Vector Scalar k → Fin 2 → Scalar → Vector Scalar k
  | Vector.eigen m, i, x => Vector.eigen (Function.update m i x)
  | Vector.builtIn d, i, x => Vector.builtIn (if i = 0 then (x, d.2) else (d.1, x))

/-- Source: `Vector<Scalar,2>::Vector(Scalar x, Scalar y)` -/
def Vector.ctor2 (k : StorageKind) (x y : Scalar) : Vector Scalar k :=
  match k with
  | StorageKind.PHYSIKA_USE_EIGEN_VECTOR => Vector.eigen ![x, y]
  | StorageKind.PHYSIKA_USE_BUILT_IN_VECTOR => Vector.builtIn (x, y)

/-- Source: `Vector<Scalar,2>::Vector(Scalar x)`, delegating to `Vector(x, x)`. -/
def Vector.ctor1 (k : StorageKind) (x : Scalar) : Vector Scalar k :=
  Vector.ctor2 k x x

/-- Source: `Vector<Scalar,2>::Vector()`, delegating to `Vector(0)`. -/
def Vector.ctor0 (k : StorageKind) (S : ScalarOps Scalar) : Vector Scalar k :=
  Vector.ctor1 k S.zero

/-- The store: the `n` vector objects in scope, by address. -/
abbrev Store (Scalar : Type) (k : StorageKind) (n : Nat) : Type := Fin n → Vector Scalar k

/-- A reference `Scalar&` into a vector object: the object and the slot of its storage. -/
structure ScalarRef (n : Nat) where
  obj : Fin n
  slot : Fin 2
deriving DecidableEq, Repr

/-- Reading through a `Scalar&`. -/
def ScalarRef.load (r : ScalarRef n) : Exec (Store Scalar k n) Scalar :=
  fun s => (Except.ok ((s r.obj).storageGet r.slot), s)

/-- Assigning through a `Scalar&`. -/
def ScalarRef.store (r : ScalarRef n) (x : Scalar) : Exec (Store Scalar k n) Unit :=
  fun s => (Except.ok (), Function.update s r.obj ((s r.obj).storageSet r.slot x))

/-- Placing a newly constructed vector `v` at address `dst`. -/
def construct (dst : Fin n) (v : Vector Scalar k) : Exec (Store Scalar k n) Unit :=
  fun s => (Except.ok (), Function.update s dst v)

/-- Source: `const Scalar& Vector<Scalar,2>::operator[](unsigned int idx) const` -/
def Vector.indexConst (this : Fin n) (idx : Nat) : Exec (Store Scalar k n) (ScalarRef n) :=
  if h : idx ≥ 2 then
    Exec.raise ⟨"Vector index out of range!"⟩
  else
    Exec.ret ⟨this, ⟨idx, by omega⟩⟩

/-- Source: `Scalar& Vector<Scalar,2>::operator[](unsigned int idx)`: the `const` overload,
its result `const_cast` to `Scalar&`. -/
def Vector.index (this : Fin n) (idx : Nat) : Exec (Store Scalar k n) (ScalarRef n) :=
  Vector.indexConst this idx

/-- The rvalue `(*this)[idx]` in a `const` member function (and `vec2[idx]` for a
`const Vector&`): the `const` overload, then a read through the reference. -/
def Vector.readConst (this : Fin n) (idx : Nat) : Exec (Store Scalar k n) Scalar :=
  Exec.andThen (Vector.indexConst this idx) (fun r => r.load)

/-- The statement `(*this)[i] op= rhs;` for an evaluated right-hand side `rhs`, where
`a op= b` stores `f a b`: the non-`const` overload, a read and a write through it. -/
def Vector.compoundAt (f : Scalar → Scalar → Scalar) (this : Fin n) (i : Nat) (rhs : Scalar) :
    Exec (Store Scalar k n) Unit :=
  Exec.andThen (Vector.index this i) (fun r =>
    Exec.andThen r.load (fun cur => r.store (f cur rhs)))

/-- The store extended by one more object `v`, at the new last address. -/
def Store.push (s : Store Scalar k n) (v : Vector Scalar k) : Store Scalar k (n + 1) :=
  fun a => if h : a.val < n then s ⟨a.val, h⟩ else v

/-- The store without its last object. -/
def Store.pop (s : Store Scalar k (n + 1)) : Store Scalar k n :=
  fun a => s a.castSucc

/-- The expression `return Vector<Scalar,2>(*this) op= arg;` of a `const` member
function: a temporary is copy-constructed from `*this`, the compound assignment `body`
runs on the temporary and yields a reference, the referenced vector is returned by value
and the temporary is destroyed. -/
def Vector.onCopy (this : Fin n)
    (body : Fin (n + 1) → Exec (Store Scalar k (n + 1)) (Fin (n + 1))) :
    Exec (Store Scalar k n) (Vector Scalar k) :=
  fun s =>
    match body (Fin.last n) (s.push (s this)) with
    | (Except.ok r, s1) => (Except.ok (s1 r), s1.pop)
    | (Except.error e, s1) => (Except.error e, s1.pop)

/-- Source: `Vector<Scalar,2>& Vector<Scalar,2>::operator+=(const Vector<Scalar,2> &vec2)` -/
def Vector.addAssign (S : ScalarOps Scalar) (this vec2 : Fin n) :
    Exec (Store Scalar k n) (Fin n) :=
  Exec.andThen
    (Exec.forUpTo 2 (fun i =>
      Exec.andThen (Vector.readConst vec2 i) (fun rhs => Vector.compoundAt S.add this i rhs)))
    (fun _ => Exec.ret this)

/-- Source: `const Vector<Scalar,2> Vector<Scalar,2>::operator+(const Vector<Scalar,2> &vec2) const` -/
def Vector.add (S : ScalarOps Scalar) (this vec2 : Fin n) :
    Exec (Store Scalar k n) (Vector Scalar k) :=
  Vector.onCopy this (fun tmp => Vector.addAssign S tmp vec2.castSucc)

/-- Source: `Vector<Scalar,2>& Vector<Scalar,2>::operator-=(const Vector<Scalar,2> &vec2)` -/
def Vector.subAssign (S : ScalarOps Scalar) (this vec2 : Fin n) :
    Exec (Store Scalar k n) (Fin n) :=
  Exec.andThen
    (Exec.forUpTo 2 (fun i =>
      Exec.andThen (Vector.readConst vec2 i) (fun rhs => Vector.compoundAt S.sub this i rhs)))
    (fun _ => Exec.ret this)

/-- Source: `const Vector<Scalar,2> Vector<Scalar,2>::operator-(const Vector<Scalar,2> &vec2) const` -/
def Vector.sub (S : ScalarOps Scalar) (this vec2 : Fin n) :
    Exec (Store Scalar k n) (Vector Scalar k) :=
  Vector.onCopy this (fun tmp => Vector.subAssign S tmp vec2.castSucc)

/-- Source: `bool Vector<Scalar,2>::operator==(const Vector<Scalar,2> &vec2) const` -/
def Vector.eq (S : ScalarOps Scalar) (this vec2 : Fin n) : Exec (Store Scalar k n) Bool :=
  Exec.forUpToReturning 2 (fun i =>
    if S.is_floating_point then
      Exec.andThen (Vector.readConst this i) (fun a =>
        Exec.andThen (Vector.readConst vec2 i) (fun b =>
          if S.isEqual a b == false then Exec.ret (some false) else Exec.ret none))
    else
      Exec.andThen (Vector.readConst this i) (fun a =>
        Exec.andThen (Vector.readConst vec2 i) (fun b =>
          if S.ne a b then Exec.ret (some false) else Exec.ret none)))
    true

/-- Source: `bool Vector<Scalar,2>::operator!=(const Vector<Scalar,2> &vec2) const` -/
def Vector.ne (S : ScalarOps Scalar) (this vec2 : Fin n) : Exec (Store Scalar k n) Bool :=
  Exec.andThen (Vector.eq S this vec2) (fun b => Exec.ret (!b))

/-- Source: `Vector<Scalar,2>& Vector<Scalar,2>::operator+=(Scalar value)` -/
def Vector.addAssignScalar (S : ScalarOps Scalar) (this : Fin n) (value : Scalar) :
    Exec (Store Scalar k n) (Fin n) :=
  Exec.andThen (Exec.forUpTo 2 (fun i => Vector.compoundAt S.add this i value))
    (fun _ => Exec.ret this)

/-- Source: `const Vector<Scalar,2> Vector<Scalar,2>::operator+(Scalar value) const` -/
def Vector.addScalar (S : ScalarOps Scalar) (this : Fin n) (value : Scalar) :
    Exec (Store Scalar k n) (Vector Scalar k) :=
  Vector.onCopy this (fun tmp => Vector.addAssignScalar S tmp value)

/-- Source: `Vector<Scalar,2>& Vector<Scalar,2>::operator-=(Scalar value)` -/
def Vector.subAssignScalar (S : ScalarOps Scalar) (this : Fin n) (value : Scalar) :
    Exec (Store Scalar k n) (Fin n) :=
  Exec.andThen (Exec.forUpTo 2 (fun i => Vector.compoundAt S.sub this i value))
    (fun _ => Exec.ret this)

/-- Source: `const Vector<Scalar,2> Vector<Scalar,2>::operator-(Scalar value) const` -/
def Vector.subScalar (S : ScalarOps Scalar) (this : Fin n) (value : Scalar) :
    Exec (Store Scalar k n) (Vector Scalar k) :=
  Vector.onCopy this (fun tmp => Vector.subAssignScalar S tmp value)

/-- Source: `Vector<Scalar,2>& Vector<Scalar,2>::operator*=(Scalar scale)` -/
def Vector.mulAssignScalar (S : ScalarOps Scalar) (this : Fin n) (scale : Scalar) :
    Exec (Store Scalar k n) (Fin n) :=
  Exec.andThen (Exec.forUpTo 2 (fun i => Vector.compoundAt S.mul this i scale))
    (fun _ => Exec.ret this)

/-- Source: `const Vector<Scalar,2> Vector<Scalar,2>::operator*(Scalar scale) const` -/
def Vector.mulScalar (S : ScalarOps Scalar) (this : Fin n) (scale : Scalar) :
    Exec (Store Scalar k n) (Vector Scalar k) :=
  Vector.onCopy this (fun tmp => Vector.mulAssignScalar S tmp scale)

/-- Source: `Vector<Scalar,2>& Vector<Scalar,2>::operator/=(Scalar scale)` -/
def Vector.divAssignScalar (S : ScalarOps Scalar) (this : Fin n) (scale : Scalar) :
    Exec (Store Scalar k n) (Fin n) :=
  if S.le (S.abs scale) S.epsilon then
    Exec.raise ⟨"Vector Divide by zero error!"⟩
  else
    Exec.andThen (Exec.forUpTo 2 (fun i => Vector.compoundAt S.div this i scale))
      (fun _ => Exec.ret this)

/-- Source: `const Vector<Scalar,2> Vector<Scalar,2>::operator/(Scalar scale) const` -/
def Vector.divScalar (S : ScalarOps Scalar) (this : Fin n) (scale : Scalar) :
    Exec (Store Scalar k n) (Vector Scalar k) :=
  Vector.onCopy this (fun tmp => Vector.divAssignScalar S tmp scale)

/-- Source: `const Vector<Scalar,2> Vector<Scalar,2>::operator-(void) const` -/
def Vector.neg (S : ScalarOps Scalar) (this : Fin n) : Exec (Store Scalar k n) (Vector Scalar k) :=
  Exec.andThen (Vector.readConst this 0) (fun a =>
    Exec.andThen (Vector.readConst this 1) (fun b =>
      Exec.ret (Vector.ctor2 k (S.neg a) (S.neg b))))

/-- The expression `(*this)[0]*(*this)[0] + (*this)[1]*(*this)[1]`. -/
def Vector.sumOfSquares (S : ScalarOps Scalar) (this : Fin n) : Exec (Store Scalar k n) Scalar :=
  Exec.andThen (Vector.readConst this 0) (fun a0 =>
    Exec.andThen (Vector.readConst this 0) (fun b0 =>
      Exec.andThen (Vector.readConst this 1) (fun a1 =>
        Exec.andThen (Vector.readConst this 1) (fun b1 =>
          Exec.ret (S.add (S.mul a0 b0) (S.mul a1 b1))))))

/-- Source: `Scalar Vector<Scalar,2>::norm() const` -/
def Vector.norm (S : ScalarOps Scalar) (this : Fin n) : Exec (Store Scalar k n) Scalar :=
  Exec.andThen (Vector.sumOfSquares S this) (fun result => Exec.ret (S.sqrt result))

/-- Source: `Scalar Vector<Scalar,2>::normSquared() const` -/
def Vector.normSquared (S : ScalarOps Scalar) (this : Fin n) : Exec (Store Scalar k n) Scalar :=
  Vector.sumOfSquares S this

/-- Source: `Vector<Scalar,2>& Vector<Scalar,2>::normalize()` -/
def Vector.normalize (S : ScalarOps Scalar) (this : Fin n) : Exec (Store Scalar k n) (Fin n) :=
  Exec.andThen (Vector.norm S this) (fun norm =>
    let nonzero_norm := S.gt norm S.epsilon
    Exec.andThen
      (if nonzero_norm then
        Exec.forUpTo 2 (fun i => Vector.compoundAt S.div this i norm)
      else
        Exec.ret ())
      (fun _ => Exec.ret this))

/-- Source: `Scalar Vector<Scalar,2>::cross(const Vector<Scalar,2>& vec2) const` -/
def Vector.cross (S : ScalarOps Scalar) (this vec2 : Fin n) : Exec (Store Scalar k n) Scalar :=
  Exec.andThen (Vector.readConst this 0) (fun a0 =>
    Exec.andThen (Vector.readConst vec2 1) (fun b1 =>
      Exec.andThen (Vector.readConst this 1) (fun a1 =>
        Exec.andThen (Vector.readConst vec2 0) (fun b0 =>
          Exec.ret (S.sub (S.mul a0 b1) (S.mul a1 b0))))))

/-- Source: `Scalar Vector<Scalar,2>::dot(const Vector<Scalar,2>& vec2) const` -/
def Vector.dot (S : ScalarOps Scalar) (this vec2 : Fin n) : Exec (Store Scalar k n) Scalar :=
  Exec.andThen (Vector.readConst this 0) (fun a0 =>
    Exec.andThen (Vector.readConst vec2 0) (fun b0 =>
      Exec.andThen (Vector.readConst this 1) (fun a1 =>
        Exec.andThen (Vector.readConst vec2 1) (fun b1 =>
          Exec.ret (S.add (S.mul a0 b0) (S.mul a1 b1))))))

/-- Evaluation of a sub-expression `e` that returns a vector by value: its result is a
temporary object, which the rest `body` of the full expression refers to by its address
(the objects already in scope keep theirs, under `Fin.castSucc`); the temporary is
destroyed at the end of the full expression. -/
def withTemporary {α : Type} (e : Exec (Store Scalar k n) (Vector Scalar k))
    (body : Fin (n + 1) → Exec (Store Scalar k (n + 1)) α) : Exec (Store Scalar k n) α :=
  fun s =>
    match e s with
    | (Except.error x, s1) => (Except.error x, s1)
    | (Except.ok v, s1) =>
        match body (Fin.last n) (s1.push v) with
        | (r, s2) => (r, s2.pop)

/-! ## Client programs over vector objects -/

/-- One statement of a client of `Vector<Scalar,2>` over the `n` vector objects in
scope: a constructor call or one of the operations of `vector_2d.cpp`. A vector
returned by value is assigned to `dst`. -/
inductive Op (Scalar : Type) (n : Nat) where
  | construct0 (dst : Fin n)
  | construct1 (dst : Fin n) (x : Scalar)
  | construct2 (dst : Fin n) (x y : Scalar)
  | readIndex (v : Fin n) (idx : Nat)
  | writeIndex (v : Fin n) (idx : Nat) (x : Scalar)
  | add (dst a b : Fin n)
  | addAssign (a b : Fin n)
  | sub (dst a b : Fin n)
  | subAssign (a b : Fin n)
  | eq (a b : Fin n)
  | ne (a b : Fin n)
  | addScalar (dst a : Fin n) (value : Scalar)
  | addAssignScalar (a : Fin n) (value : Scalar)
  | subScalar (dst a : Fin n) (value : Scalar)
  | subAssignScalar (a : Fin n) (value : Scalar)
  | mulScalar (dst a : Fin n) (scale : Scalar)
  | mulAssignScalar (a : Fin n) (scale : Scalar)
  | divScalar (dst a : Fin n) (scale : Scalar)
  | divAssignScalar (a : Fin n) (scale : Scalar)
  | neg (dst a : Fin n)
  | norm (a : Fin n)
  | normSquared (a : Fin n)
  | normalize (a : Fin n)
  | cross (a b : Fin n)
  | dot (a b : Fin n)

/-- What a client observes of one statement. -/
inductive Obs (Scalar : Type) where
  | unit
  | scalar (x : Scalar)
  | bool (b : Bool)
  | vector (x y : Scalar)
  | reference (address : Nat)
  | thrown (e : PhysikaException)
deriving DecidableEq, Repr

/-- The two components of a vector object, read from its storage. -/
def Vector.components (v : Vector Scalar k) : Scalar × Scalar :=
  (v.storageGet 0, v.storageGet 1)

/-- Run a member function and observe its result or the exception it throws. -/
def observe {σ α : Type} (m : Exec σ α) (obs : α → Obs Scalar) : σ → Obs Scalar × σ :=
  fun s =>
    match m s with
    | (Except.ok a, s1) => (obs a, s1)
    | (Except.error e, s1) => (Obs.thrown e, s1)

/-- The statement `dst = e;` for an expression `e` that returns a vector by value. -/
def assignTo (dst : Fin n) (e : Exec (Store Scalar k n) (Vector Scalar k)) :
    Exec (Store Scalar k n) (Vector Scalar k) :=
  Exec.andThen e (fun v => Exec.andThen (construct dst v) (fun _ => Exec.ret v))

/-- The observation of a vector returned by value. -/
def Obs.ofVector (v : Vector Scalar k) : Obs Scalar :=
  Obs.vector v.components.1 v.components.2

/-- The observation of a returned `Vector&`. -/
def Obs.ofRef (a : Fin n) : Obs Scalar := Obs.reference a.val

/-- Execution of one client statement. -/
def Op.exec (S : ScalarOps Scalar) : Op Scalar n → Store Scalar k n → Obs Scalar × Store Scalar k n
  | Op.construct0 dst => observe (construct dst (Vector.ctor0 k S)) (fun _ => Obs.unit)
  | Op.construct1 dst x => observe (construct dst (Vector.ctor1 k x)) (fun _ => Obs.unit)
  | Op.construct2 dst x y => observe (construct dst (Vector.ctor2 k x y)) (fun _ => Obs.unit)
  | Op.readIndex v idx => observe (Vector.readConst v idx) Obs.scalar
  | Op.writeIndex v idx x =>
      observe (Exec.andThen (Vector.index v idx) (fun r => r.store x)) (fun _ => Obs.unit)
  | Op.add dst a b => observe (assignTo dst (Vector.add S a b)) Obs.ofVector
  | Op.addAssign a b => observe (Vector.addAssign S a b) Obs.ofRef
  | Op.sub dst a b => observe (assignTo dst (Vector.sub S a b)) Obs.ofVector
  | Op.subAssign a b => observe (Vector.subAssign S a b) Obs.ofRef
  | Op.eq a b => observe (Vector.eq S a b) Obs.bool
  | Op.ne a b => observe (Vector.ne S a b) Obs.bool
  | Op.addScalar dst a value => observe (assignTo dst (Vector.addScalar S a value)) Obs.ofVector
  | Op.addAssignScalar a value => observe (Vector.addAssignScalar S a value) Obs.ofRef
  | Op.subScalar dst a value => observe (assignTo dst (Vector.subScalar S a value)) Obs.ofVector
  | Op.subAssignScalar a value => observe (Vector.subAssignScalar S a value) Obs.ofRef
  | Op.mulScalar dst a scale => observe (assignTo dst (Vector.mulScalar S a scale)) Obs.ofVector
  | Op.mulAssignScalar a scale => observe (Vector.mulAssignScalar S a scale) Obs.ofRef
  | Op.divScalar dst a scale => observe (assignTo dst (Vector.divScalar S a scale)) Obs.ofVector
  | Op.divAssignScalar a scale => observe (Vector.divAssignScalar S a scale) Obs.ofRef
  | Op.neg dst a => observe (assignTo dst (Vector.neg S a)) Obs.ofVector
  | Op.norm a => observe (Vector.norm S a) Obs.scalar
  | Op.normSquared a => observe (Vector.normSquared S a) Obs.scalar
  | Op.normalize a => observe (Vector.normalize S a) Obs.ofRef
  | Op.cross a b => observe (Vector.cross S a b) Obs.scalar
  | Op.dot a b => observe (Vector.dot S a b) Obs.scalar

/-- Execution of a sequence of client statements: the observations in order and the
final store. A statement that throws is observed as such and the client goes on. -/
def run (S : ScalarOps Scalar) : List (Op Scalar n) → Store Scalar k n →
    List (Obs Scalar) × Store Scalar k n
  | [], s => ([], s)
  | op :: rest, s =>
      let r := op.exec S s
      let rs := run S rest r.2
      (r.1 :: rs.1, rs.2)

/-- The store in which object `a` was constructed as `Vector(c a).1, (c a).2)`. -/
def Store.ofComponents (k : StorageKind) (c : Fin n → Scalar × Scalar) : Store Scalar k n :=
  fun a => Vector.ctor2 k (c a).1 (c a).2

/-- The components of every object of a store. -/
def Store.components (s : Store Scalar k n) : Fin n → Scalar × Scalar :=
  fun a => (s a).components

/-! ## `PointSet` accessors -/

/-- Modelled from the spec: `DeviceArray<T>` is declared outside the sources at hand; it
is a typed container, taken as the sequence of its elements, `size()` being their number. -/
abbrev DeviceArray (T : Type) : Type := List T

/-- The data members of `PointSet<TDataType>`; `Neighbors` stands for `NeighborList<int>`. -/
structure PointSet (Real Coord Neighbors : Type) where
  m_samplingDistance : Real
  m_coords : DeviceArray Coord
  m_normals : DeviceArray Coord
  m_pointNeighbors : Neighbors

/-- A reference `DeviceArray<Coord>&` into a point set: the member it refers to. -/
inductive PointSet.ArrayRef where
  | m_coords
  | m_normals
deriving DecidableEq, Repr

namespace PointSet

variable {Real Coord Neighbors : Type}

/-- Reading through a `DeviceArray<Coord>&`. -/
def load (ps : PointSet Real Coord Neighbors) : ArrayRef → DeviceArray Coord
  | ArrayRef.m_coords => ps.m_coords
  | ArrayRef.m_normals => ps.m_normals

/-- Assigning through a `DeviceArray<Coord>&`. -/
def store (ps : PointSet Real Coord Neighbors) (r : ArrayRef) (a : DeviceArray Coord) :
    PointSet Real Coord Neighbors :=
  match r with
  | ArrayRef.m_coords => { ps with m_coords := a }
  | ArrayRef.m_normals => { ps with m_normals := a }

/-- Source: `DeviceArray<Coord>& getPoints() { return m_coords; }` -/
def getPoints (_ps : PointSet Real Coord Neighbors) : ArrayRef := ArrayRef.m_coords

/-- Source: `DeviceArray<Coord>& getNormals() { return m_coords; }` -/
def getNormals (_ps : PointSet Real Coord Neighbors) : ArrayRef := ArrayRef.m_coords

/-- Source: `int getPointSize() { return m_coords.size(); }` -/
def getPointSize (ps : PointSet Real Coord Neighbors) : Int := Int.ofNat ps.m_coords.length

end PointSet

/-! ## GLSL vectors and matrices

Shader arithmetic is embedded over a linearly ordered field `F` (the rationals to
compute, the reals to state the theorems); `sqrt` is a parameter. -/

/-- GLSL `vec3`. -/
structure vec3 (F : Type) where
  x : F
  y : F
  z : F
deriving DecidableEq, Repr

/-- GLSL `vec4`. -/
structure vec4 (F : Type) where
  x : F
  y : F
  z : F
  w : F
deriving DecidableEq, Repr

/-- GLSL `mat4`, stored by columns: `m[i]` is `col i`. -/
structure mat4 (F : Type) where
  col0 : vec4 F
  col1 : vec4 F
  col2 : vec4 F
  col3 : vec4 F
deriving DecidableEq, Repr

section Glsl

variable {F : Type} [LinearOrderedField F]

/-- The swizzle `v.xyz`. -/
def vec4.xyz (v : vec4 F) : vec3 F := ⟨v.x, v.y, v.z⟩

/-- The constructor `vec4(v, w)` from a `vec3` and a float. -/
def vec4.ofVec3 (v : vec3 F) (w : F) : vec4 F := ⟨v.x, v.y, v.z, w⟩

/-- GLSL `v * s` for a `vec3` and a float. -/
def vec3.scale (v : vec3 F) (s : F) : vec3 F := ⟨v.x * s, v.y * s, v.z * s⟩

/-- GLSL `v / s` for a `vec3` and a float `s` other than zero. -/
def vec3.divide (v : vec3 F) (s : F) : vec3 F := ⟨v.x / s, v.y / s, v.z / s⟩

/-- GLSL `-v` for a `vec4`. -/
def vec4.neg (v : vec4 F) : vec4 F := ⟨-v.x, -v.y, -v.z, -v.w⟩

/-- GLSL `v * s` for a `vec4` and a float. -/
def vec4.scale (v : vec4 F) (s : F) : vec4 F := ⟨v.x * s, v.y * s, v.z * s, v.w * s⟩

/-- GLSL `u + v` for two `vec4`. -/
def vec4.add (u v : vec4 F) : vec4 F := ⟨u.x + v.x, u.y + v.y, u.z + v.z, u.w + v.w⟩

/-- GLSL `transpose(m)`. -/
def mat4.transpose (m : mat4 F) : mat4 F :=
  ⟨⟨m.col0.x, m.col1.x, m.col2.x, m.col3.x⟩,
   ⟨m.col0.y, m.col1.y, m.col2.y, m.col3.y⟩,
   ⟨m.col0.z, m.col1.z, m.col2.z, m.col3.z⟩,
   ⟨m.col0.w, m.col1.w, m.col2.w, m.col3.w⟩⟩

/-- GLSL `m * v`: the combination of the columns of `m` with the components of `v`. -/
def mat4.mulVec (m : mat4 F) (v : vec4 F) : vec4 F :=
  vec4.add (vec4.add (vec4.add (m.col0.scale v.x) (m.col1.scale v.y)) (m.col2.scale v.z))
    (m.col3.scale v.w)

/-- GLSL `a * b` for two `mat4`: column `i` of the product is `a * b[i]`. -/
def mat4.mul (a b : mat4 F) : mat4 F :=
  ⟨a.mulVec b.col0, a.mulVec b.col1, a.mulVec b.col2, a.mulVec b.col3⟩

/-- The identity matrix `mat4(1.0)`. -/
def mat4.identity : mat4 F :=
  ⟨⟨1, 0, 0, 0⟩, ⟨0, 1, 0, 0⟩, ⟨0, 0, 1, 0⟩, ⟨0, 0, 0, 1⟩⟩

/-- The dot product of two `vec3`. -/
def vec3.dot (u v : vec3 F) : F := u.x * v.x + u.y * v.y + u.z * v.z

/-- A float expression that may have no real value: `none` is an `out` parameter left
unwritten or the quotient of a division by zero. -/
abbrev GlFloat (F : Type) : Type := Option F

/-- The quotient `x / y`; it has no real value when `y` is zero. -/
def GlFloat.quotient (x y : F) : GlFloat F := if y = 0 then none else some (x / y)

/-- The comparison `x > y`; it is false when an operand has no real value. -/
def GlFloat.gt : GlFloat F → GlFloat F → Bool
  | some x, some y => decide (x > y)
  | _, _ => false

/-- The result of a call `solveQuadratic(a, b, c, minT, maxT)`: the returned `bool` and
the values copied out to `minT` and `maxT`. -/
structure QuadraticResult (F : Type) where
  ret : Bool
  minT : GlFloat F
  maxT : GlFloat F
deriving DecidableEq, Repr

end Glsl

/-! ## `vertex_ellipsoid_depth_shader` -/

namespace vertex_ellipsoid_depth_shader

variable {F : Type} [LinearOrderedField F]

/-- Source: `float Sign(float x) { return x < 0.0 ? -1.0 : 1.0; }` -/
def Sign (x : F) : F := if x < 0 then -1 else 1

/-- Source: `bool solveQuadratic(float a, float b, float c, out float minT, out float maxT)` -/
def solveQuadratic (sqrt : F → F) (a b c : F) : QuadraticResult F :=
  if a = 0 ∧ b = 0 then
    ⟨false, some 0, some 0⟩
  else
    let discriminant := b * b - 4 * a * c
    if discriminant < 0 then
      ⟨false, none, none⟩
    else
      let t := -(1 / 2) * (b + Sign b * sqrt discriminant)
      let minT := GlFloat.quotient t a
      let maxT := GlFloat.quotient c t
      if GlFloat.gt minT maxT then
        ⟨true, maxT, minT⟩
      else
        ⟨true, minT, maxT⟩

/-- The matrix `q` of `main` ("construct quadric matrix"), from the attributes `q1`,
`q2`, `q3` and `worldPos = gl_Vertex.xyz`. -/
def q (q1 q2 q3 : vec4 F) (worldPos : vec3 F) : mat4 F :=
  ⟨vec4.ofVec3 (q1.xyz.scale q1.w) 0,
   vec4.ofVec3 (q2.xyz.scale q2.w) 0,
   vec4.ofVec3 (q3.xyz.scale q3.w) 0,
   vec4.ofVec3 worldPos 1⟩

/-- The matrix `invq` of `main` ("construct inverse quadric matrix") as it stands after
the statement `invq[3] = -(invq*gl_Position);`, with `gl_Position = vec4(worldPos.xyz, 1.0)`. -/
def invq (q1 q2 q3 : vec4 F) (worldPos : vec3 F) : mat4 F :=
  let gl_Position : vec4 F := vec4.ofVec3 worldPos 1
  let invq0 : mat4 F :=
    ⟨vec4.ofVec3 (q1.xyz.divide q1.w) 0,
     vec4.ofVec3 (q2.xyz.divide q2.w) 0,
     vec4.ofVec3 (q3.xyz.divide q3.w) 0,
     ⟨0, 0, 0, 1⟩⟩
  let invq1 : mat4 F := invq0.transpose
  ⟨invq1.col0, invq1.col1, invq1.col2, (invq1.mulVec gl_Position).neg⟩

end vertex_ellipsoid_depth_shader

/-! ## `fragment_ellipsoid_depth_shader` -/

namespace fragment_ellipsoid_depth_shader

variable {F : Type} [LinearOrderedField F]

/-- Source: `float Sign(float x) { return x < 0.0 ? -1.0 : 1.0; }` -/
def Sign (x : F) : F := if x < 0 then -1 else 1

/-- Source: `bool solveQuadratic(float a, float b, float c, out float minT, out float maxT)` -/
def solveQuadratic (sqrt : F → F) (a b c : F) : QuadraticResult F :=
  if a = 0 ∧ b = 0 then
    ⟨true, some 0, some 0⟩
  else
    let discriminant := b * b - 4 * a * c
    if discriminant < 0 then
      ⟨false, none, none⟩
    else
      let t := -(1 / 2) * (b + Sign b * sqrt discriminant)
      let minT := GlFloat.quotient t a
      let maxT := GlFloat.quotient c t
      if GlFloat.gt minT maxT then
        ⟨true, maxT, minT⟩
      else
        ⟨true, minT, maxT⟩

end fragment_ellipsoid_depth_shader

/-! ## Further GLSL types and operations -/

/-- GLSL `vec2`. -/
structure vec2 (F : Type) where
  x : F
  y : F
deriving DecidableEq, Repr

section GlslMore

variable {F : Type} [LinearOrderedField F]

/-- The loop `for (int i = 0; i < n; i++) body(i);` over a state `σ`. -/
def forInt {σ : Type} : (n : Nat) → (body : Nat → σ → σ) → σ → σ
  | 0, _, s => s
  | n + 1, body, s => body n (forInt n body s)

/-- The loop `for (float x = lo; x <= hi; x += 1.0) body(x);` over a state `σ`, run for
at most `fuel` iterations. -/
def forFloat {σ : Type} : (fuel : Nat) → (lo hi : F) → (body : F → σ → σ) → σ → σ
  | 0, _, _, _, s => s
  | fuel + 1, lo, hi, body, s =>
      if lo ≤ hi then forFloat fuel (lo + 1) hi body (body lo s) else s

/-- A binary float operation on operands that may have no real value. -/
def GlFloat.map2 (f : F → F → F) : GlFloat F → GlFloat F → GlFloat F
  | some x, some y => some (f x y)
  | _, _ => none

/-- The quotient of two operands that may have no real value. -/
def GlFloat.div : GlFloat F → GlFloat F → GlFloat F
  | some x, some y => GlFloat.quotient x y
  | _, _ => none

/-- GLSL `mix(x, y, a) = x*(1 - a) + y*a`. -/
def mix (x y a : F) : F := x * (1 - a) + y * a

/-- GLSL `step(edge, x)`: `0.0` if `x < edge`, else `1.0`. -/
def step (edge x : F) : F := if x < edge then 0 else 1

/-- GLSL `cross(u, v)` for two `vec3`. -/
def vec3.cross (u v : vec3 F) : vec3 F :=
  ⟨u.y * v.z - u.z * v.y, u.z * v.x - u.x * v.z, u.x * v.y - u.y * v.x⟩

/-- GLSL `u + v` for two `vec3`. -/
def vec3.add (u v : vec3 F) : vec3 F := ⟨u.x + v.x, u.y + v.y, u.z + v.z⟩

/-- GLSL `u - v` for two `vec3`. -/
def vec3.sub (u v : vec3 F) : vec3 F := ⟨u.x - v.x, u.y - v.y, u.z - v.z⟩

end GlslMore

/-! ## The point sprite fragment shaders -/

namespace fragment_point_shader

variable {F : Type} [LinearOrderedField F]

/-- The vector `normal` of `main` after `normal.z = sqrt(1.0 - mag);`, computed from
`gl_PointCoord.xy`; `none` when the fragment is discarded (`if (mag > 1.0) discard;`). -/
def normal (sqrt : F → F) (gl_PointCoord : vec2 F) : Option (vec3 F) :=
  let normal_x := gl_PointCoord.x * 2 + -1
  let normal_y := gl_PointCoord.y * -2 + 1
  let mag := normal_x * normal_x + normal_y * normal_y
  if mag > 1 then none
  else some ⟨normal_x, normal_y, sqrt (1 - mag)⟩

end fragment_point_shader

namespace fragment_point_depth_shader

variable {F : Type} [LinearOrderedField F]

/-- The vector `normal` of `main` after `normal.z = sqrt(1.0 - mag);`, computed from
`gl_TexCoord[0].xy`; `none` when the fragment is discarded (`if (mag > 1.0) discard;`). -/
def normal (sqrt : F → F) (gl_TexCoord0 : vec2 F) : Option (vec3 F) :=
  let normal_x := gl_TexCoord0.x * 2 + -1
  let normal_y := gl_TexCoord0.y * -2 + 1
  let mag := normal_x * normal_x + normal_y * normal_y
  if mag > 1 then none
  else some ⟨normal_x, normal_y, sqrt (1 - mag)⟩

end fragment_point_depth_shader

namespace fragment_point_thickness_shader

variable {F : Type} [LinearOrderedField F]

/-- The vector `normal` of `main` after `normal.z = sqrt(1.0 - mag);`, computed from
`gl_TexCoord[0].xy`; `none` when the fragment is discarded (`if (mag > 1.0) discard;`). -/
def normal (sqrt : F → F) (gl_TexCoord0 : vec2 F) : Option (vec3 F) :=
  let normal_x := gl_TexCoord0.x * 2 + -1
  let normal_y := gl_TexCoord0.y * -2 + 1
  let mag := normal_x * normal_x + normal_y * normal_y
  if mag > 1 then none
  else some ⟨normal_x, normal_y, sqrt (1 - mag)⟩

/-- Source: `void main()`: the colour `gl_FragColor = vec4(normal.z*0.005)` written for a
fragment that is kept, `none` for a discarded fragment. -/
def main (sqrt : F → F) (gl_TexCoord0 : vec2 F) : Option (vec4 F) :=
  match normal sqrt gl_TexCoord0 with
  | none => none
  | some nrm => some ⟨nrm.z * (5 / 1000), nrm.z * (5 / 1000), nrm.z * (5 / 1000), nrm.z * (5 / 1000)⟩

end fragment_point_thickness_shader

/-! ## `fragment_shader`: `shadowSample` -/

namespace fragment_shader

variable {F : Type} [LinearOrderedField F]

/-- The vector `uvw` of `shadowSample`, from `gl_TexCoord[1]`:
`pos = gl_TexCoord[1].xyz / gl_TexCoord[1].w`, `uvw = pos.xyz*0.5 + 0.5`. It has no real
value when `gl_TexCoord[1].w` is zero. -/
def shadowSample_uvw (gl_TexCoord1 : vec4 F) : Option (vec3 F) :=
  if gl_TexCoord1.w = 0 then none
  else
    let pos : vec3 F := gl_TexCoord1.xyz.divide gl_TexCoord1.w
    some ⟨pos.x * (1 / 2) + 1 / 2, pos.y * (1 / 2) + 1 / 2, pos.z * (1 / 2) + 1 / 2⟩

/-- The flag `isShadow` of iteration `i` of the loop of `shadowSample`, with
`radius = 0.002f` and `bias = 0.000f`; `shadowTex` gives the `r` channel of the shadow map. -/
def shadowSample_isShadow (shadowTex : vec2 F → F) (shadowTaps : Nat → vec2 F) (uvw : vec3 F)
    (i : Nat) : Bool :=
  let radius : F := 2 / 1000
  let bias : F := 0
  decide (uvw.z - bias >
    shadowTex ⟨uvw.x + (shadowTaps i).x * radius, uvw.y + (shadowTaps i).y * radius⟩)

/-- The body of `shadowSample` once `uvw` is known: the user clip, the loop over the
`numTaps = 12` taps and `s /= numTaps`. -/
def shadowSample_from (shadowTex : vec2 F → F) (shadowTaps : Nat → vec2 F) (uvw : vec3 F) : F :=
  if uvw.x < 0 ∨ uvw.x > 1 then 1
  else if uvw.y < 0 ∨ uvw.y > 1 then 1
  else
    let numTaps : Nat := 12
    let s : F := forInt numTaps (fun i s =>
      if shadowSample_isShadow shadowTex shadowTaps uvw i == false then s + 1 else s) 0
    s / (numTaps : F)

/-- Source: `float shadowSample()` of `fragment_shader`. -/
def shadowSample (shadowTex : vec2 F → F) (shadowTaps : Nat → vec2 F) (gl_TexCoord1 : vec4 F) :
    GlFloat F :=
  match shadowSample_uvw gl_TexCoord1 with
  | none => none
  | some uvw => some (shadowSample_from shadowTex shadowTaps uvw)

end fragment_shader

/-! ## The geometry shaders -/

namespace geometry_ellipsoid_depth_shader

variable {F : Type} [LinearOrderedField F]

/-- A vertex emitted by `EmitVertex()`: `gl_Position` and `gl_TexCoord[0..3]` as they
stand at the call. -/
structure EmittedVertex (F : Type) where
  gl_Position : vec4 F
  gl_TexCoord : List (vec4 F)
deriving DecidableEq, Repr

/-- Source: `void main()` of `geometry_ellipsoid_depth_shader`: the vertices emitted, in
order, for the input primitive with `gl_TexCoordIn[0][i] = gl_TexCoordIn0 i`. -/
def main (gl_PositionIn0 : vec4 F) (gl_TexCoordIn0 : Nat → vec4 F) : List (EmittedVertex F) :=
  let _pos : vec3 F := gl_PositionIn0.xyz
  let bounds := gl_TexCoordIn0 0
  let ndcPos := gl_TexCoordIn0 5
  let ndcBound : F := 1
  if ndcPos.x < -ndcBound then []
  else if ndcPos.x > ndcBound then []
  else if ndcPos.y < -ndcBound then []
  else if ndcPos.y > ndcBound then []
  else
    let xmin := bounds.x
    let xmax := bounds.y
    let ymin := bounds.z
    let ymax := bounds.w
    let gl_TexCoord := [gl_TexCoordIn0 1, gl_TexCoordIn0 2, gl_TexCoordIn0 3, gl_TexCoordIn0 4]
    [⟨⟨xmin, ymax, 0, 1⟩, gl_TexCoord⟩,
     ⟨⟨xmin, ymin, 0, 1⟩, gl_TexCoord⟩,
     ⟨⟨xmax, ymax, 0, 1⟩, gl_TexCoord⟩,
     ⟨⟨xmax, ymin, 0, 1⟩, gl_TexCoord⟩]

end geometry_ellipsoid_depth_shader

namespace geometry_diffuse_shader

variable {F : Type} [LinearOrderedField F]

/-- A vertex emitted by `EmitVertex()`: `gl_Position` and `gl_TexCoord[0..5]` as they
stand at the call. The component `gl_TexCoord[3].w = fade` is a quotient and is kept apart. -/
structure EmittedVertex (F : Type) where
  gl_Position : vec4 F
  gl_TexCoord0 : vec4 F
  gl_TexCoord1 : vec4 F
  gl_TexCoord2 : vec4 F
  gl_TexCoord3_xyz : vec3 F
  gl_TexCoord3_w : GlFloat F
  gl_TexCoord4 : vec4 F
  gl_TexCoord5 : vec4 F
deriving DecidableEq, Repr

/-- Source: `void main()` of `geometry_diffuse_shader`: the vertices emitted, in order. The
built-ins `length` and `normalize` are parameters (GLSL leaves `normalize` of the zero
vector undefined). -/
def main (length : vec3 F → F) (normalize : vec3 F → vec3 F)
    (pointScale motionBlurScale diffusion : F) (lightDir : vec3 F)
    (gl_ModelViewMatrix gl_ProjectionMatrix : mat4 F) (gl_TexCoordIn0 : Nat → vec4 F) :
    List (EmittedVertex F) :=
  let ndcPos := gl_TexCoordIn0 5
  let ndcBound : F := 1
  if ndcPos.x < -ndcBound then []
  else if ndcPos.x > ndcBound then []
  else if ndcPos.y < -ndcBound then []
  else if ndcPos.y > ndcBound then []
  else
    let velocityScale : F := 1
    let v : vec3 F := (gl_TexCoordIn0 3).xyz.scale velocityScale
    let p : vec3 F := (gl_TexCoordIn0 2).xyz
    let lifeFade : F := mix (1 + diffusion) 1 (min 1 ((gl_TexCoordIn0 1).w * (25 / 100)))
    let u0 : vec3 F := (⟨0, pointScale, 0⟩ : vec3 F).scale lifeFade
    let l0 : vec3 F := (⟨pointScale, 0, 0⟩ : vec3 F).scale lifeFade
    let fade0 : GlFloat F := GlFloat.quotient 1 (lifeFade * lifeFade)
    let vlen : F := length v * motionBlurScale
    let len : F := max pointScale (vlen * (16 / 1000))
    let fade : GlFloat F :=
      if vlen > 1 / 2 then
        GlFloat.map2 min (some 1) (GlFloat.div (some 2) (GlFloat.quotient len pointScale))
      else fade0
    let u : vec3 F :=
      if vlen > 1 / 2 then (normalize v).scale (max pointScale (vlen * (16 / 1000))) else u0
    let l : vec3 F :=
      if vlen > 1 / 2 then (normalize (u.cross ⟨0, 0, -1⟩)).scale pointScale else l0
    let gl_TexCoord1 := gl_TexCoordIn0 1
    let gl_TexCoord2 := gl_TexCoordIn0 2
    let gl_TexCoord3_xyz := (gl_TexCoordIn0 3).xyz
    let gl_TexCoord4 : vec4 F :=
      vec4.ofVec3 (gl_ModelViewMatrix.mulVec (vec4.ofVec3 lightDir 0)).xyz (gl_TexCoordIn0 3).w
    let gl_TexCoord5 := gl_TexCoordIn0 4
    let zbias : F := 0
    let emit (gl_TexCoord0 : vec4 F) (corner : vec3 F) : EmittedVertex F :=
      let position := gl_ProjectionMatrix.mulVec (vec4.ofVec3 corner 1)
      ⟨⟨position.x, position.y, position.z - zbias, position.w⟩, gl_TexCoord0, gl_TexCoord1,
        gl_TexCoord2, gl_TexCoord3_xyz, fade, gl_TexCoord4, gl_TexCoord5⟩
    [emit ⟨0, 1, 0, 0⟩ ((p.add u).sub l),
     emit ⟨0, 0, 0, 0⟩ ((p.sub u).sub l),
     emit ⟨1, 1, 0, 0⟩ ((p.add u).add l),
     emit ⟨1, 0, 0, 0⟩ ((p.sub u).add l)]

end geometry_diffuse_shader

/-! ## `fragment_blur_depth_shader` -/

namespace fragment_blur_depth_shader

variable {F : Type} [LinearOrderedField F] [FloorRing F]

/-- Source: `float sqr(float x) { return x*x; }` -/
def sqr (x : F) : F := x * x

/-- The accumulators `sum`, `wsum` and `count` of the blur loops. -/
structure Accumulators (F : Type) where
  sum : GlFloat F
  wsum : GlFloat F
  count : F

/-- The body of the inner loop of `main` at the offset `(x, y)`. -/
def tap (exp sqrt : F → F) (depthTex : vec2 F → F) (gl_FragCoord : vec2 F)
    (depth blurDepthFalloff radius frac : F) (radiusInv : GlFloat F) (x y : F)
    (acc : Accumulators F) : Accumulators F :=
  let sample := depthTex ⟨gl_FragCoord.x + x, gl_FragCoord.y + y⟩
  if sample < -10000 * (1 / 2) then acc
  else
    let r1 : GlFloat F := GlFloat.map2 (fun a b => a * b) (some (sqrt (x * x + y * y))) radiusInv
    let w : GlFloat F := r1.map (fun r => exp (-(r * r)))
    let r2 : F := (sample - depth) * blurDepthFalloff
    let g : F := exp (-(r2 * r2))
    let wBoundary : F := step radius (max |x| |y|)
    let wFrac : F := 1 - wBoundary * frac
    ⟨GlFloat.map2 (fun a b => a + b) acc.sum (w.map (fun w => sample * w * g * wFrac)),
     GlFloat.map2 (fun a b => a + b) acc.wsum (w.map (fun w => w * g * wFrac)),
     acc.count + g * wFrac⟩

/-- Source: `void main()` of `fragment_blur_depth_shader`: the value written to
`gl_FragColor.x`. The samplers give the `x` channel; `exp` and `sqrt` are parameters. The
loops run `y` and `x` from `-taps` to `taps`, `taps = ceil(radius) <= 5`, which takes
`2*taps + 1` iterations each. On the path that divides by `-depth`, `depth` is not zero. -/
def main (exp sqrt : F → F) (depthTex : vec2 F → F) (thicknessTex : vec2 F → F)
    (blurRadiusWorld blurScale : F) (debug : Bool) (gl_FragCoord gl_TexCoord0 : vec2 F) :
    GlFloat F :=
  let depth := depthTex gl_FragCoord
  let _thickness := thicknessTex gl_TexCoord0
  if debug then some depth
  else if depth = 0 then some 0
  else
    let blurDepthFalloff : F := 55 / 10
    let maxBlurRadius : F := 5
    let radius : F := min maxBlurRadius (blurScale * (blurRadiusWorld / -depth))
    let radiusInv : GlFloat F := GlFloat.quotient 1 radius
    let taps : F := (Int.ceil radius : F)
    let frac : F := taps - radius
    let fuel : Nat := (2 * Int.ceil radius + 1).toNat
    let acc : Accumulators F :=
      forFloat fuel (-taps) taps (fun y acc =>
        forFloat fuel (-taps) taps (fun x acc =>
          tap exp sqrt depthTex gl_FragCoord depth blurDepthFalloff radius frac radiusInv x y acc)
          acc)
        ⟨some 0, some 0, 0⟩
    let sum : GlFloat F :=
      if GlFloat.gt acc.wsum (some 0) then GlFloat.div acc.sum acc.wsum else acc.sum
    let blend : GlFloat F := GlFloat.quotient acc.count (sqr (2 * radius + 1))
    GlFloat.map2 (fun s b => mix depth s b) sum blend

end fragment_blur_depth_shader

/-! # Theorems

## Auxiliary facts about storage, references and loops -/

theorem Exec.forUpTo_two {σ : Type} (body : Nat → Exec σ Unit) :
    Exec.forUpTo 2 body = Exec.andThen (body 0) (fun _ => body 1) := rfl

theorem Vector.storageGet_storageSet (v : Vector Scalar k) (i j : Fin 2) (x : Scalar) :
    (v.storageSet i x).storageGet j = if j = i then x else v.storageGet j := by
  cases v with
  | eigen m => simp [Vector.storageSet, Vector.storageGet, Function.update_apply]
  | builtIn d =>
    fin_cases i <;> fin_cases j <;> simp [Vector.storageSet, Vector.storageGet]

theorem Vector.storageGet_ctor2_zero (x y : Scalar) : (Vector.ctor2 k x y).storageGet 0 = x := by
  cases k <;> simp [Vector.ctor2, Vector.storageGet]

theorem Vector.storageGet_ctor2_one (x y : Scalar) : (Vector.ctor2 k x y).storageGet 1 = y := by
  cases k <;> simp [Vector.ctor2, Vector.storageGet]

theorem Vector.components_ctor2 (x y : Scalar) : (Vector.ctor2 k x y).components = (x, y) := by
  simp [Vector.components, Vector.storageGet_ctor2_zero, Vector.storageGet_ctor2_one]

theorem Vector.ext_components {v w : Vector Scalar k} (h : v.components = w.components) : v = w := by
  cases v with
  | eigen m =>
    cases w with
    | eigen m2 =>
      simp [Vector.components, Vector.storageGet] at h
      congr 1
      funext i
      fin_cases i
      · exact h.1
      · exact h.2
  | builtIn d =>
    cases w with
    | builtIn e =>
      obtain ⟨d1, d2⟩ := d
      obtain ⟨e1, e2⟩ := e
      simp [Vector.components, Vector.storageGet] at h
      simp [h.1, h.2]

theorem Vector.storageSet_storageSet (v : Vector Scalar k) (x y : Scalar) :
    (v.storageSet 0 x).storageSet 1 y = Vector.ctor2 k x y := by
  apply Vector.ext_components
  simp [Vector.components, Vector.storageGet_storageSet, Vector.storageGet_ctor2_zero,
    Vector.storageGet_ctor2_one]

theorem Vector.indexConst_lt (this : Fin n) {idx : Nat} (h : idx < 2) (s : Store Scalar k n) :
    Vector.indexConst this idx s = (Except.ok ⟨this, ⟨idx, h⟩⟩, s) := by
  have h2 : ¬ idx ≥ 2 := by omega
  simp [Vector.indexConst, h2, Exec.ret]

theorem Vector.indexConst_ge (this : Fin n) {idx : Nat} (h : 2 ≤ idx) (s : Store Scalar k n) :
    Vector.indexConst this idx s = (Except.error ⟨"Vector index out of range!"⟩, s) := by
  simp [Vector.indexConst, h, Exec.raise]

theorem Vector.readConst_lt (this : Fin n) {idx : Nat} (h : idx < 2) (s : Store Scalar k n) :
    Vector.readConst this idx s = (Except.ok ((s this).storageGet ⟨idx, h⟩), s) := by
  simp [Vector.readConst, Exec.andThen, Vector.indexConst_lt this h, ScalarRef.load]

theorem Vector.readConst_ge (this : Fin n) {idx : Nat} (h : 2 ≤ idx) (s : Store Scalar k n) :
    Vector.readConst this idx s = (Except.error ⟨"Vector index out of range!"⟩, s) := by
  simp [Vector.readConst, Exec.andThen, Vector.indexConst_ge this h]

theorem Vector.compoundAt_lt (f : Scalar → Scalar → Scalar) (this : Fin n) {i : Nat} (h : i < 2)
    (rhs : Scalar) (s : Store Scalar k n) :
    Vector.compoundAt f this i rhs s =
      (Except.ok (), Function.update s this
        ((s this).storageSet ⟨i, h⟩ (f ((s this).storageGet ⟨i, h⟩) rhs))) := by
  simp [Vector.compoundAt, Vector.index, Exec.andThen, Vector.indexConst_lt this h,
    ScalarRef.load, ScalarRef.store]

/-- The loop of a compound assignment with a scalar. -/
theorem Vector.loop_scalar (f : Scalar → Scalar → Scalar) (this : Fin n) (value : Scalar)
    (s : Store Scalar k n) :
    Exec.forUpTo 2 (fun i => Vector.compoundAt f this i value) s =
      (Except.ok (), Function.update s this
        (Vector.ctor2 k (f (s this).components.1 value) (f (s this).components.2 value))) := by
  rw [Exec.forUpTo_two]
  simp only [Exec.andThen, Vector.compoundAt_lt f this (show 0 < 2 by omega),
    Vector.compoundAt_lt f this (show 1 < 2 by omega)]
  simp [Function.update_same, Function.update_idem, Vector.storageGet_storageSet,
    Vector.components]
  rw [Vector.storageSet_storageSet]

/-- The loop of a compound assignment with a vector (which may be the receiver). -/
theorem Vector.loop_vector (f : Scalar → Scalar → Scalar) (this vec2 : Fin n)
    (s : Store Scalar k n) :
    Exec.forUpTo 2 (fun i =>
        Exec.andThen (Vector.readConst vec2 i) (fun rhs => Vector.compoundAt f this i rhs)) s =
      (Except.ok (), Function.update s this
        (Vector.ctor2 k (f (s this).components.1 (s vec2).components.1)
          (f (s this).components.2 (s vec2).components.2))) := by
  rw [Exec.forUpTo_two]
  simp only [Exec.andThen, Vector.compoundAt_lt f this (show 0 < 2 by omega),
    Vector.compoundAt_lt f this (show 1 < 2 by omega),
    Vector.readConst_lt vec2 (show 0 < 2 by omega), Vector.readConst_lt vec2 (show 1 < 2 by omega)]
  by_cases hv : vec2 = this
  · subst hv
    simp [Function.update_same, Function.update_idem, Vector.storageGet_storageSet,
      Vector.components]
    rw [Vector.storageSet_storageSet]
  · simp [Function.update_same, Function.update_idem, Vector.storageGet_storageSet,
      Vector.components, Function.update_noteq hv]
    rw [Vector.storageSet_storageSet]

/-! ## Element access and constructors -/

/-- C1: for a vector built as `Vector(x, y)`, `v[idx]` through the `const` and through the
non-`const` overload throws `PhysikaException("Vector index out of range!")` when
`idx >= 2`, yields `x` when `idx = 0` and `y` when `idx = 1`; the access fails if and
only if `idx >= 2`. -/
theorem index_fails_iff_out_of_range (x y : Scalar) (idx : Nat) (v : Fin n)
    (s : Store Scalar k n) :
    (Vector.readConst v idx (construct v (Vector.ctor2 k x y) s).2).1 =
        (if 2 ≤ idx then Except.error ⟨"Vector index out of range!"⟩
         else if idx = 0 then Except.ok x else Except.ok y)
    ∧ (Exec.andThen (Vector.index v idx) (fun r => r.load)
          (construct v (Vector.ctor2 k x y) s).2).1 =
        (if 2 ≤ idx then Except.error ⟨"Vector index out of range!"⟩
         else if idx = 0 then Except.ok x else Except.ok y)
    ∧ ((∃ e, (Vector.indexConst v idx (construct v (Vector.ctor2 k x y) s).2).1 = Except.error e)
        ↔ 2 ≤ idx)
    ∧ ((∃ e, (Vector.index v idx (construct v (Vector.ctor2 k x y) s).2).1 = Except.error e)
        ↔ 2 ≤ idx)
    ∧ ((∃ r, (Vector.indexConst v idx (construct v (Vector.ctor2 k x y) s).2).1 = Except.ok r)
        ↔ idx < 2) := by
  have key : ∀ s1 : Store Scalar k n, s1 v = Vector.ctor2 k x y →
      (Vector.readConst v idx s1).1 =
        (if 2 ≤ idx then Except.error ⟨"Vector index out of range!"⟩
         else if idx = 0 then Except.ok x else Except.ok y) := by
    intro s1 hs1
    by_cases h : 2 ≤ idx
    · simp [Vector.readConst_ge v h, h]
    · have hlt : idx < 2 := by omega
      rw [Vector.readConst_lt v hlt]
      simp only [h, if_false, hs1]
      by_cases h0 : idx = 0
      · subst h0
        simpa using Vector.storageGet_ctor2_zero x y
      · have h1 : idx = 1 := by omega
        subst h1
        simpa using Vector.storageGet_ctor2_one x y
  have hs : (construct v (Vector.ctor2 k x y) s).2 v = Vector.ctor2 k x y := by
    simp [construct]
  refine ⟨key _ hs, key _ hs, ?_, ?_, ?_⟩
  · by_cases h : 2 ≤ idx
    · simp [Vector.indexConst_ge v h, h]
    · simp [Vector.indexConst_lt v (show idx < 2 by omega), h]
  · by_cases h : 2 ≤ idx
    · simp [Vector.index, Vector.indexConst_ge v h, h]
    · simp [Vector.index, Vector.indexConst_lt v (show idx < 2 by omega), h]
  · by_cases h : 2 ≤ idx
    · simp [Vector.indexConst_ge v h, h]
    · simp [Vector.indexConst_lt v (show idx < 2 by omega), h]
      omega

/-- C4: `Vector(x)` equals `Vector(x, x)`, both components being `x`, and `Vector()` equals
`Vector(0)`, the zero vector: `v[0]` and `v[1]` read `0`. -/
theorem constructors_delegate (S : ScalarOps Scalar) (x : Scalar) (v : Fin n)
    (s : Store Scalar k n) (T : IntType) (isEqual : Int → Int → Bool) :
    (Vector.ctor1 k x = Vector.ctor2 k x x)
    ∧ ((Vector.ctor1 k x).components = (x, x))
    ∧ (Vector.ctor0 k S = Vector.ctor1 k S.zero)
    ∧ ((Vector.ctor0 k S).components = (S.zero, S.zero))
    ∧ ((Vector.readConst v 0 (construct v (Vector.ctor0 k S) s).2).1 = Except.ok S.zero)
    ∧ ((Vector.readConst v 1 (construct v (Vector.ctor0 k S) s).2).1 = Except.ok S.zero)
    ∧ ((intOps T isEqual).zero = 0) := by
  refine ⟨rfl, ?_, rfl, ?_, ?_, ?_, rfl⟩
  · simp [Vector.ctor1, Vector.components_ctor2]
  · simp [Vector.ctor0, Vector.ctor1, Vector.components_ctor2]
  · rw [Vector.readConst_lt v (show 0 < 2 by omega)]
    simpa [construct, Vector.ctor0, Vector.ctor1] using Vector.storageGet_ctor2_zero S.zero S.zero
  · rw [Vector.readConst_lt v (show 1 < 2 by omega)]
    simpa [construct, Vector.ctor0, Vector.ctor1] using Vector.storageGet_ctor2_one S.zero S.zero

/-! ## Operators on a temporary copy -/

theorem Store.pop_update_push (s : Store Scalar k n) (v w : Vector Scalar k) :
    Store.pop (Function.update (s.push v) (Fin.last n) w) = s := by
  funext a
  have hne : a.castSucc ≠ Fin.last n := Fin.castSucc_lt_last a |>.ne
  simp [Store.pop, Store.push, Function.update_noteq hne]

theorem Store.pop_push (s : Store Scalar k n) (v : Vector Scalar k) :
    Store.pop (s.push v) = s := by
  funext a
  simp [Store.pop, Store.push]

theorem Store.push_last (s : Store Scalar k n) (v : Vector Scalar k) :
    s.push v (Fin.last n) = v := by
  simp [Store.push]

theorem Store.push_castSucc (s : Store Scalar k n) (v : Vector Scalar k) (a : Fin n) :
    s.push v a.castSucc = s a := by
  simp [Store.push]

/-- A compound assignment that updates its receiver and returns it, run on a copy. -/
theorem Vector.onCopy_update (this : Fin n)
    (body : Fin (n + 1) → Exec (Store Scalar k (n + 1)) (Fin (n + 1)))
    (s : Store Scalar k n) (w : Vector Scalar k)
    (h : body (Fin.last n) (s.push (s this)) =
      (Except.ok (Fin.last n), Function.update (s.push (s this)) (Fin.last n) w)) :
    Vector.onCopy this body s = (Except.ok w, s) := by
  simp [Vector.onCopy, h, Store.pop_update_push]

/-- A compound assignment that throws before it touches its receiver, run on a copy. -/
theorem Vector.onCopy_throw (this : Fin n)
    (body : Fin (n + 1) → Exec (Store Scalar k (n + 1)) (Fin (n + 1)))
    (s : Store Scalar k n) (e : PhysikaException)
    (h : body (Fin.last n) (s.push (s this)) = (Except.error e, s.push (s this))) :
    Vector.onCopy this body s = (Except.error e, s) := by
  simp [Vector.onCopy, h, Store.pop_push]

theorem Vector.addAssign_eq (S : ScalarOps Scalar) (a b : Fin n) (s : Store Scalar k n) :
    Vector.addAssign S a b s = (Except.ok a, Function.update s a
      (Vector.ctor2 k (S.add (s a).components.1 (s b).components.1)
        (S.add (s a).components.2 (s b).components.2))) := by
  simp [Vector.addAssign, Exec.andThen, Vector.loop_vector, Exec.ret]

theorem Vector.subAssign_eq (S : ScalarOps Scalar) (a b : Fin n) (s : Store Scalar k n) :
    Vector.subAssign S a b s = (Except.ok a, Function.update s a
      (Vector.ctor2 k (S.sub (s a).components.1 (s b).components.1)
        (S.sub (s a).components.2 (s b).components.2))) := by
  simp [Vector.subAssign, Exec.andThen, Vector.loop_vector, Exec.ret]

theorem Vector.addAssignScalar_eq (S : ScalarOps Scalar) (a : Fin n) (value : Scalar)
    (s : Store Scalar k n) :
    Vector.addAssignScalar S a value s = (Except.ok a, Function.update s a
      (Vector.ctor2 k (S.add (s a).components.1 value) (S.add (s a).components.2 value))) := by
  simp [Vector.addAssignScalar, Exec.andThen, Vector.loop_scalar, Exec.ret]

theorem Vector.subAssignScalar_eq (S : ScalarOps Scalar) (a : Fin n) (value : Scalar)
    (s : Store Scalar k n) :
    Vector.subAssignScalar S a value s = (Except.ok a, Function.update s a
      (Vector.ctor2 k (S.sub (s a).components.1 value) (S.sub (s a).components.2 value))) := by
  simp [Vector.subAssignScalar, Exec.andThen, Vector.loop_scalar, Exec.ret]

theorem Vector.mulAssignScalar_eq (S : ScalarOps Scalar) (a : Fin n) (scale : Scalar)
    (s : Store Scalar k n) :
    Vector.mulAssignScalar S a scale s = (Except.ok a, Function.update s a
      (Vector.ctor2 k (S.mul (s a).components.1 scale) (S.mul (s a).components.2 scale))) := by
  simp [Vector.mulAssignScalar, Exec.andThen, Vector.loop_scalar, Exec.ret]

theorem Vector.divAssignScalar_eq (S : ScalarOps Scalar) (a : Fin n) (scale : Scalar)
    (s : Store Scalar k n) :
    Vector.divAssignScalar S a scale s =
      if S.le (S.abs scale) S.epsilon = true then
        (Except.error ⟨"Vector Divide by zero error!"⟩, s)
      else
        (Except.ok a, Function.update s a
          (Vector.ctor2 k (S.div (s a).components.1 scale) (S.div (s a).components.2 scale))) := by
  by_cases h : S.le (S.abs scale) S.epsilon = true
  · simp [Vector.divAssignScalar, h, Exec.raise]
  · simp [Vector.divAssignScalar, h, Exec.andThen, Vector.loop_scalar, Exec.ret]

theorem Vector.add_eq (S : ScalarOps Scalar) (a b : Fin n) (s : Store Scalar k n) :
    Vector.add S a b s = (Except.ok
      (Vector.ctor2 k (S.add (s a).components.1 (s b).components.1)
        (S.add (s a).components.2 (s b).components.2)), s) := by
  apply Vector.onCopy_update
  rw [Vector.addAssign_eq]
  simp [Store.push_last, Store.push_castSucc]

theorem Vector.sub_eq (S : ScalarOps Scalar) (a b : Fin n) (s : Store Scalar k n) :
    Vector.sub S a b s = (Except.ok
      (Vector.ctor2 k (S.sub (s a).components.1 (s b).components.1)
        (S.sub (s a).components.2 (s b).components.2)), s) := by
  apply Vector.onCopy_update
  rw [Vector.subAssign_eq]
  simp [Store.push_last, Store.push_castSucc]

theorem Vector.addScalar_eq (S : ScalarOps Scalar) (a : Fin n) (value : Scalar)
    (s : Store Scalar k n) :
    Vector.addScalar S a value s = (Except.ok
      (Vector.ctor2 k (S.add (s a).components.1 value) (S.add (s a).components.2 value)), s) := by
  apply Vector.onCopy_update
  rw [Vector.addAssignScalar_eq]
  simp [Store.push_last]

theorem Vector.subScalar_eq (S : ScalarOps Scalar) (a : Fin n) (value : Scalar)
    (s : Store Scalar k n) :
    Vector.subScalar S a value s = (Except.ok
      (Vector.ctor2 k (S.sub (s a).components.1 value) (S.sub (s a).components.2 value)), s) := by
  apply Vector.onCopy_update
  rw [Vector.subAssignScalar_eq]
  simp [Store.push_last]

theorem Vector.mulScalar_eq (S : ScalarOps Scalar) (a : Fin n) (scale : Scalar)
    (s : Store Scalar k n) :
    Vector.mulScalar S a scale s = (Except.ok
      (Vector.ctor2 k (S.mul (s a).components.1 scale) (S.mul (s a).components.2 scale)), s) := by
  apply Vector.onCopy_update
  rw [Vector.mulAssignScalar_eq]
  simp [Store.push_last]

theorem Vector.divScalar_eq (S : ScalarOps Scalar) (a : Fin n) (scale : Scalar)
    (s : Store Scalar k n) :
    Vector.divScalar S a scale s =
      if S.le (S.abs scale) S.epsilon = true then
        (Except.error ⟨"Vector Divide by zero error!"⟩, s)
      else
        (Except.ok
          (Vector.ctor2 k (S.div (s a).components.1 scale) (S.div (s a).components.2 scale)), s) := by
  by_cases h : S.le (S.abs scale) S.epsilon = true
  · rw [if_pos h]
    apply Vector.onCopy_throw
    rw [Vector.divAssignScalar_eq, if_pos h]
  · rw [if_neg h]
    apply Vector.onCopy_update
    rw [Vector.divAssignScalar_eq, if_neg h]
    simp [Store.push_last]

/-! ## Integer scalars -/

theorem IntType.wrap_of_inRange (T : IntType) (z : Int) (h : T.inRange z) : T.wrap z = z := by
  cases T with
  | exact => rfl
  | unsignedBits w =>
    obtain ⟨h0, h1⟩ := h
    simp only [IntType.wrap]
    exact Int.emod_eq_of_lt h0 h1
  | signedBits w =>
    obtain ⟨hw, h0, h1⟩ := h
    simp only [IntType.wrap]
    have hpow : (2 : Int) ^ w = 2 * 2 ^ (w - 1) := by
      obtain ⟨m, rfl⟩ : ∃ m, w = m + 1 := ⟨w - 1, by omega⟩
      simp [pow_succ, mul_comm]
    rw [Int.emod_eq_of_lt (by omega) (by omega)]
    omega

theorem IntType.wrap_signed_emod (w : Nat) (z : Int) :
    (IntType.signedBits w).wrap z % 2 ^ w = z % 2 ^ w := by
  simp only [IntType.wrap]
  rw [Int.sub_emod, Int.emod_emod_of_dvd _ (dvd_refl _), ← Int.sub_emod]
  congr 1
  ring

theorem IntType.tdiv_inRange (T : IntType) (c scale : Int) (hc : T.inRange c)
    (hs : T.inRange scale) (h0 : scale ≠ 0)
    (hmin : ∀ w, T = IntType.signedBits w → ¬ (c = -(2 ^ (w - 1)) ∧ scale = -1)) :
    T.inRange (Int.tdiv c scale) := by
  have habs : (Int.tdiv c scale).natAbs = c.natAbs / scale.natAbs := Int.natAbs_tdiv c scale
  have hle : (Int.tdiv c scale).natAbs ≤ c.natAbs := by
    rw [habs]; exact Nat.div_le_self _ _
  cases T with
  | exact => trivial
  | unsignedBits w =>
    obtain ⟨hc0, hc1⟩ := hc
    obtain ⟨hs0, _⟩ := hs
    have hq0 : 0 ≤ Int.tdiv c scale := Int.tdiv_nonneg hc0 hs0
    exact ⟨hq0, by omega⟩
  | signedBits w =>
    obtain ⟨hw, hc0, hc1⟩ := hc
    refine ⟨hw, ?_, ?_⟩
    · omega
    · by_cases h1 : scale = 1
      · subst h1
        simpa using hc1
      · by_cases hm1 : scale = -1
        · subst hm1
          have hne : c ≠ -(2 ^ (w - 1)) := fun hcm => hmin w rfl ⟨hcm, rfl⟩
          have : Int.tdiv c (-1) = -c := by simp
          rw [this]
          omega
        · have h2 : 2 ≤ scale.natAbs := by omega
          have hhalf : c.natAbs / scale.natAbs ≤ c.natAbs / 2 :=
            Nat.div_le_div_left h2 (by omega)
          have hpos : (0 : Int) < 2 ^ (w - 1) := by positivity
          omega

theorem Vector.storageGet_ctor2 (x y : Scalar) (i : Fin 2) :
    (Vector.ctor2 k x y).storageGet i = if i = 0 then x else y := by
  fin_cases i
  · simpa using Vector.storageGet_ctor2_zero x y
  · simpa using Vector.storageGet_ctor2_one x y

/-- C5: the binary operators `+`, `-` (vector) and `+`, `-`, `*` (scalar) act
component-wise, `(a op b)[i] = a[i] op b[i]`, and leave every object of the store (so `a`
and `b`) as it was; each compound form `+=`, `-=`, `*=` returns its receiver, leaves it
equal to the value the binary operator returns and changes no other object. For an
integer `Scalar` the scalar operations are the exact ones followed by `wrap`, which is the
identity (exact arithmetic) or keeps the value modulo `2^w`. -/
theorem binary_operators_componentwise (S : ScalarOps Scalar) (a b : Fin n) (value : Scalar)
    (i : Fin 2) (s : Store Scalar k n) (T : IntType) (isEqual : Int → Int → Bool) (x y : Int)
    (w : Nat) :
    -- operator+ and operator+= with a vector
    (Except.map (fun r => r.storageGet i) (Vector.add S a b s).1 =
        Except.ok (S.add ((s a).storageGet i) ((s b).storageGet i))
      ∧ (Vector.add S a b s).2 = s
      ∧ (Vector.addAssign S a b s).1 = Except.ok a
      ∧ Except.ok ((Vector.addAssign S a b s).2 a) = (Vector.add S a b s).1
      ∧ (Vector.addAssign S a b s).2 = Function.update s a ((Vector.addAssign S a b s).2 a))
    -- operator- and operator-= with a vector
    ∧ (Except.map (fun r => r.storageGet i) (Vector.sub S a b s).1 =
        Except.ok (S.sub ((s a).storageGet i) ((s b).storageGet i))
      ∧ (Vector.sub S a b s).2 = s
      ∧ (Vector.subAssign S a b s).1 = Except.ok a
      ∧ Except.ok ((Vector.subAssign S a b s).2 a) = (Vector.sub S a b s).1
      ∧ (Vector.subAssign S a b s).2 = Function.update s a ((Vector.subAssign S a b s).2 a))
    -- operator+ and operator+= with a scalar
    ∧ (Except.map (fun r => r.storageGet i) (Vector.addScalar S a value s).1 =
        Except.ok (S.add ((s a).storageGet i) value)
      ∧ (Vector.addScalar S a value s).2 = s
      ∧ (Vector.addAssignScalar S a value s).1 = Except.ok a
      ∧ Except.ok ((Vector.addAssignScalar S a value s).2 a) = (Vector.addScalar S a value s).1
      ∧ (Vector.addAssignScalar S a value s).2 =
          Function.update s a ((Vector.addAssignScalar S a value s).2 a))
    -- operator- and operator-= with a scalar
    ∧ (Except.map (fun r => r.storageGet i) (Vector.subScalar S a value s).1 =
        Except.ok (S.sub ((s a).storageGet i) value)
      ∧ (Vector.subScalar S a value s).2 = s
      ∧ (Vector.subAssignScalar S a value s).1 = Except.ok a
      ∧ Except.ok ((Vector.subAssignScalar S a value s).2 a) = (Vector.subScalar S a value s).1
      ∧ (Vector.subAssignScalar S a value s).2 =
          Function.update s a ((Vector.subAssignScalar S a value s).2 a))
    -- operator* and operator*= with a scalar
    ∧ (Except.map (fun r => r.storageGet i) (Vector.mulScalar S a value s).1 =
        Except.ok (S.mul ((s a).storageGet i) value)
      ∧ (Vector.mulScalar S a value s).2 = s
      ∧ (Vector.mulAssignScalar S a value s).1 = Except.ok a
      ∧ Except.ok ((Vector.mulAssignScalar S a value s).2 a) = (Vector.mulScalar S a value s).1
      ∧ (Vector.mulAssignScalar S a value s).2 =
          Function.update s a ((Vector.mulAssignScalar S a value s).2 a))
    -- the scalar operations of an integer Scalar
    ∧ ((intOps T isEqual).add x y = T.wrap (x + y)
      ∧ (intOps T isEqual).sub x y = T.wrap (x - y)
      ∧ (intOps T isEqual).mul x y = T.wrap (x * y)
      ∧ IntType.exact.wrap x = x
      ∧ (IntType.unsignedBits w).wrap x = x % 2 ^ w
      ∧ (IntType.signedBits w).wrap x % 2 ^ w = x % 2 ^ w) := by
  have h0 : ∀ p q : Scalar, (Vector.ctor2 k p q).storageGet 0 = p :=
    fun p q => Vector.storageGet_ctor2_zero p q
  have h1 : ∀ p q : Scalar, (Vector.ctor2 k p q).storageGet 1 = q :=
    fun p q => Vector.storageGet_ctor2_one p q
  refine ⟨⟨?_, ?_, ?_, ?_, ?_⟩, ⟨?_, ?_, ?_, ?_, ?_⟩, ⟨?_, ?_, ?_, ?_, ?_⟩, ⟨?_, ?_, ?_, ?_, ?_⟩,
    ⟨?_, ?_, ?_, ?_, ?_⟩, ⟨rfl, rfl, rfl, rfl, rfl, IntType.wrap_signed_emod w x⟩⟩
  · fin_cases i <;> simp [Vector.add_eq, Except.map, h0, h1, Vector.components]
  · simp [Vector.add_eq]
  · simp [Vector.addAssign_eq]
  · simp [Vector.add_eq, Vector.addAssign_eq]
  · simp [Vector.addAssign_eq]
  · fin_cases i <;> simp [Vector.sub_eq, Except.map, h0, h1, Vector.components]
  · simp [Vector.sub_eq]
  · simp [Vector.subAssign_eq]
  · simp [Vector.sub_eq, Vector.subAssign_eq]
  · simp [Vector.subAssign_eq]
  · fin_cases i <;> simp [Vector.addScalar_eq, Except.map, h0, h1, Vector.components]
  · simp [Vector.addScalar_eq]
  · simp [Vector.addAssignScalar_eq]
  · simp [Vector.addScalar_eq, Vector.addAssignScalar_eq]
  · simp [Vector.addAssignScalar_eq]
  · fin_cases i <;> simp [Vector.subScalar_eq, Except.map, h0, h1, Vector.components]
  · simp [Vector.subScalar_eq]
  · simp [Vector.subAssignScalar_eq]
  · simp [Vector.subScalar_eq, Vector.subAssignScalar_eq]
  · simp [Vector.subAssignScalar_eq]
  · fin_cases i <;> simp [Vector.mulScalar_eq, Except.map, h0, h1, Vector.components]
  · simp [Vector.mulScalar_eq]
  · simp [Vector.mulAssignScalar_eq]
  · simp [Vector.mulScalar_eq, Vector.mulAssignScalar_eq]
  · simp [Vector.mulAssignScalar_eq]

theorem Vector.eq_eq (S : ScalarOps Scalar) (a b : Fin n) (s : Store Scalar k n) :
    Vector.eq S a b s = (Except.ok
      (if (if S.is_floating_point = true then S.isEqual (s a).components.1 (s b).components.1 == false
           else S.ne (s a).components.1 (s b).components.1) = true then false
       else if (if S.is_floating_point = true
                then S.isEqual (s a).components.2 (s b).components.2 == false
                else S.ne (s a).components.2 (s b).components.2) = true then false
       else true), s) := by
  have r0 := fun t : Store Scalar k n => Vector.readConst_lt a (show 0 < 2 by omega) t
  have r1 := fun t : Store Scalar k n => Vector.readConst_lt a (show 1 < 2 by omega) t
  have q0 := fun t : Store Scalar k n => Vector.readConst_lt b (show 0 < 2 by omega) t
  have q1 := fun t : Store Scalar k n => Vector.readConst_lt b (show 1 < 2 by omega) t
  unfold Vector.eq Exec.forUpToReturning Exec.forUpToReturning.go Exec.forUpToReturning.go
    Exec.forUpToReturning.go
  rcases Bool.eq_false_or_eq_true S.is_floating_point with hf | hf
  · simp only [hf, if_true, Exec.andThen, r0, r1, q0, q1, Vector.components]
    by_cases e0 : S.isEqual ((s a).storageGet 0) ((s b).storageGet 0) = true
    · by_cases e1 : S.isEqual ((s a).storageGet 1) ((s b).storageGet 1) = true
      · simp [e0, e1, Exec.ret, Exec.andThen, r1, q1]
      · simp [e0, e1, Exec.ret, Exec.andThen, r1, q1]
    · simp [e0, Exec.ret]
  · simp only [hf, Bool.false_eq_true, if_false, Exec.andThen, r0, r1, q0, q1, Vector.components]
    by_cases e0 : S.ne ((s a).storageGet 0) ((s b).storageGet 0) = true
    · simp [e0, Exec.ret]
    · by_cases e1 : S.ne ((s a).storageGet 1) ((s b).storageGet 1) = true
      · simp [e0, e1, Exec.ret, Exec.andThen, r1, q1]
      · simp [e0, e1, Exec.ret, Exec.andThen, r1, q1]

theorem Vector.ne_eq (S : ScalarOps Scalar) (a b : Fin n) (s : Store Scalar k n) :
    Vector.ne S a b s =
      (Except.map (fun r => !r) (Vector.eq S a b s).1, (Vector.eq S a b s).2) := by
  simp [Vector.ne, Exec.andThen, Vector.eq_eq, Exec.ret, Except.map]

theorem Vector.eq_int (T : IntType) (isEqual : Int → Int → Bool) (a b : Fin n)
    (s : Store Int k n) :
    Vector.eq (intOps T isEqual) a b s =
      (Except.ok (decide ((s a).components = (s b).components)), s) := by
  rw [Vector.eq_eq]
  have hfp : (intOps T isEqual).is_floating_point = false := rfl
  have hne : ∀ p q : Int, (intOps T isEqual).ne p q = (p != q) := fun _ _ => rfl
  simp only [hfp, hne]
  by_cases e0 : (s a).components.1 = (s b).components.1
  · by_cases e1 : (s a).components.2 = (s b).components.2
    · simp [e0, e1, Prod.ext_iff]
    · simp [e0, e1, Prod.ext_iff]
  · simp [e0, Prod.ext_iff]

/-- C6: for an integer `Scalar`, `a == b` returns `true` if and only if `a[0] = b[0]` and
`a[1] = b[1]` (so `==` is reflexive, symmetric and transitive), without throwing and
without changing a vector; for every `Scalar`, `a != b` is the negation of `a == b`. -/
theorem equality_iff_components (T : IntType) (isEqual : Int → Int → Bool) (a b c : Fin n)
    (s : Store Int k n) (S : ScalarOps Scalar) (u v : Fin n) (t : Store Scalar k n) :
    ((Vector.eq (intOps T isEqual) a b s).1 = Except.ok true ↔
        ((s a).storageGet 0 = (s b).storageGet 0 ∧ (s a).storageGet 1 = (s b).storageGet 1))
    ∧ ((Vector.eq (intOps T isEqual) a b s).1 = Except.ok false ↔
        ¬ ((s a).storageGet 0 = (s b).storageGet 0 ∧ (s a).storageGet 1 = (s b).storageGet 1))
    ∧ ((Vector.eq (intOps T isEqual) a b s).2 = s)
    ∧ ((Vector.eq (intOps T isEqual) a a s).1 = Except.ok true)
    ∧ ((Vector.eq (intOps T isEqual) a b s).1 = (Vector.eq (intOps T isEqual) b a s).1)
    ∧ ((Vector.eq (intOps T isEqual) a b s).1 = Except.ok true →
        (Vector.eq (intOps T isEqual) b c s).1 = Except.ok true →
        (Vector.eq (intOps T isEqual) a c s).1 = Except.ok true)
    ∧ ((Vector.ne S u v t).1 = Except.map (fun r => !r) (Vector.eq S u v t).1)
    ∧ ((Vector.ne S u v t).2 = (Vector.eq S u v t).2) := by
  have hc : ∀ p q : Fin n, ((s p).components = (s q).components) ↔
      ((s p).storageGet 0 = (s q).storageGet 0 ∧ (s p).storageGet 1 = (s q).storageGet 1) := by
    intro p q
    simp [Vector.components, Prod.ext_iff]
  refine ⟨?_, ?_, ?_, ?_, ?_, ?_, ?_, ?_⟩
  · simp [Vector.eq_int, hc]
  · simp [Vector.eq_int, hc]
  · simp [Vector.eq_int]
  · simp [Vector.eq_int]
  · have hsymm : decide ((s a).components = (s b).components)
        = decide ((s b).components = (s a).components) :=
      decide_eq_decide.mpr ⟨fun h => h.symm, fun h => h.symm⟩
    simp only [Vector.eq_int, hsymm]
  · simp only [Vector.eq_int, Except.ok.injEq, decide_eq_true_eq]
    intro h1 h2
    exact h1.trans h2
  · rw [Vector.ne_eq]
  · rw [Vector.ne_eq]

/-! ## Remaining operations in closed form -/

theorem Vector.neg_eq (S : ScalarOps Scalar) (a : Fin n) (s : Store Scalar k n) :
    Vector.neg S a s =
      (Except.ok (Vector.ctor2 k (S.neg (s a).components.1) (S.neg (s a).components.2)), s) := by
  simp [Vector.neg, Exec.andThen, Vector.readConst_lt a (show 0 < 2 by omega),
    Vector.readConst_lt a (show 1 < 2 by omega), Exec.ret, Vector.components]

theorem Vector.sumOfSquares_eq (S : ScalarOps Scalar) (a : Fin n) (s : Store Scalar k n) :
    Vector.sumOfSquares S a s =
      (Except.ok (S.add (S.mul (s a).components.1 (s a).components.1)
        (S.mul (s a).components.2 (s a).components.2)), s) := by
  simp [Vector.sumOfSquares, Exec.andThen, Vector.readConst_lt a (show 0 < 2 by omega),
    Vector.readConst_lt a (show 1 < 2 by omega), Exec.ret, Vector.components]

theorem Vector.norm_eq (S : ScalarOps Scalar) (a : Fin n) (s : Store Scalar k n) :
    Vector.norm S a s =
      (Except.ok (S.sqrt (S.add (S.mul (s a).components.1 (s a).components.1)
        (S.mul (s a).components.2 (s a).components.2))), s) := by
  simp [Vector.norm, Exec.andThen, Vector.sumOfSquares_eq, Exec.ret]

theorem Vector.normSquared_eq (S : ScalarOps Scalar) (a : Fin n) (s : Store Scalar k n) :
    Vector.normSquared S a s =
      (Except.ok (S.add (S.mul (s a).components.1 (s a).components.1)
        (S.mul (s a).components.2 (s a).components.2)), s) := by
  simp [Vector.normSquared, Vector.sumOfSquares_eq]

theorem Vector.normalize_eq (S : ScalarOps Scalar) (a : Fin n) (s : Store Scalar k n) :
    Vector.normalize S a s =
      (Except.ok a,
        if S.gt (S.sqrt (S.add (S.mul (s a).components.1 (s a).components.1)
            (S.mul (s a).components.2 (s a).components.2))) S.epsilon = true then
          Function.update s a (Vector.ctor2 k
            (S.div (s a).components.1 (S.sqrt (S.add (S.mul (s a).components.1 (s a).components.1)
              (S.mul (s a).components.2 (s a).components.2))))
            (S.div (s a).components.2 (S.sqrt (S.add (S.mul (s a).components.1 (s a).components.1)
              (S.mul (s a).components.2 (s a).components.2)))))
        else s) := by
  by_cases h : S.gt (S.sqrt (S.add (S.mul (s a).components.1 (s a).components.1)
      (S.mul (s a).components.2 (s a).components.2))) S.epsilon = true
  · simp [Vector.normalize, Exec.andThen, Vector.norm_eq, h, Vector.loop_scalar, Exec.ret]
  · simp [Vector.normalize, Exec.andThen, Vector.norm_eq, h, Exec.ret]

theorem Vector.cross_eq (S : ScalarOps Scalar) (a b : Fin n) (s : Store Scalar k n) :
    Vector.cross S a b s =
      (Except.ok (S.sub (S.mul (s a).components.1 (s b).components.2)
        (S.mul (s a).components.2 (s b).components.1)), s) := by
  simp [Vector.cross, Exec.andThen, Vector.readConst_lt a (show 0 < 2 by omega),
    Vector.readConst_lt a (show 1 < 2 by omega), Vector.readConst_lt b (show 0 < 2 by omega),
    Vector.readConst_lt b (show 1 < 2 by omega), Exec.ret, Vector.components]

theorem Vector.dot_eq (S : ScalarOps Scalar) (a b : Fin n) (s : Store Scalar k n) :
    Vector.dot S a b s =
      (Except.ok (S.add (S.mul (s a).components.1 (s b).components.1)
        (S.mul (s a).components.2 (s b).components.2)), s) := by
  simp [Vector.dot, Exec.andThen, Vector.readConst_lt a (show 0 < 2 by omega),
    Vector.readConst_lt a (show 1 < 2 by omega), Vector.readConst_lt b (show 0 < 2 by omega),
    Vector.readConst_lt b (show 1 < 2 by omega), Exec.ret, Vector.components]

theorem Vector.components_storageSet (v : Vector Scalar k) (i : Fin 2) (x : Scalar) :
    (v.storageSet i x).components =
      if i = 0 then (x, v.components.2) else (v.components.1, x) := by
  fin_cases i <;> simp [Vector.components, Vector.storageGet_storageSet]

theorem Vector.readConst_eq (a : Fin n) (idx : Nat) (s : Store Scalar k n) :
    Vector.readConst a idx s =
      (if 2 ≤ idx then Except.error ⟨"Vector index out of range!"⟩
       else if idx = 0 then Except.ok (s a).components.1 else Except.ok (s a).components.2, s) := by
  by_cases h : 2 ≤ idx
  · simp [Vector.readConst_ge a h, h]
  · have hlt : idx < 2 := by omega
    rw [Vector.readConst_lt a hlt]
    by_cases h0 : idx = 0
    · subst h0
      simp [Vector.components]
    · have h1 : idx = 1 := by omega
      subst h1
      simp [Vector.components]

theorem Vector.writeIndex_eq (a : Fin n) (idx : Nat) (x : Scalar) (s : Store Scalar k n) :
    Exec.andThen (Vector.index a idx) (fun r => r.store x) s =
      if 2 ≤ idx then (Except.error ⟨"Vector index out of range!"⟩, s)
      else (Except.ok (), Function.update s a
        (if idx = 0 then Vector.ctor2 k x (s a).components.2
         else Vector.ctor2 k (s a).components.1 x)) := by
  by_cases h : 2 ≤ idx
  · simp [Exec.andThen, Vector.index, Vector.indexConst_ge a h, h]
  · have hlt : idx < 2 := by omega
    simp only [Exec.andThen, Vector.index, Vector.indexConst_lt a hlt, ScalarRef.store, h,
      if_false]
    have hv : (s a).storageSet ⟨idx, hlt⟩ x =
        (if idx = 0 then Vector.ctor2 k x (s a).components.2
         else Vector.ctor2 k (s a).components.1 x) := by
      apply Vector.ext_components
      by_cases h0 : idx = 0
      · subst h0
        simp [Vector.components_storageSet, Vector.components_ctor2]
      · have h1 : idx = 1 := by omega
        subst h1
        simp [Vector.components_storageSet, Vector.components_ctor2]
    rw [hv]

theorem assignTo_ok (dst : Fin n) (e : Exec (Store Scalar k n) (Vector Scalar k))
    (s : Store Scalar k n) (v : Vector Scalar k) (h : e s = (Except.ok v, s)) :
    assignTo dst e s = (Except.ok v, Function.update s dst v) := by
  simp [assignTo, Exec.andThen, h, construct, Exec.ret]

theorem assignTo_error (dst : Fin n) (e : Exec (Store Scalar k n) (Vector Scalar k))
    (s : Store Scalar k n) (x : PhysikaException) (h : e s = (Except.error x, s)) :
    assignTo dst e s = (Except.error x, s) := by
  simp [assignTo, Exec.andThen, h]

theorem Store.components_update (s : Store Scalar k n) (a : Fin n) (v : Vector Scalar k) :
    Store.components (Function.update s a v) = Function.update s.components a v.components := by
  funext b
  by_cases h : b = a
  · subst h
    simp [Store.components]
  · simp [Store.components, Function.update_noteq h]

theorem Store.components_ofComponents (c : Fin n → Scalar × Scalar) :
    (Store.ofComponents k c).components = c := by
  funext a
  simp [Store.components, Store.ofComponents, Vector.components_ctor2]

/-! ## Equivalence of the two storage strategies -/

/-- One client statement, run on two stores (of any two storage kinds) whose objects have
the same components, is observed the same and leaves stores with the same components. -/
theorem Op.exec_components {k1 k2 : StorageKind} (S : ScalarOps Scalar) (op : Op Scalar n)
    (s1 : Store Scalar k1 n) (s2 : Store Scalar k2 n) (h : s1.components = s2.components) :
    (op.exec S s1).1 = (op.exec S s2).1
      ∧ (op.exec S s1).2.components = (op.exec S s2).2.components := by
  have h' : ∀ a, (s1 a).components = (s2 a).components := fun a => congrFun h a
  cases op with
  | construct0 dst =>
    simp [Op.exec, observe, construct, Store.components_update, h, Vector.ctor0, Vector.ctor1,
      Vector.components_ctor2]
  | construct1 dst x =>
    simp [Op.exec, observe, construct, Store.components_update, h, Vector.ctor1,
      Vector.components_ctor2]
  | construct2 dst x y =>
    simp [Op.exec, observe, construct, Store.components_update, h, Vector.components_ctor2]
  | readIndex v idx =>
    simp only [Op.exec, observe, Vector.readConst_eq, h']
    split <;> simp_all
  | writeIndex v idx x =>
    simp only [Op.exec, observe, Vector.writeIndex_eq]
    by_cases hi : 2 ≤ idx
    · simp [hi, h]
    · by_cases h0 : idx = 0
      · simp [hi, h0, Store.components_update, Vector.components_ctor2, h, h']
      · simp [hi, h0, Store.components_update, Vector.components_ctor2, h, h']
  | add dst a b =>
    simp [Op.exec, observe, assignTo_ok dst _ _ _ (Vector.add_eq S a b _), Obs.ofVector,
      Store.components_update, Vector.components_ctor2, h, h']
  | addAssign a b =>
    simp [Op.exec, observe, Vector.addAssign_eq, Obs.ofRef,
      Store.components_update, Vector.components_ctor2, h, h']
  | sub dst a b =>
    simp [Op.exec, observe, assignTo_ok dst _ _ _ (Vector.sub_eq S a b _), Obs.ofVector,
      Store.components_update, Vector.components_ctor2, h, h']
  | subAssign a b =>
    simp [Op.exec, observe, Vector.subAssign_eq, Obs.ofRef,
      Store.components_update, Vector.components_ctor2, h, h']
  | eq a b =>
    simp [Op.exec, observe, Vector.eq_eq, h, h']
  | ne a b =>
    simp [Op.exec, observe, Vector.ne_eq, Vector.eq_eq, Except.map, h, h']
  | addScalar dst a value =>
    simp [Op.exec, observe, assignTo_ok dst _ _ _ (Vector.addScalar_eq S a value _),
      Obs.ofVector, Store.components_update, Vector.components_ctor2, h, h']
  | addAssignScalar a value =>
    simp [Op.exec, observe, Vector.addAssignScalar_eq, Obs.ofRef,
      Store.components_update, Vector.components_ctor2, h, h']
  | subScalar dst a value =>
    simp [Op.exec, observe, assignTo_ok dst _ _ _ (Vector.subScalar_eq S a value _),
      Obs.ofVector, Store.components_update, Vector.components_ctor2, h, h']
  | subAssignScalar a value =>
    simp [Op.exec, observe, Vector.subAssignScalar_eq, Obs.ofRef,
      Store.components_update, Vector.components_ctor2, h, h']
  | mulScalar dst a scale =>
    simp [Op.exec, observe, assignTo_ok dst _ _ _ (Vector.mulScalar_eq S a scale _),
      Obs.ofVector, Store.components_update, Vector.components_ctor2, h, h']
  | mulAssignScalar a scale =>
    simp [Op.exec, observe, Vector.mulAssignScalar_eq, Obs.ofRef,
      Store.components_update, Vector.components_ctor2, h, h']
  | divScalar dst a scale =>
    by_cases hz : S.le (S.abs scale) S.epsilon = true
    · have e1 := Vector.divScalar_eq S a scale s1
      have e2 := Vector.divScalar_eq S a scale s2
      rw [if_pos hz] at e1 e2
      simp [Op.exec, observe, assignTo_error dst _ _ _ e1, assignTo_error dst _ _ _ e2, h]
    · have e1 := Vector.divScalar_eq S a scale s1
      have e2 := Vector.divScalar_eq S a scale s2
      rw [if_neg hz] at e1 e2
      simp [Op.exec, observe, assignTo_ok dst _ _ _ e1, assignTo_ok dst _ _ _ e2,
        Obs.ofVector, Store.components_update, Vector.components_ctor2, h, h']
  | divAssignScalar a scale =>
    by_cases hz : S.le (S.abs scale) S.epsilon = true
    · simp [Op.exec, observe, Vector.divAssignScalar_eq, hz, h]
    · simp [Op.exec, observe, Vector.divAssignScalar_eq, hz, Obs.ofRef,
        Store.components_update, Vector.components_ctor2, h, h']
  | neg dst a =>
    simp [Op.exec, observe, assignTo_ok dst _ _ _ (Vector.neg_eq S a _), Obs.ofVector,
      Store.components_update, Vector.components_ctor2, h, h']
  | norm a =>
    simp [Op.exec, observe, Vector.norm_eq, h, h']
  | normSquared a =>
    simp [Op.exec, observe, Vector.normSquared_eq, h, h']
  | normalize a =>
    simp only [Op.exec, observe, Vector.normalize_eq, h']
    split
    · simp [Obs.ofRef, Store.components_update, Vector.components_ctor2, h, h']
    · simp [Obs.ofRef, h]
  | cross a b =>
    simp [Op.exec, observe, Vector.cross_eq, h, h']
  | dot a b =>
    simp [Op.exec, observe, Vector.dot_eq, h, h']

theorem run_components {k1 k2 : StorageKind} (S : ScalarOps Scalar) (prog : List (Op Scalar n)) :
    ∀ (s1 : Store Scalar k1 n) (s2 : Store Scalar k2 n), s1.components = s2.components →
      (run S prog s1).1 = (run S prog s2).1
        ∧ (run S prog s1).2.components = (run S prog s2).2.components := by
  induction prog with
  | nil =>
    intro s1 s2 h
    exact ⟨rfl, h⟩
  | cons op rest ih =>
    intro s1 s2 h
    obtain ⟨ho, hs⟩ := Op.exec_components S op s1 s2 h
    obtain ⟨hro, hrs⟩ := ih _ _ hs
    simp only [run]
    exact ⟨by rw [ho, hro], hrs⟩

/-- C3: the vector built with `PHYSIKA_USE_EIGEN_VECTOR` and the one built with
`PHYSIKA_USE_BUILT_IN_VECTOR` are observationally equivalent: every sequence of
constructor calls and operations of `vector_2d.cpp`, started on the same vectors, yields
the same returned values and exceptions, statement by statement, and the same component
values afterwards. -/
theorem storage_strategies_equivalent (S : ScalarOps Scalar) (c : Fin n → Scalar × Scalar)
    (prog : List (Op Scalar n)) :
    (run S prog (Store.ofComponents StorageKind.PHYSIKA_USE_EIGEN_VECTOR c)).1 =
        (run S prog (Store.ofComponents StorageKind.PHYSIKA_USE_BUILT_IN_VECTOR c)).1
    ∧ (run S prog (Store.ofComponents StorageKind.PHYSIKA_USE_EIGEN_VECTOR c)).2.components =
        (run S prog (Store.ofComponents StorageKind.PHYSIKA_USE_BUILT_IN_VECTOR c)).2.components :=
  run_components S prog _ _ (by rw [Store.components_ofComponents, Store.components_ofComponents])

/-! ## `PointSet` accessors -/

/-- Whatever the point set, `getNormals()` refers to the member `getPoints()` refers to:
an array assigned through it is read back by `getPoints()`, is what `getPointSize()`
counts, and `m_normals` keeps its value. -/
theorem PointSet.getNormals_refers_to_coords {Real Coord Neighbors : Type}
    (ps : PointSet Real Coord Neighbors) (a : DeviceArray Coord) :
    ps.getNormals = ps.getPoints
    ∧ ps.load ps.getNormals = ps.m_coords
    ∧ (ps.store ps.getNormals a).load (ps.store ps.getNormals a).getPoints = a
    ∧ (ps.store ps.getNormals a).getPointSize = Int.ofNat a.length
    ∧ (ps.store ps.getNormals a).m_normals = ps.m_normals := by
  simp [PointSet.getNormals, PointSet.getPoints, PointSet.load, PointSet.store,
    PointSet.getPointSize]

/-- C7 (as the code behaves): on the point set with coordinates `[1, 2, 3]` and normals
`[7, 8, 9]`, `getNormals()` yields the coordinate array rather than `m_normals`, and
assigning `[0]` through `getNormals()` changes what `getPoints()` and `getPointSize()`
report (from `[1, 2, 3]` and `3` to `[0]` and `1`) while `m_normals` stays `[7, 8, 9]`. -/
theorem getNormals_aliases_getPoints :
    PointSet.load (⟨(), [1, 2, 3], [7, 8, 9], ()⟩ : PointSet Unit Nat Unit)
        (PointSet.getNormals (⟨(), [1, 2, 3], [7, 8, 9], ()⟩ : PointSet Unit Nat Unit))
      = [1, 2, 3]
    ∧ PointSet.load (⟨(), [1, 2, 3], [7, 8, 9], ()⟩ : PointSet Unit Nat Unit)
        (PointSet.getPoints (⟨(), [1, 2, 3], [7, 8, 9], ()⟩ : PointSet Unit Nat Unit))
      = [1, 2, 3]
    ∧ PointSet.getPointSize (⟨(), [1, 2, 3], [7, 8, 9], ()⟩ : PointSet Unit Nat Unit) = 3
    ∧ PointSet.load
        (PointSet.store (⟨(), [1, 2, 3], [7, 8, 9], ()⟩ : PointSet Unit Nat Unit)
          (PointSet.getNormals (⟨(), [1, 2, 3], [7, 8, 9], ()⟩ : PointSet Unit Nat Unit)) [0])
        PointSet.ArrayRef.m_coords = [0]
    ∧ PointSet.getPointSize
        (PointSet.store (⟨(), [1, 2, 3], [7, 8, 9], ()⟩ : PointSet Unit Nat Unit)
          (PointSet.getNormals (⟨(), [1, 2, 3], [7, 8, 9], ()⟩ : PointSet Unit Nat Unit)) [0])
      = 1
    ∧ (PointSet.store (⟨(), [1, 2, 3], [7, 8, 9], ()⟩ : PointSet Unit Nat Unit)
          (PointSet.getNormals (⟨(), [1, 2, 3], [7, 8, 9], ()⟩ : PointSet Unit Nat Unit))
          [0]).m_normals = [7, 8, 9] := by
  decide

/-! ## `Sign` -/

/-- C8: `Sign(x)` is `-1` for `x < 0` and `1` otherwise, in particular `1` at `0`; it is
never `0`, `Sign(x) * x = |x|`, and the copy in the ellipsoid vertex shader and the copy in
the ellipsoid fragment shader are the same function. -/
theorem Sign_never_zero {F : Type} [LinearOrderedField F] (x : F) :
    (vertex_ellipsoid_depth_shader.Sign x = if x < 0 then -1 else 1)
    ∧ vertex_ellipsoid_depth_shader.Sign (0 : F) = 1
    ∧ (vertex_ellipsoid_depth_shader.Sign x = -1 ↔ x < 0)
    ∧ (vertex_ellipsoid_depth_shader.Sign x = 1 ↔ ¬ x < 0)
    ∧ vertex_ellipsoid_depth_shader.Sign x ≠ 0
    ∧ vertex_ellipsoid_depth_shader.Sign x * x = |x|
    ∧ fragment_ellipsoid_depth_shader.Sign x = vertex_ellipsoid_depth_shader.Sign x := by
  have hne : (-1 : F) ≠ 1 := by norm_num
  refine ⟨rfl, by simp [vertex_ellipsoid_depth_shader.Sign], ?_, ?_, ?_, ?_, rfl⟩
  · by_cases h : x < 0
    · simp [vertex_ellipsoid_depth_shader.Sign, h]
    · simp [vertex_ellipsoid_depth_shader.Sign, h, hne.symm]
  · by_cases h : x < 0
    · simp [vertex_ellipsoid_depth_shader.Sign, h, hne]
    · simp [vertex_ellipsoid_depth_shader.Sign, h]
  · by_cases h : x < 0
    · simp [vertex_ellipsoid_depth_shader.Sign, h]
    · simp [vertex_ellipsoid_depth_shader.Sign, h]
  · by_cases h : x < 0
    · simp [vertex_ellipsoid_depth_shader.Sign, h, abs_of_neg h]
    · simp [vertex_ellipsoid_depth_shader.Sign, h, abs_of_nonneg (not_lt.mp h)]

/-! ## `solveQuadratic` and the quadric matrices -/

/-- The two copies of `solveQuadratic` differ only in the branch `a == 0.0 && b == 0.0`. -/
theorem solveQuadratic_copies_agree {F : Type} [LinearOrderedField F] (sqrt : F → F) (a b c : F)
    (h : ¬ (a = 0 ∧ b = 0)) :
    fragment_ellipsoid_depth_shader.solveQuadratic sqrt a b c =
      vertex_ellipsoid_depth_shader.solveQuadratic sqrt a b c := by
  simp only [fragment_ellipsoid_depth_shader.solveQuadratic,
    vertex_ellipsoid_depth_shader.solveQuadratic, h, if_false]
  rfl

/-- With `a != 0` or `b != 0` and a negative discriminant both copies return `false` and
write neither `out` parameter. -/
theorem solveQuadratic_negative_discriminant {F : Type} [LinearOrderedField F] (sqrt : F → F)
    (a b c : F) (h : a ≠ 0 ∨ b ≠ 0) (hD : b * b - 4 * a * c < 0) :
    vertex_ellipsoid_depth_shader.solveQuadratic sqrt a b c = ⟨false, none, none⟩
    ∧ fragment_ellipsoid_depth_shader.solveQuadratic sqrt a b c = ⟨false, none, none⟩ := by
  have h' : ¬ (a = 0 ∧ b = 0) := by
    rintro ⟨ha, hb⟩
    rcases h with h | h
    · exact h ha
    · exact h hb
  rw [solveQuadratic_copies_agree sqrt a b c h']
  simp [vertex_ellipsoid_depth_shader.solveQuadratic, h', hD]

/-- Over the reals, for `a != 0`, a discriminant `>= 0` and `b`, `c` not both zero,
`solveQuadratic` returns `true` with `minT <= maxT` the two roots, which are all the roots. -/
theorem solveQuadratic_roots (a b c : ℝ) (ha : a ≠ 0) (hD : 0 ≤ b * b - 4 * a * c)
    (hbc : b ≠ 0 ∨ c ≠ 0) :
    ∃ m M : ℝ,
      vertex_ellipsoid_depth_shader.solveQuadratic Real.sqrt a b c = ⟨true, some m, some M⟩
      ∧ m ≤ M
      ∧ a * m ^ 2 + b * m + c = 0
      ∧ a * M ^ 2 + b * M + c = 0
      ∧ ∀ x : ℝ, a * x ^ 2 + b * x + c = 0 ↔ (x = m ∨ x = M) := by
  have hsq0 : 0 ≤ Real.sqrt (b * b - 4 * a * c) := Real.sqrt_nonneg _
  have hsq : Real.sqrt (b * b - 4 * a * c) * Real.sqrt (b * b - 4 * a * c) = b * b - 4 * a * c :=
    Real.mul_self_sqrt hD
  have hσ : vertex_ellipsoid_depth_shader.Sign b * vertex_ellipsoid_depth_shader.Sign b = 1 := by
    by_cases hb : b < 0 <;> simp [vertex_ellipsoid_depth_shader.Sign, hb]
  have ht0 : -(1 / 2) * (b + vertex_ellipsoid_depth_shader.Sign b
      * Real.sqrt (b * b - 4 * a * c)) ≠ 0 := by
    generalize Real.sqrt (b * b - 4 * a * c) = sq at hsq0 hsq
    by_cases hb : b < 0
    · simp only [vertex_ellipsoid_depth_shader.Sign, hb, if_true]
      intro h
      nlinarith
    · simp only [vertex_ellipsoid_depth_shader.Sign, hb, if_false]
      intro h
      have hb0 : 0 ≤ b := not_lt.mp hb
      have hb' : b = 0 := by nlinarith
      have hs' : sq = 0 := by nlinarith
      subst hb'
      rw [hs'] at hsq
      have hac : a * c = 0 := by nlinarith
      rcases mul_eq_zero.mp hac with h1 | h1
      · exact ha h1
      · rcases hbc with h2 | h2
        · exact h2 rfl
        · exact h2 h1
  have hkey : (-(1 / 2) * (b + vertex_ellipsoid_depth_shader.Sign b
        * Real.sqrt (b * b - 4 * a * c)))
      * (-(1 / 2) * (b + vertex_ellipsoid_depth_shader.Sign b * Real.sqrt (b * b - 4 * a * c)))
      + b * (-(1 / 2) * (b + vertex_ellipsoid_depth_shader.Sign b
        * Real.sqrt (b * b - 4 * a * c))) + a * c = 0 := by
    linear_combination (1 / 4) * Real.sqrt (b * b - 4 * a * c) * Real.sqrt (b * b - 4 * a * c) * hσ
      + (1 / 4) * hsq
  have hnD : ¬ (b * b - 4 * a * c < 0) := not_lt.mpr hD
  simp only [vertex_ellipsoid_depth_shader.solveQuadratic, ha, false_and, if_false, hnD,
    GlFloat.quotient, ht0]
  generalize -(1 / 2) * (b + vertex_ellipsoid_depth_shader.Sign b
      * Real.sqrt (b * b - 4 * a * c)) = t at ht0 hkey
  have h1 : a * (t / a) ^ 2 + b * (t / a) + c = 0 := by
    have e : a * (t / a) ^ 2 + b * (t / a) + c = (t * t + b * t + a * c) / a := by
      field_simp
      ring
    rw [e, hkey, zero_div]
  have h2 : a * (c / t) ^ 2 + b * (c / t) + c = 0 := by
    have e : a * (c / t) ^ 2 + b * (c / t) + c = c * (t * t + b * t + a * c) / (t * t) := by
      field_simp
      ring
    rw [e, hkey, mul_zero, zero_div]
  have hall : ∀ x : ℝ, a * x ^ 2 + b * x + c = 0 ↔ (x = t / a ∨ x = c / t) := by
    intro x
    have hfac : a * x ^ 2 + b * x + c = a * ((x - t / a) * (x - c / t)) := by
      have e : a * x ^ 2 + b * x + c
          = a * ((x - t / a) * (x - c / t)) + x * (t * t + b * t + a * c) / t := by
        field_simp
        ring
      rw [e, hkey, mul_zero, zero_div, add_zero]
    rw [hfac]
    constructor
    · intro h
      rcases mul_eq_zero.mp h with h | h
      · exact absurd h ha
      · rcases mul_eq_zero.mp h with h | h
        · exact Or.inl (sub_eq_zero.mp h)
        · exact Or.inr (sub_eq_zero.mp h)
    · rintro (h | h)
      · rw [h]; ring
      · rw [h]; ring
  by_cases hgt : t / a > c / t
  · refine ⟨c / t, t / a, ?_, le_of_lt hgt, h2, h1, ?_⟩
    · simp [GlFloat.gt, hgt]
    · intro x
      rw [hall x]
      exact Or.comm
  · refine ⟨t / a, c / t, ?_, not_lt.mp hgt, h1, h2, hall⟩
    simp [GlFloat.gt, hgt]

/-- For an orthonormal triple `q1.xyz`, `q2.xyz`, `q3.xyz` and non-zero scales, `invq * q`
is the diagonal matrix with diagonal `1, 1, 1, -1`. -/
theorem invq_mul_q {F : Type} [LinearOrderedField F] (q1 q2 q3 : vec4 F)
    (worldPos : vec3 F)
    (h11 : vec3.dot q1.xyz q1.xyz = 1) (h22 : vec3.dot q2.xyz q2.xyz = 1)
    (h33 : vec3.dot q3.xyz q3.xyz = 1) (h12 : vec3.dot q1.xyz q2.xyz = 0)
    (h13 : vec3.dot q1.xyz q3.xyz = 0) (h23 : vec3.dot q2.xyz q3.xyz = 0)
    (hw1 : q1.w ≠ 0) (hw2 : q2.w ≠ 0) (hw3 : q3.w ≠ 0) :
    mat4.mul (vertex_ellipsoid_depth_shader.invq q1 q2 q3 worldPos)
        (vertex_ellipsoid_depth_shader.q q1 q2 q3 worldPos)
      = ⟨⟨1, 0, 0, 0⟩, ⟨0, 1, 0, 0⟩, ⟨0, 0, 1, 0⟩, ⟨0, 0, 0, -1⟩⟩ := by
  obtain ⟨x1, y1, z1, w1⟩ := q1
  obtain ⟨x2, y2, z2, w2⟩ := q2
  obtain ⟨x3, y3, z3, w3⟩ := q3
  obtain ⟨px, py, pz⟩ := worldPos
  simp only [vec3.dot, vec4.xyz] at h11 h22 h33 h12 h13 h23
  simp only [ne_eq] at hw1 hw2 hw3
  simp only [mat4.mul, mat4.mulVec, mat4.transpose, vertex_ellipsoid_depth_shader.invq,
    vertex_ellipsoid_depth_shader.q, vec4.add, vec4.scale, vec4.neg, vec4.ofVec3,
    vec4.xyz, vec3.scale, vec3.divide]
  have i1 : w1 * w1⁻¹ = 1 := mul_inv_cancel₀ hw1
  have i2 : w2 * w2⁻¹ = 1 := mul_inv_cancel₀ hw2
  have i3 : w3 * w3⁻¹ = 1 := mul_inv_cancel₀ hw3
  congr 1 <;> congr 1
  all_goals first
    | ring1
    | linear_combination (w1 * w1⁻¹) * h11 + i1
    | linear_combination (w2 * w2⁻¹) * h22 + i2
    | linear_combination (w3 * w3⁻¹) * h33 + i3
    | linear_combination (w1 * w2⁻¹) * h12
    | linear_combination (w2 * w1⁻¹) * h12
    | linear_combination (w1 * w3⁻¹) * h13
    | linear_combination (w3 * w1⁻¹) * h13
    | linear_combination (w2 * w3⁻¹) * h23
    | linear_combination (w3 * w2⁻¹) * h23

/-- C9 (as the code behaves): at `a = 1`, `b = 0`, `c = 0` (so `a != 0` and the
discriminant is `0 >= 0`; the only root is `0`) both copies of `solveQuadratic` compute
`t = 0`, return `true` with `minT = 0` and set `maxT` to the quotient `c / t = 0.0 / 0.0`,
which has no real value and so is not a root. -/
theorem solveQuadratic_double_root_at_zero :
    vertex_ellipsoid_depth_shader.solveQuadratic Real.sqrt 1 0 0 = ⟨true, some 0, none⟩
    ∧ fragment_ellipsoid_depth_shader.solveQuadratic Real.sqrt 1 0 0 = ⟨true, some 0, none⟩
    ∧ ((1 : ℝ) ≠ 0 ∧ (0 : ℝ) * 0 - 4 * 1 * 0 ≥ 0)
    ∧ (∀ x : ℝ, (1 : ℝ) * x ^ 2 + 0 * x + 0 = 0 ↔ x = 0) := by
  refine ⟨?_, ?_, ?_, ?_⟩
  · simp [vertex_ellipsoid_depth_shader.solveQuadratic, vertex_ellipsoid_depth_shader.Sign,
      GlFloat.quotient, GlFloat.gt]
  · simp [fragment_ellipsoid_depth_shader.solveQuadratic, fragment_ellipsoid_depth_shader.Sign,
      GlFloat.quotient, GlFloat.gt]
  · norm_num
  · intro x
    simp

/-- C10 (as the code behaves): for the orthonormal triple `(1,0,0)`, `(0,1,0)`, `(0,0,1)`,
scales `1` and `worldPos = (0,0,0)`, the matrix `invq` after
`invq[3] = -(invq*gl_Position)` has last column `(0, 0, 0, -1)`, and `invq * q` is the
diagonal matrix with diagonal `1, 1, 1, -1`, which is not the identity. -/
theorem invq_times_q_not_identity :
    (vertex_ellipsoid_depth_shader.invq (⟨1, 0, 0, 1⟩ : vec4 ℚ) ⟨0, 1, 0, 1⟩
        ⟨0, 0, 1, 1⟩ ⟨0, 0, 0⟩).col3 = ⟨0, 0, 0, -1⟩
    ∧ mat4.mul
        (vertex_ellipsoid_depth_shader.invq (⟨1, 0, 0, 1⟩ : vec4 ℚ) ⟨0, 1, 0, 1⟩
          ⟨0, 0, 1, 1⟩ ⟨0, 0, 0⟩)
        (vertex_ellipsoid_depth_shader.q (⟨1, 0, 0, 1⟩ : vec4 ℚ) ⟨0, 1, 0, 1⟩
          ⟨0, 0, 1, 1⟩ ⟨0, 0, 0⟩)
      = ⟨⟨1, 0, 0, 0⟩, ⟨0, 1, 0, 0⟩, ⟨0, 0, 1, 0⟩, ⟨0, 0, 0, -1⟩⟩
    ∧ mat4.mul
        (vertex_ellipsoid_depth_shader.invq (⟨1, 0, 0, 1⟩ : vec4 ℚ) ⟨0, 1, 0, 1⟩
          ⟨0, 0, 1, 1⟩ ⟨0, 0, 0⟩)
        (vertex_ellipsoid_depth_shader.q (⟨1, 0, 0, 1⟩ : vec4 ℚ) ⟨0, 1, 0, 1⟩
          ⟨0, 0, 1, 1⟩ ⟨0, 0, 0⟩)
      ≠ mat4.identity := by
  refine ⟨?_, ?_, ?_⟩
  · simp [mat4.mulVec, mat4.transpose, vertex_ellipsoid_depth_shader.invq,
      vec4.add, vec4.scale, vec4.neg, vec4.ofVec3, vec4.xyz, vec3.divide]
  · simp [mat4.mul, mat4.mulVec, mat4.transpose, vertex_ellipsoid_depth_shader.invq,
      vertex_ellipsoid_depth_shader.q, vec4.add, vec4.scale, vec4.neg, vec4.ofVec3,
      vec4.xyz, vec3.scale, vec3.divide]
  · simp [mat4.mul, mat4.mulVec, mat4.transpose, vertex_ellipsoid_depth_shader.invq,
      vertex_ellipsoid_depth_shader.q, vec4.add, vec4.scale, vec4.neg, vec4.ofVec3,
      vec4.xyz, vec3.scale, vec3.divide, mat4.identity]
    norm_num

/-! ## Arithmetic of integer scalars -/

theorem IntType.wrap_modEq (T : IntType) (x : Int) : T.wrap x ≡ x [ZMOD T.modulus] := by
  cases T with
  | exact => exact Int.ModEq.refl _
  | unsignedBits w => exact Int.mod_modEq x _
  | signedBits w =>
    show (x + 2 ^ (w - 1)) % 2 ^ w - 2 ^ (w - 1) ≡ x [ZMOD 2 ^ w]
    have h := (Int.mod_modEq (x + 2 ^ (w - 1)) (2 ^ w)).sub_right (2 ^ (w - 1))
    simpa using h

theorem IntType.wrap_congr (T : IntType) {x y : Int} (h : x ≡ y [ZMOD T.modulus]) :
    T.wrap x = T.wrap y := by
  cases T with
  | exact => simpa [IntType.modulus, Int.ModEq] using h
  | unsignedBits w => exact h
  | signedBits w =>
    have h2 : (x + 2 ^ (w - 1)) % 2 ^ w = (y + 2 ^ (w - 1)) % 2 ^ w := h.add_right _
    simp only [IntType.wrap, h2]

theorem IntType.wrap_add (T : IntType) (x y : Int) :
    T.wrap (T.wrap x + T.wrap y) = T.wrap (x + y) :=
  T.wrap_congr ((T.wrap_modEq x).add (T.wrap_modEq y))

theorem IntType.wrap_sub (T : IntType) (x y : Int) :
    T.wrap (T.wrap x - T.wrap y) = T.wrap (x - y) :=
  T.wrap_congr ((T.wrap_modEq x).sub (T.wrap_modEq y))

theorem IntType.wrap_mul (T : IntType) (x y : Int) :
    T.wrap (T.wrap x * T.wrap y) = T.wrap (x * y) :=
  T.wrap_congr ((T.wrap_modEq x).mul (T.wrap_modEq y))

theorem IntType.wrap_neg (T : IntType) (x : Int) : T.wrap (-T.wrap x) = T.wrap (-x) :=
  T.wrap_congr (T.wrap_modEq x).neg

theorem IntType.wrap_add_right (T : IntType) (x y : Int) :
    T.wrap (x + T.wrap y) = T.wrap (x + y) :=
  T.wrap_congr ((Int.ModEq.refl x).add (T.wrap_modEq y))

theorem IntType.wrap_wrap (T : IntType) (x : Int) : T.wrap (T.wrap x) = T.wrap x :=
  T.wrap_congr (T.wrap_modEq x)


theorem IntType.wrap_zero_of_inRange (T : IntType) {x : Int} (h : T.inRange x) : T.wrap 0 = 0 := by
  apply IntType.wrap_of_inRange
  cases T with
  | exact => trivial
  | unsignedBits w => exact ⟨le_refl _, by positivity⟩
  | signedBits w =>
    obtain ⟨hw, _, _⟩ := h
    have hpos : (0 : Int) < 2 ^ (w - 1) := by positivity
    exact ⟨hw, by omega, hpos⟩

/-! ## Dot product, cross product and unary minus -/

/-- C17: over an integer `Scalar`, `a.dot(b) = a[0]*b[0] + a[1]*b[1] = b.dot(a)`,
`a.cross(b) = a[0]*b[1] - a[1]*b[0] = -(b.cross(a))`, `a.cross(a) = 0` and
`a.normSquared() = a.dot(a)`, each value being the exact one converted to `Scalar`; no
call throws or changes a vector. -/
theorem dot_symmetric_cross_antisymmetric (T : IntType) (isEqual : Int → Int → Bool)
    (a b : Fin n) (s : Store Int k n) (ha : ∀ i, T.inRange ((s a).storageGet i)) :
    Vector.dot (intOps T isEqual) a b s =
        (Except.ok (T.wrap ((s a).storageGet 0 * (s b).storageGet 0
          + (s a).storageGet 1 * (s b).storageGet 1)), s)
    ∧ Vector.dot (intOps T isEqual) a b s = Vector.dot (intOps T isEqual) b a s
    ∧ Vector.cross (intOps T isEqual) a b s =
        (Except.ok (T.wrap ((s a).storageGet 0 * (s b).storageGet 1
          - (s a).storageGet 1 * (s b).storageGet 0)), s)
    ∧ (Vector.cross (intOps T isEqual) a b s).1 =
        Except.map (intOps T isEqual).neg (Vector.cross (intOps T isEqual) b a s).1
    ∧ Vector.cross (intOps T isEqual) a a s = (Except.ok 0, s)
    ∧ Vector.normSquared (intOps T isEqual) a s = Vector.dot (intOps T isEqual) a a s
    ∧ (intOps T isEqual).neg ((s a).storageGet 0) = T.wrap (-(s a).storageGet 0) := by
  have hadd : ∀ x y : Int, (intOps T isEqual).add x y = T.wrap (x + y) := fun _ _ => rfl
  have hsub : ∀ x y : Int, (intOps T isEqual).sub x y = T.wrap (x - y) := fun _ _ => rfl
  have hmul : ∀ x y : Int, (intOps T isEqual).mul x y = T.wrap (x * y) := fun _ _ => rfl
  have hneg : ∀ x : Int, (intOps T isEqual).neg x = T.wrap (-x) := fun _ => rfl
  simp only [Vector.dot_eq, Vector.cross_eq, Vector.normSquared_eq, hadd, hsub, hmul, hneg,
    Vector.components, IntType.wrap_add, IntType.wrap_sub, IntType.wrap_neg, Except.map]
  refine ⟨trivial, ?_, trivial, ?_, ?_, trivial, trivial⟩
  · congr 3
    ring
  · congr 2
    ring
  · rw [mul_comm ((s a).storageGet 1), sub_self, T.wrap_zero_of_inRange (ha 0)]

/-- C18: the Lagrange identity `a.dot(b)^2 + a.cross(b)^2 = a.normSquared() * b.normSquared()`
holds in the arithmetic of every integer `Scalar`, exact or modulo `2^w`. -/
theorem lagrange_identity (T : IntType) (isEqual : Int → Int → Bool) (a b : Fin n)
    (s : Store Int k n) :
    (do
        let d ← (Vector.dot (intOps T isEqual) a b s).1
        let c ← (Vector.cross (intOps T isEqual) a b s).1
        pure ((intOps T isEqual).add ((intOps T isEqual).mul d d) ((intOps T isEqual).mul c c)))
      = (do
        let p ← (Vector.normSquared (intOps T isEqual) a s).1
        let q ← (Vector.normSquared (intOps T isEqual) b s).1
        pure ((intOps T isEqual).mul p q))
    ∧ (do
        let p ← (Vector.normSquared (intOps T isEqual) a s).1
        let q ← (Vector.normSquared (intOps T isEqual) b s).1
        pure ((intOps T isEqual).mul p q))
      = Except.ok (T.wrap
          (((s a).storageGet 0 * (s a).storageGet 0 + (s a).storageGet 1 * (s a).storageGet 1)
            * ((s b).storageGet 0 * (s b).storageGet 0
              + (s b).storageGet 1 * (s b).storageGet 1))) := by
  have hadd : ∀ x y : Int, (intOps T isEqual).add x y = T.wrap (x + y) := fun _ _ => rfl
  have hsub : ∀ x y : Int, (intOps T isEqual).sub x y = T.wrap (x - y) := fun _ _ => rfl
  have hmul : ∀ x y : Int, (intOps T isEqual).mul x y = T.wrap (x * y) := fun _ _ => rfl
  simp only [Vector.dot_eq, Vector.cross_eq, Vector.normSquared_eq, hadd, hsub, hmul,
    Vector.components, IntType.wrap_add, IntType.wrap_sub, IntType.wrap_mul, bind, Except.bind,
    pure, Except.pure]
  refine ⟨?_, trivial⟩
  congr 2
  ring

/-- A sub-expression and a rest of the expression that both leave the store as it is. -/
theorem withTemporary_pure {α : Type} (e : Exec (Store Scalar k n) (Vector Scalar k))
    (body : Fin (n + 1) → Exec (Store Scalar k (n + 1)) α) (s : Store Scalar k n)
    (v : Vector Scalar k) (r : Except PhysikaException α)
    (he : e s = (Except.ok v, s))
    (hb : body (Fin.last n) (s.push v) = (r, s.push v)) :
    withTemporary e body s = (r, s) := by
  simp [withTemporary, he, hb, Store.pop_push]

/-- C16: over an integer `Scalar`, `(-v)[i] = -(v[i])` and `-v` leaves `v` unchanged;
`-(-v) == v`, `v + (-v) == Vector()` and `a - b == a + (-b)` evaluate to `true` and leave
the store unchanged. -/
theorem unary_minus_additive_inverse (T : IntType) (isEqual : Int → Int → Bool)
    (a b v : Fin n) (i : Fin 2) (s : Store Int k n)
    (hv : ∀ j, T.inRange ((s v).storageGet j)) :
    -- (-v)[i] = -(v[i]), and v is unchanged
    (Except.map (fun r => r.storageGet i) (Vector.neg (intOps T isEqual) v s).1 =
        Except.ok (T.wrap (-((s v).storageGet i)))
      ∧ (Vector.neg (intOps T isEqual) v s).2 = s)
    -- -(-v) == v
    ∧ withTemporary (Vector.neg (intOps T isEqual) v) (fun t1 =>
        withTemporary (Vector.neg (intOps T isEqual) t1) (fun t2 =>
          Vector.eq (intOps T isEqual) t2 v.castSucc.castSucc)) s = (Except.ok true, s)
    -- v + (-v) == Vector()
    ∧ withTemporary (Vector.neg (intOps T isEqual) v) (fun t1 =>
        withTemporary (Vector.add (intOps T isEqual) v.castSucc t1) (fun t2 =>
          withTemporary (Exec.ret (Vector.ctor0 k (intOps T isEqual))) (fun t3 =>
            Vector.eq (intOps T isEqual) t2.castSucc t3))) s = (Except.ok true, s)
    -- a - b == a + (-b)
    ∧ withTemporary (Vector.sub (intOps T isEqual) a b) (fun l =>
        withTemporary (Vector.neg (intOps T isEqual) b.castSucc) (fun nb =>
          withTemporary (Vector.add (intOps T isEqual) a.castSucc.castSucc nb) (fun r =>
            Vector.eq (intOps T isEqual) l.castSucc.castSucc r))) s = (Except.ok true, s) := by
  have hadd : ∀ x y : Int, (intOps T isEqual).add x y = T.wrap (x + y) := fun _ _ => rfl
  have hsub : ∀ x y : Int, (intOps T isEqual).sub x y = T.wrap (x - y) := fun _ _ => rfl
  have hneg : ∀ x : Int, (intOps T isEqual).neg x = T.wrap (-x) := fun _ => rfl
  have hzero : (intOps T isEqual).zero = 0 := rfl
  have hw0 : ∀ x : Int, T.inRange x → T.wrap (- - x) = x := by
    intro x hx
    rw [neg_neg]
    exact T.wrap_of_inRange x hx
  refine ⟨⟨?_, ?_⟩, ?_, ?_, ?_⟩
  · rw [Vector.neg_eq]
    fin_cases i <;>
      simp [Except.map, Vector.storageGet_ctor2_zero, Vector.storageGet_ctor2_one,
        Vector.components, hneg]
  · rw [Vector.neg_eq]
  · apply withTemporary_pure _ _ _ _ _ (Vector.neg_eq _ _ _)
    apply withTemporary_pure _ _ _ _ _ (Vector.neg_eq _ _ _)
    rw [Vector.eq_int]
    simp only [Store.push_last, Store.push_castSucc, Vector.components_ctor2,
      Vector.storageGet_ctor2_zero, Vector.storageGet_ctor2_one, hneg,
      IntType.wrap_neg, Vector.components, hw0 _ (hv 0), hw0 _ (hv 1)]
    simp
  · apply withTemporary_pure _ _ _ _ _ (Vector.neg_eq _ _ _)
    apply withTemporary_pure _ _ _ _ _ (Vector.add_eq _ _ _ _)
    apply withTemporary_pure _ _ _ _ _ rfl
    rw [Vector.eq_int]
    simp only [Store.push_last, Store.push_castSucc, Vector.components_ctor2,
      Vector.storageGet_ctor2_zero, Vector.storageGet_ctor2_one, hneg, hadd,
      IntType.wrap_add_right, Vector.components, Vector.ctor0, Vector.ctor1, hzero,
      add_neg_cancel, T.wrap_zero_of_inRange (hv 0)]
    simp
  · apply withTemporary_pure _ _ _ _ _ (Vector.sub_eq _ _ _ _)
    apply withTemporary_pure _ _ _ _ _ (Vector.neg_eq _ _ _)
    apply withTemporary_pure _ _ _ _ _ (Vector.add_eq _ _ _ _)
    rw [Vector.eq_int]
    simp only [Store.push_last, Store.push_castSucc, Vector.components_ctor2,
      Vector.storageGet_ctor2_zero, Vector.storageGet_ctor2_one, hneg, hadd, hsub,
      IntType.wrap_add_right, Vector.components, ← sub_eq_add_neg]
    simp

/-! ## Normalisation -/

theorem IntType.inRange_of_nonneg_le (T : IntType) {z z' : Int} (h0 : 0 ≤ z) (hle : z ≤ z')
    (h : T.inRange z') : T.inRange z := by
  cases T with
  | exact => trivial
  | unsignedBits w => exact ⟨h0, lt_of_le_of_lt hle h.2⟩
  | signedBits w =>
    obtain ⟨hw, _, h2⟩ := h
    have hpos : (0 : Int) < 2 ^ (w - 1) := by positivity
    exact ⟨hw, by omega, lt_of_le_of_lt hle h2⟩

theorem IntType.wrap_zero_le (T : IntType) : T.wrap 0 ≤ 0 := by
  cases T with
  | exact => exact le_refl _
  | unsignedBits w => simp [IntType.wrap]
  | signedBits w =>
    simp only [IntType.wrap, zero_add]
    cases w with
    | zero => simp
    | succ m =>
      have hpos : (0 : Int) < 2 ^ m := by positivity
      have hpow : (2 : Int) ^ (m + 1) = 2 * 2 ^ m := by rw [pow_succ, mul_comm]
      simp only [Nat.add_sub_cancel, hpow]
      rw [Int.emod_eq_of_lt (by omega) (by omega)]
      omega

/-- C15 (amended): `normalize()` never throws and returns its receiver: with
`n = v.norm()`, which is `static_cast<Scalar>(sqrt(r))` for the sum `r` of
`v[0]*v[0] + v[1]*v[1]` computed in `Scalar` arithmetic (for an integer `Scalar` the sum
converted to the type), every component becomes `v[i] / n` when `n > epsilon`, and
otherwise `v` is left unchanged; no other object changes. Normalizing the zero vector
leaves it the zero vector, where `operator/=` by `0` throws. The norm `n` is the integer
part of the square root of `v[0]^2 + v[1]^2` where that sum is a value of the type and the
cast square root is exact at it. -/
theorem normalize_never_throws (T : IntType) (isEqual : Int → Int → Bool)
    (sqrtCast : Int → Int) (a : Fin n) (i : Fin 2) (s : Store Int k n)
    (S : ScalarOps Scalar) (b : Fin n) (t : Store Scalar k n) :
    -- n = v.norm()
    Vector.norm (intOpsWith T isEqual sqrtCast) a s =
        (Except.ok (sqrtCast (T.wrap
          ((s a).storageGet 0 * (s a).storageGet 0 + (s a).storageGet 1 * (s a).storageGet 1))), s)
    -- normalize() does not throw and returns its receiver
    ∧ (Vector.normalize (intOpsWith T isEqual sqrtCast) a s).1 = Except.ok a
    -- each component is divided by n when n > epsilon, and kept otherwise
    ∧ ((Vector.normalize (intOpsWith T isEqual sqrtCast) a s).2 a).storageGet i =
        (if sqrtCast (T.wrap ((s a).storageGet 0 * (s a).storageGet 0
              + (s a).storageGet 1 * (s a).storageGet 1))
              > (intOpsWith T isEqual sqrtCast).epsilon then
          T.wrap (Int.tdiv ((s a).storageGet i) (sqrtCast (T.wrap
            ((s a).storageGet 0 * (s a).storageGet 0 + (s a).storageGet 1 * (s a).storageGet 1))))
        else (s a).storageGet i)
    ∧ (intOpsWith T isEqual sqrtCast).epsilon = 0
    -- no other object changes, and none at all when n <= epsilon
    ∧ (Vector.normalize (intOpsWith T isEqual sqrtCast) a s).2 =
        Function.update s a ((Vector.normalize (intOpsWith T isEqual sqrtCast) a s).2 a)
    ∧ (Vector.normalize (intOpsWith T isEqual sqrtCast) a s).2 =
        (if sqrtCast (T.wrap ((s a).storageGet 0 * (s a).storageGet 0
              + (s a).storageGet 1 * (s a).storageGet 1))
              > (intOpsWith T isEqual sqrtCast).epsilon then
          (Vector.normalize (intOpsWith T isEqual sqrtCast) a s).2
        else s)
    -- the zero vector stays the zero vector, where operator/= by 0 throws
    ∧ (T.inRange 0 →
        Vector.normalize (intOpsWith T isEqual sqrtCast) a
            (construct a (Vector.ctor0 k (intOpsWith T isEqual sqrtCast)) s).2 =
          (Except.ok a, (construct a (Vector.ctor0 k (intOpsWith T isEqual sqrtCast)) s).2))
    ∧ (Vector.divAssignScalar (intOpsWith T isEqual sqrtCast) a 0 s).1 =
        Except.error ⟨"Vector Divide by zero error!"⟩
    -- where the sum is a value of the type and the cast square root is exact at it, the
    -- norm is the integer part of the square root of the sum
    ∧ (T.inRange ((s a).storageGet 0 * (s a).storageGet 0
          + (s a).storageGet 1 * (s a).storageGet 1) →
        sqrtCast ((s a).storageGet 0 * (s a).storageGet 0
          + (s a).storageGet 1 * (s a).storageGet 1) =
          Int.ofNat (Nat.sqrt ((s a).storageGet 0 * (s a).storageGet 0
            + (s a).storageGet 1 * (s a).storageGet 1).toNat) →
        Vector.norm (intOpsWith T isEqual sqrtCast) a s =
          (Except.ok (Int.ofNat (Nat.sqrt ((s a).storageGet 0 * (s a).storageGet 0
            + (s a).storageGet 1 * (s a).storageGet 1).toNat)), s))
    -- every Scalar: normalize() returns its receiver without throwing, and divides the
    -- components by n = norm() when n > epsilon
    ∧ Vector.norm S b t =
        (Except.ok (S.sqrt (S.add (S.mul ((t b).storageGet 0) ((t b).storageGet 0))
          (S.mul ((t b).storageGet 1) ((t b).storageGet 1)))), t)
    ∧ Vector.normalize S b t =
        (Except.ok b,
          if S.gt (S.sqrt (S.add (S.mul ((t b).storageGet 0) ((t b).storageGet 0))
              (S.mul ((t b).storageGet 1) ((t b).storageGet 1)))) S.epsilon = true then
            Function.update t b (Vector.ctor2 k
              (S.div ((t b).storageGet 0) (S.sqrt (S.add
                (S.mul ((t b).storageGet 0) ((t b).storageGet 0))
                (S.mul ((t b).storageGet 1) ((t b).storageGet 1)))))
              (S.div ((t b).storageGet 1) (S.sqrt (S.add
                (S.mul ((t b).storageGet 0) ((t b).storageGet 0))
                (S.mul ((t b).storageGet 1) ((t b).storageGet 1))))))
          else t) := by
  have hadd : ∀ x y : Int, (intOpsWith T isEqual sqrtCast).add x y = T.wrap (x + y) :=
    fun _ _ => rfl
  have hmul : ∀ x y : Int, (intOpsWith T isEqual sqrtCast).mul x y = T.wrap (x * y) :=
    fun _ _ => rfl
  have hdiv : ∀ x y : Int, (intOpsWith T isEqual sqrtCast).div x y = T.wrap (Int.tdiv x y) :=
    fun _ _ => rfl
  have hsqrt : ∀ x : Int, (intOpsWith T isEqual sqrtCast).sqrt x = sqrtCast x := fun _ => rfl
  have hgt : ∀ x y : Int, ((intOpsWith T isEqual sqrtCast).gt x y = true) ↔ x > y := by
    intro x y
    simp [intOpsWith]
  have heps : (intOpsWith T isEqual sqrtCast).epsilon = 0 := rfl
  have hN := Vector.normalize_eq (intOpsWith T isEqual sqrtCast) a s
  simp only [hadd, hmul, hdiv, hsqrt, hgt, IntType.wrap_add, Vector.components] at hN
  have hnorm : Vector.norm (intOpsWith T isEqual sqrtCast) a s =
        (Except.ok (sqrtCast (T.wrap
          ((s a).storageGet 0 * (s a).storageGet 0 + (s a).storageGet 1 * (s a).storageGet 1))), s) := by
    simp only [Vector.norm_eq, hadd, hmul, hsqrt, IntType.wrap_add, Vector.components]
  refine ⟨hnorm, ?_, ?_, rfl, ?_, ?_, ?_, ?_, ?_, Vector.norm_eq S b t, Vector.normalize_eq S b t⟩
  · rw [hN]
  · rw [hN]
    by_cases h : sqrtCast (T.wrap ((s a).storageGet 0 * (s a).storageGet 0
              + (s a).storageGet 1 * (s a).storageGet 1))
              > (intOpsWith T isEqual sqrtCast).epsilon
    · simp only [h, if_true, Function.update_same]
      fin_cases i <;> simp [Vector.storageGet_ctor2_zero, Vector.storageGet_ctor2_one]
    · simp only [h, if_false]
  · rw [hN]
    by_cases h : sqrtCast (T.wrap ((s a).storageGet 0 * (s a).storageGet 0
              + (s a).storageGet 1 * (s a).storageGet 1))
              > (intOpsWith T isEqual sqrtCast).epsilon
    · simp only [h, if_true, Function.update_same, Function.update_idem]
    · simp only [h, if_false, Function.update_eq_self]
  · rw [hN]
    split <;> rfl
  · intro hT
    have hw0 : T.wrap 0 = 0 := IntType.wrap_of_inRange T 0 hT
    rw [Vector.normalize_eq]
    simp [construct, Vector.ctor0, Vector.ctor1, Vector.components_ctor2, hdiv, hw0,
      show (intOpsWith T isEqual sqrtCast).zero = 0 from rfl]
  · rw [Vector.divAssignScalar_eq]
    have := T.wrap_zero_le
    simp [intOpsWith, intAbs, this]
  · intro hr he
    rw [hnorm, IntType.wrap_of_inRange T _ hr, he]

/-- Instance of C15 at the `signed char` vector `(3, 4)` with the exact integer square
root as the cast square root: the sum `25` is a value of the type and the norm is `5`. -/
theorem normalize_never_throws_witness :
    (IntType.signedBits 8).inRange ((3 : Int) * 3 + 4 * 4)
    ∧ Vector.norm (intOpsWith (IntType.signedBits 8) (fun _ _ => false)
          (fun z => Int.ofNat (Nat.sqrt z.toNat))) (0 : Fin 1)
        (Store.ofComponents StorageKind.PHYSIKA_USE_BUILT_IN_VECTOR
          (fun _ : Fin 1 => ((3 : Int), (4 : Int))))
      = (Except.ok (Int.ofNat (Nat.sqrt ((3 : Int) * 3 + 4 * 4).toNat)),
          Store.ofComponents StorageKind.PHYSIKA_USE_BUILT_IN_VECTOR
            (fun _ : Fin 1 => ((3 : Int), (4 : Int)))) :=
  have hr : (IntType.signedBits 8).inRange ((3 : Int) * 3 + 4 * 4) := by
    simp [IntType.inRange]
  ⟨hr, (normalize_never_throws (IntType.signedBits 8) (fun _ _ => false)
    (fun z => Int.ofNat (Nat.sqrt z.toNat)) (0 : Fin 1) 0
    (Store.ofComponents StorageKind.PHYSIKA_USE_BUILT_IN_VECTOR
      (fun _ : Fin 1 => ((3 : Int), (4 : Int))))
    (intOps IntType.exact (fun _ _ => false)) (0 : Fin 1)
    (Store.ofComponents StorageKind.PHYSIKA_USE_BUILT_IN_VECTOR
      (fun _ : Fin 1 => ((3 : Int), (4 : Int))))).2.2.2.2.2.2.2.2.1 hr rfl⟩

/-- Counterexample to C15 as stated: for `unsigned char` and `v = (16, 0)` the sum
`16*16 + 0*0 = 256` is `0` in the type, so `v.norm()` is the cast square root of `0`, which
is `0` and not `16`, the integer part of the square root of `v[0]^2 + v[1]^2`, and
`normalize()` leaves `(16, 0)` where the division by `16` would give `(1, 0)`. -/
theorem norm_not_integer_root :
    (∀ j : Fin 2, (IntType.unsignedBits 8).inRange
        ((Store.ofComponents StorageKind.PHYSIKA_USE_BUILT_IN_VECTOR
          (fun _ : Fin 1 => ((16 : Int), (0 : Int))) 0).storageGet j))
    ∧ Int.ofNat (Nat.sqrt ((16 : Int) * 16 + 0 * 0).toNat) = 16
    ∧ (IntType.unsignedBits 8).wrap ((16 : Int) * 16 + 0 * 0) = 0
    ∧ Vector.norm (intOps (IntType.unsignedBits 8) (fun _ _ => false)) (0 : Fin 1)
        (Store.ofComponents StorageKind.PHYSIKA_USE_BUILT_IN_VECTOR
          (fun _ : Fin 1 => ((16 : Int), (0 : Int))))
      = (Except.ok 0, Store.ofComponents StorageKind.PHYSIKA_USE_BUILT_IN_VECTOR
          (fun _ : Fin 1 => ((16 : Int), (0 : Int))))
    ∧ Vector.normalize (intOps (IntType.unsignedBits 8) (fun _ _ => false)) (0 : Fin 1)
        (Store.ofComponents StorageKind.PHYSIKA_USE_BUILT_IN_VECTOR
          (fun _ : Fin 1 => ((16 : Int), (0 : Int))))
      = (Except.ok 0, Store.ofComponents StorageKind.PHYSIKA_USE_BUILT_IN_VECTOR
          (fun _ : Fin 1 => ((16 : Int), (0 : Int))))
    ∧ (intOps (IntType.unsignedBits 8) (fun _ _ => false)).div 16 16 = 1
    -- the same with any cast square root that maps 0 to 0
    ∧ (∀ sqrtCast : Int → Int, sqrtCast 0 = 0 →
        Vector.norm (intOpsWith (IntType.unsignedBits 8) (fun _ _ => false) sqrtCast) (0 : Fin 1)
            (Store.ofComponents StorageKind.PHYSIKA_USE_BUILT_IN_VECTOR
              (fun _ : Fin 1 => ((16 : Int), (0 : Int))))
          = (Except.ok 0, Store.ofComponents StorageKind.PHYSIKA_USE_BUILT_IN_VECTOR
              (fun _ : Fin 1 => ((16 : Int), (0 : Int))))
        ∧ Vector.normalize (intOpsWith (IntType.unsignedBits 8) (fun _ _ => false) sqrtCast)
            (0 : Fin 1)
            (Store.ofComponents StorageKind.PHYSIKA_USE_BUILT_IN_VECTOR
              (fun _ : Fin 1 => ((16 : Int), (0 : Int))))
          = (Except.ok 0, Store.ofComponents StorageKind.PHYSIKA_USE_BUILT_IN_VECTOR
              (fun _ : Fin 1 => ((16 : Int), (0 : Int))))) := by
  have hsum : (intOps (IntType.unsignedBits 8) (fun _ _ => false)).sqrt
      ((intOps (IntType.unsignedBits 8) (fun _ _ => false)).add
        ((intOps (IntType.unsignedBits 8) (fun _ _ => false)).mul 16 16)
        ((intOps (IntType.unsignedBits 8) (fun _ _ => false)).mul 0 0)) = 0 := by
    simp [intOps, intSqrt, IntType.wrap]
  have hsumW : ∀ sqrtCast : Int → Int, sqrtCast 0 = 0 →
      (intOpsWith (IntType.unsignedBits 8) (fun _ _ => false) sqrtCast).sqrt
        ((intOpsWith (IntType.unsignedBits 8) (fun _ _ => false) sqrtCast).add
          ((intOpsWith (IntType.unsignedBits 8) (fun _ _ => false) sqrtCast).mul 16 16)
          ((intOpsWith (IntType.unsignedBits 8) (fun _ _ => false) sqrtCast).mul 0 0)) = 0 := by
    intro sqrtCast h0
    simp [intOpsWith, IntType.wrap, h0]
  refine ⟨?_, ?_, ?_, ?_, ?_, ?_, ?_⟩
  · intro j
    fin_cases j <;>
      simp [Store.ofComponents, Vector.ctor2, Vector.storageGet, IntType.inRange]
  · have h : ((16 : Int) * 16 + 0 * 0).toNat = 16 * 16 := by decide
    rw [h, Nat.sqrt_eq]
    rfl
  · simp [IntType.wrap]
  · rw [Vector.norm_eq]
    simp only [Store.ofComponents, Vector.components_ctor2, hsum]
  · rw [Vector.normalize_eq]
    simp only [Store.ofComponents, Vector.components_ctor2, hsum]
    simp [intOps]
  · simp [intOps, IntType.wrap]
  · intro sqrtCast h0
    constructor
    · rw [Vector.norm_eq]
      simp only [Store.ofComponents, Vector.components_ctor2, hsumW sqrtCast h0]
    · rw [Vector.normalize_eq]
      simp only [Store.ofComponents, Vector.components_ctor2, hsumW sqrtCast h0]
      simp [intOpsWith]

/-- The integer square root of `x*x + y*y` is at most that sum and at least `|x|`. -/
theorem natAbs_le_sqrt_sum (x y : Int) :
    (Int.ofNat (Nat.sqrt (x * x + y * y).toNat) ≤ x * x + y * y)
    ∧ x.natAbs ≤ Nat.sqrt (x * x + y * y).toNat := by
  have hx : 0 ≤ x * x := mul_self_nonneg x
  have hy : 0 ≤ y * y := mul_self_nonneg y
  have hN : ((x * x + y * y).toNat : Int) = x * x + y * y := Int.toNat_of_nonneg (by omega)
  constructor
  · have h1 : Nat.sqrt (x * x + y * y).toNat ≤ (x * x + y * y).toNat := Nat.sqrt_le_self _
    have h2 : (Int.ofNat (Nat.sqrt (x * x + y * y).toNat)) ≤ ((x * x + y * y).toNat : Int) :=
      Int.ofNat_le.mpr h1
    omega
  · have hlt := Nat.lt_succ_sqrt (x * x + y * y).toNat
    have hsq : x.natAbs * x.natAbs ≤ (x * x + y * y).toNat := by
      have h3 : ((x.natAbs * x.natAbs : Nat) : Int) = x * x := by
        rw [Nat.cast_mul, Int.natAbs_mul_self']
      omega
    have hlt2 : x.natAbs * x.natAbs <
        Nat.succ (Nat.sqrt (x * x + y * y).toNat) * Nat.succ (Nat.sqrt (x * x + y * y).toNat) :=
      lt_of_le_of_lt hsq hlt
    have := Nat.mul_self_lt_mul_self_iff.mp hlt2
    omega


/-- With components and sum of squares that are values of the type, `normalize()` computes
with exact integers. -/
theorem Vector.normalize_inRange (T : IntType) (isEqual : Int → Int → Bool) (a : Fin n)
    (s : Store Int k n) (hc : ∀ j, T.inRange ((s a).storageGet j))
    (hsum : T.inRange ((s a).storageGet 0 * (s a).storageGet 0
      + (s a).storageGet 1 * (s a).storageGet 1)) :
    Vector.normalize (intOps T isEqual) a s =
      (Except.ok a,
        if 0 < Nat.sqrt ((s a).storageGet 0 * (s a).storageGet 0
            + (s a).storageGet 1 * (s a).storageGet 1).toNat then
          Function.update s a (Vector.ctor2 k
            (Int.tdiv ((s a).storageGet 0) (Int.ofNat (Nat.sqrt ((s a).storageGet 0
              * (s a).storageGet 0 + (s a).storageGet 1 * (s a).storageGet 1).toNat)))
            (Int.tdiv ((s a).storageGet 1) (Int.ofNat (Nat.sqrt ((s a).storageGet 0
              * (s a).storageGet 0 + (s a).storageGet 1 * (s a).storageGet 1).toNat))))
        else s) := by
  have hadd : ∀ x y : Int, (intOps T isEqual).add x y = T.wrap (x + y) := fun _ _ => rfl
  have hmul : ∀ x y : Int, (intOps T isEqual).mul x y = T.wrap (x * y) := fun _ _ => rfl
  have hdiv : ∀ x y : Int, (intOps T isEqual).div x y = T.wrap (Int.tdiv x y) := fun _ _ => rfl
  have hsqrt : ∀ x : Int, (intOps T isEqual).sqrt x = intSqrt T x := fun _ => rfl
  have hgt : ∀ x y : Int, ((intOps T isEqual).gt x y = true) ↔ x > y := by
    intro x y
    simp [intOps]
  have heps : (intOps T isEqual).epsilon = 0 := rfl
  have hN := Vector.normalize_eq (intOps T isEqual) a s
  simp only [hadd, hmul, hdiv, hsqrt, hgt, heps, IntType.wrap_add, Vector.components] at hN
  rw [hN]
  obtain ⟨hm1, _⟩ := natAbs_le_sqrt_sum ((s a).storageGet 0) ((s a).storageGet 1)
  have hx := hc 0
  have hy := hc 1
  generalize (s a).storageGet 0 = x at *
  generalize (s a).storageGet 1 = y at *
  rw [T.wrap_of_inRange _ hsum]
  have hmr : T.inRange (Int.ofNat (Nat.sqrt (x * x + y * y).toNat)) :=
    T.inRange_of_nonneg_le (Int.ofNat_nonneg _) hm1 hsum
  have hs : intSqrt T (x * x + y * y) = Int.ofNat (Nat.sqrt (x * x + y * y).toNat) :=
    T.wrap_of_inRange _ hmr
  rw [hs]
  congr 1
  by_cases hpos : 0 < Nat.sqrt (x * x + y * y).toNat
  · have hposI : Int.ofNat (Nat.sqrt (x * x + y * y).toNat) > 0 := Int.ofNat_lt.mpr hpos
    have hne : Int.ofNat (Nat.sqrt (x * x + y * y).toNat) ≠ 0 := ne_of_gt hposI
    have hnm : ∀ (c : Int) (w : Nat), T = IntType.signedBits w →
        ¬ (c = -(2 ^ (w - 1)) ∧ Int.ofNat (Nat.sqrt (x * x + y * y).toNat) = -1) := by
      intro c w _ h
      omega
    rw [if_pos hposI, if_pos hpos,
      T.wrap_of_inRange _ (T.tdiv_inRange x _ hx hmr hne (hnm x)),
      T.wrap_of_inRange _ (T.tdiv_inRange y _ hy hmr hne (hnm y))]
  · have hnI : ¬ Int.ofNat (Nat.sqrt (x * x + y * y).toNat) > 0 := by
      intro h
      exact hpos (Int.ofNat_lt.mp h)
    rw [if_neg hnI, if_neg hpos]


/-- A truncating quotient by a divisor that is at least `|x|` is `-1`, `0` or `1`,
and its absolute value is at most `|x|`. -/
theorem tdiv_sign_of_natAbs_le (x : Int) (m : Nat) (hx : x.natAbs ≤ m) :
    (Int.tdiv x (Int.ofNat m) = -1 ∨ Int.tdiv x (Int.ofNat m) = 0 ∨ Int.tdiv x (Int.ofNat m) = 1)
    ∧ (Int.tdiv x (Int.ofNat m)).natAbs ≤ x.natAbs := by
  have h1 : (Int.tdiv x (Int.ofNat m)).natAbs = x.natAbs / m := by
    rw [Int.natAbs_tdiv]
    rfl
  have h2 : x.natAbs / m ≤ 1 := by
    apply Nat.div_le_of_le_mul
    omega
  have h3 : x.natAbs / m ≤ x.natAbs := Nat.div_le_self _ _
  constructor
  · omega
  · omega

/-- C19: over an integer `Scalar` whose values include the components of `v` and its
squared norm `v[0]^2 + v[1]^2` (no overflow), `norm()` is the exact integer square root,
after `v.normalize()` every component of `v` is `-1`, `0` or `1`, and a second
`normalize()` leaves the vector, and the whole store, exactly as the first call left it. -/
theorem normalize_idempotent_on_integers (T : IntType) (isEqual : Int → Int → Bool) (a : Fin n)
    (i : Fin 2) (s : Store Int k n) (hc : ∀ j, T.inRange ((s a).storageGet j))
    (hsum : T.inRange ((s a).storageGet 0 * (s a).storageGet 0
      + (s a).storageGet 1 * (s a).storageGet 1)) :
    -- the norm is the exact integer square root
    Vector.norm (intOps T isEqual) a s =
        (Except.ok (Int.ofNat (Nat.sqrt ((s a).storageGet 0 * (s a).storageGet 0
          + (s a).storageGet 1 * (s a).storageGet 1).toNat)), s)
    -- after normalize() every component is -1, 0 or 1
    ∧ (((Vector.normalize (intOps T isEqual) a s).2 a).storageGet i = -1
      ∨ ((Vector.normalize (intOps T isEqual) a s).2 a).storageGet i = 0
      ∨ ((Vector.normalize (intOps T isEqual) a s).2 a).storageGet i = 1)
    -- a second call leaves the store, so the vector, as the first call left it
    ∧ Vector.normalize (intOps T isEqual) a (Vector.normalize (intOps T isEqual) a s).2 =
        (Except.ok a, (Vector.normalize (intOps T isEqual) a s).2) := by
  have hN := Vector.normalize_inRange T isEqual a s hc hsum
  obtain ⟨hm1, hxm⟩ := natAbs_le_sqrt_sum ((s a).storageGet 0) ((s a).storageGet 1)
  have hym : ((s a).storageGet 1).natAbs ≤
      Nat.sqrt ((s a).storageGet 0 * (s a).storageGet 0
        + (s a).storageGet 1 * (s a).storageGet 1).toNat := by
    have := (natAbs_le_sqrt_sum ((s a).storageGet 1) ((s a).storageGet 0)).2
    rwa [add_comm] at this
  refine ⟨?_, ?_, ?_⟩
  · have hadd : ∀ x y : Int, (intOps T isEqual).add x y = T.wrap (x + y) := fun _ _ => rfl
    have hmul : ∀ x y : Int, (intOps T isEqual).mul x y = T.wrap (x * y) := fun _ _ => rfl
    have hsqrt : ∀ x : Int, (intOps T isEqual).sqrt x = intSqrt T x := fun _ => rfl
    simp only [Vector.norm_eq, hadd, hmul, hsqrt, IntType.wrap_add, Vector.components]
    rw [T.wrap_of_inRange _ hsum]
    have hmr := T.inRange_of_nonneg_le (Int.ofNat_nonneg _) hm1 hsum
    rw [show intSqrt T ((s a).storageGet 0 * (s a).storageGet 0
        + (s a).storageGet 1 * (s a).storageGet 1) = _ from T.wrap_of_inRange _ hmr]
  · rw [hN]
    by_cases hpos : 0 < Nat.sqrt ((s a).storageGet 0 * (s a).storageGet 0
        + (s a).storageGet 1 * (s a).storageGet 1).toNat
    · simp only [if_pos hpos, Function.update_same]
      have h0 := (tdiv_sign_of_natAbs_le _ _ hxm).1
      have h1 := (tdiv_sign_of_natAbs_le _ _ hym).1
      fin_cases i
      · simpa [Vector.storageGet_ctor2_zero] using h0
      · simpa [Vector.storageGet_ctor2_one] using h1
    · simp only [if_neg hpos]
      have hz : Nat.sqrt ((s a).storageGet 0 * (s a).storageGet 0
        + (s a).storageGet 1 * (s a).storageGet 1).toNat = 0 := by omega
      rw [hz] at hxm hym
      fin_cases i
      · right; left
        simp only [Fin.zero_eta]
        omega
      · right; left
        simp only [Fin.mk_one]
        omega
  · rw [hN]
    by_cases hpos : 0 < Nat.sqrt ((s a).storageGet 0 * (s a).storageGet 0
        + (s a).storageGet 1 * (s a).storageGet 1).toNat
    · simp only [if_pos hpos]
      obtain ⟨h0, h0le⟩ := tdiv_sign_of_natAbs_le _ _ hxm
      obtain ⟨h1, h1le⟩ := tdiv_sign_of_natAbs_le _ _ hym
      have hposI : Int.ofNat (Nat.sqrt ((s a).storageGet 0 * (s a).storageGet 0
          + (s a).storageGet 1 * (s a).storageGet 1).toNat) > 0 := Int.ofNat_lt.mpr hpos
      have hmr := T.inRange_of_nonneg_le (Int.ofNat_nonneg _) hm1 hsum
      have hnm : ∀ (c : Int) (w : Nat), T = IntType.signedBits w →
          ¬ (c = -(2 ^ (w - 1)) ∧ Int.ofNat (Nat.sqrt ((s a).storageGet 0 * (s a).storageGet 0
            + (s a).storageGet 1 * (s a).storageGet 1).toNat) = -1) := by
        intro c w _ h
        omega
      have hr0 := T.tdiv_inRange _ _ (hc 0) hmr (ne_of_gt hposI) (hnm _)
      have hr1 := T.tdiv_inRange _ _ (hc 1) hmr (ne_of_gt hposI) (hnm _)
      generalize Int.tdiv ((s a).storageGet 0) (Int.ofNat (Nat.sqrt ((s a).storageGet 0
          * (s a).storageGet 0 + (s a).storageGet 1 * (s a).storageGet 1).toNat)) = r0 at *
      generalize Int.tdiv ((s a).storageGet 1) (Int.ofNat (Nat.sqrt ((s a).storageGet 0
          * (s a).storageGet 0 + (s a).storageGet 1 * (s a).storageGet 1).toNat)) = r1 at *
      have hsq0 : r0 * r0 ≤ (s a).storageGet 0 * (s a).storageGet 0 := by
        rw [← Int.natAbs_mul_self' r0, ← Int.natAbs_mul_self' ((s a).storageGet 0)]
        exact_mod_cast Nat.mul_le_mul h0le h0le
      have hsq1 : r1 * r1 ≤ (s a).storageGet 1 * (s a).storageGet 1 := by
        rw [← Int.natAbs_mul_self' r1, ← Int.natAbs_mul_self' ((s a).storageGet 1)]
        exact_mod_cast Nat.mul_le_mul h1le h1le
      have hsum2 : T.inRange (r0 * r0 + r1 * r1) :=
        T.inRange_of_nonneg_le (add_nonneg (mul_self_nonneg _) (mul_self_nonneg _))
          (add_le_add hsq0 hsq1) hsum
      have hg0 : (Function.update s a (Vector.ctor2 k r0 r1) a).storageGet 0 = r0 := by
        rw [Function.update_same, Vector.storageGet_ctor2_zero]
      have hg1 : (Function.update s a (Vector.ctor2 k r0 r1) a).storageGet 1 = r1 := by
        rw [Function.update_same, Vector.storageGet_ctor2_one]
      have hN2 := Vector.normalize_inRange T isEqual a (Function.update s a (Vector.ctor2 k r0 r1))
        (by
          intro j
          fin_cases j
          · simpa [Vector.storageGet_ctor2_zero] using hr0
          · simpa [Vector.storageGet_ctor2_one] using hr1)
        (by rw [hg0, hg1]; exact hsum2)
      rw [hN2, hg0, hg1]
      congr 1
      have hle2 : (r0 * r0 + r1 * r1).toNat < 2 * 2 := by
        rcases h0 with h | h | h <;> rcases h1 with h' | h' | h' <;> subst h <;> subst h' <;> decide
      have hm2 : Nat.sqrt (r0 * r0 + r1 * r1).toNat < 2 := Nat.sqrt_lt.mpr hle2
      by_cases hp2 : 0 < Nat.sqrt (r0 * r0 + r1 * r1).toNat
      · have hone : Nat.sqrt (r0 * r0 + r1 * r1).toNat = 1 := by omega
        rw [if_pos hp2, hone]
        have e0 : Int.tdiv r0 (Int.ofNat 1) = r0 := by simp
        have e1 : Int.tdiv r1 (Int.ofNat 1) = r1 := by simp
        rw [e0, e1, Function.update_idem]
      · rw [if_neg hp2]
    · simp only [if_neg hpos]
      rw [hN, if_neg hpos]

/-! ## Instances at concrete vectors -/

/-- Instance of C16 at the `signed char` vector `(-128, 5)`: its components are values of
the type and `-(-v) == v` is `true`. -/
theorem unary_minus_additive_inverse_witness :
    (∀ j : Fin 2, (IntType.signedBits 8).inRange
        ((Store.ofComponents StorageKind.PHYSIKA_USE_BUILT_IN_VECTOR
          (fun _ : Fin 1 => ((-128 : Int), (5 : Int))) 0).storageGet j))
    ∧ withTemporary (Vector.neg (intOps (IntType.signedBits 8) (fun _ _ => false)) 0) (fun t1 =>
        withTemporary (Vector.neg (intOps (IntType.signedBits 8) (fun _ _ => false)) t1)
          (fun t2 => Vector.eq (intOps (IntType.signedBits 8) (fun _ _ => false)) t2
            (0 : Fin 1).castSucc.castSucc))
        (Store.ofComponents StorageKind.PHYSIKA_USE_BUILT_IN_VECTOR
          (fun _ : Fin 1 => ((-128 : Int), (5 : Int))))
      = (Except.ok true, Store.ofComponents StorageKind.PHYSIKA_USE_BUILT_IN_VECTOR
          (fun _ : Fin 1 => ((-128 : Int), (5 : Int)))) :=
  have h : ∀ j : Fin 2, (IntType.signedBits 8).inRange
      ((Store.ofComponents StorageKind.PHYSIKA_USE_BUILT_IN_VECTOR
        (fun _ : Fin 1 => ((-128 : Int), (5 : Int))) 0).storageGet j) := by
    intro j
    fin_cases j <;>
      simp [Store.ofComponents, Vector.ctor2, Vector.storageGet, IntType.inRange]
  ⟨h, (unary_minus_additive_inverse (IntType.signedBits 8) (fun _ _ => false) 0 0 0 0
    (Store.ofComponents StorageKind.PHYSIKA_USE_BUILT_IN_VECTOR
      (fun _ : Fin 1 => ((-128 : Int), (5 : Int)))) h).2.1⟩

/-- Instance of C17 at the `signed char` vector `(3, 4)`: its components are values of the
type and `a.cross(a)` is `0`. -/
theorem dot_symmetric_cross_antisymmetric_witness :
    (∀ j : Fin 2, (IntType.signedBits 8).inRange
        ((Store.ofComponents StorageKind.PHYSIKA_USE_EIGEN_VECTOR
          (fun _ : Fin 1 => ((3 : Int), (4 : Int))) 0).storageGet j))
    ∧ Vector.cross (intOps (IntType.signedBits 8) (fun _ _ => false)) 0 0
        (Store.ofComponents StorageKind.PHYSIKA_USE_EIGEN_VECTOR
          (fun _ : Fin 1 => ((3 : Int), (4 : Int))))
      = (Except.ok 0, Store.ofComponents StorageKind.PHYSIKA_USE_EIGEN_VECTOR
          (fun _ : Fin 1 => ((3 : Int), (4 : Int)))) :=
  have h : ∀ j : Fin 2, (IntType.signedBits 8).inRange
      ((Store.ofComponents StorageKind.PHYSIKA_USE_EIGEN_VECTOR
        (fun _ : Fin 1 => ((3 : Int), (4 : Int))) 0).storageGet j) := by
    intro j
    fin_cases j <;>
      simp [Store.ofComponents, Vector.ctor2, Vector.storageGet, IntType.inRange]
  ⟨h, (dot_symmetric_cross_antisymmetric (IntType.signedBits 8) (fun _ _ => false) 0 0
    (Store.ofComponents StorageKind.PHYSIKA_USE_EIGEN_VECTOR
      (fun _ : Fin 1 => ((3 : Int), (4 : Int)))) h).2.2.2.2.1⟩

/-- Instance of C19 at the `signed char` vector `(3, 4)`: its components and its squared
norm `25` are values of the type, and a second `normalize()` changes nothing. -/
theorem normalize_idempotent_on_integers_witness :
    (∀ j : Fin 2, (IntType.signedBits 8).inRange
        ((Store.ofComponents StorageKind.PHYSIKA_USE_BUILT_IN_VECTOR
          (fun _ : Fin 1 => ((3 : Int), (4 : Int))) 0).storageGet j))
    ∧ (IntType.signedBits 8).inRange
        ((Store.ofComponents StorageKind.PHYSIKA_USE_BUILT_IN_VECTOR
            (fun _ : Fin 1 => ((3 : Int), (4 : Int))) 0).storageGet 0
          * (Store.ofComponents StorageKind.PHYSIKA_USE_BUILT_IN_VECTOR
            (fun _ : Fin 1 => ((3 : Int), (4 : Int))) 0).storageGet 0
          + (Store.ofComponents StorageKind.PHYSIKA_USE_BUILT_IN_VECTOR
            (fun _ : Fin 1 => ((3 : Int), (4 : Int))) 0).storageGet 1
          * (Store.ofComponents StorageKind.PHYSIKA_USE_BUILT_IN_VECTOR
            (fun _ : Fin 1 => ((3 : Int), (4 : Int))) 0).storageGet 1)
    ∧ Vector.normalize (intOps (IntType.signedBits 8) (fun _ _ => false)) 0
        (Vector.normalize (intOps (IntType.signedBits 8) (fun _ _ => false)) 0
          (Store.ofComponents StorageKind.PHYSIKA_USE_BUILT_IN_VECTOR
            (fun _ : Fin 1 => ((3 : Int), (4 : Int))))).2
      = (Except.ok 0, (Vector.normalize (intOps (IntType.signedBits 8) (fun _ _ => false)) 0
          (Store.ofComponents StorageKind.PHYSIKA_USE_BUILT_IN_VECTOR
            (fun _ : Fin 1 => ((3 : Int), (4 : Int))))).2) :=
  have h : ∀ j : Fin 2, (IntType.signedBits 8).inRange
      ((Store.ofComponents StorageKind.PHYSIKA_USE_BUILT_IN_VECTOR
        (fun _ : Fin 1 => ((3 : Int), (4 : Int))) 0).storageGet j) := by
    intro j
    fin_cases j <;>
      simp [Store.ofComponents, Vector.ctor2, Vector.storageGet, IntType.inRange]
  have hsum : (IntType.signedBits 8).inRange
      ((Store.ofComponents StorageKind.PHYSIKA_USE_BUILT_IN_VECTOR
          (fun _ : Fin 1 => ((3 : Int), (4 : Int))) 0).storageGet 0
        * (Store.ofComponents StorageKind.PHYSIKA_USE_BUILT_IN_VECTOR
          (fun _ : Fin 1 => ((3 : Int), (4 : Int))) 0).storageGet 0
        + (Store.ofComponents StorageKind.PHYSIKA_USE_BUILT_IN_VECTOR
          (fun _ : Fin 1 => ((3 : Int), (4 : Int))) 0).storageGet 1
        * (Store.ofComponents StorageKind.PHYSIKA_USE_BUILT_IN_VECTOR
          (fun _ : Fin 1 => ((3 : Int), (4 : Int))) 0).storageGet 1) := by
    simp [Store.ofComponents, Vector.ctor2, Vector.storageGet, IntType.inRange]
  ⟨h, hsum, (normalize_idempotent_on_integers (IntType.signedBits 8) (fun _ _ => false) 0 0
    (Store.ofComponents StorageKind.PHYSIKA_USE_BUILT_IN_VECTOR
      (fun _ : Fin 1 => ((3 : Int), (4 : Int)))) h hsum).2.2⟩

/-! ## Point sprites and shadow sampling -/

/-- The counting loop `for (i < n) if (p i) s += 1` adds the number of `i < n` with `p i`. -/
theorem forInt_count {F : Type} [LinearOrderedField F] (p : Nat → Bool) (n : Nat) :
    forInt n (fun i (s : F) => if p i = true then s + 1 else s) 0
      = (((List.range n).filter p).length : F) := by
  induction n with
  | zero => simp [forInt]
  | succ m ih =>
    simp only [forInt, ih, List.range_succ, List.filter_append, List.length_append]
    by_cases h : p m = true
    · simp [h]
    · simp [h]

/-- C11: with `n.xy = coord.xy*(2,-2) + (-1,1)` and `mag = n.x^2 + n.y^2`, the point sprite
fragment shaders discard the fragment if and only if `mag > 1`; for a fragment that is
kept, `1 - mag >= 0`, `normal.z = sqrt(1 - mag)` and `n.x^2 + n.y^2 + n.z^2 = 1`. The
three shaders `fragment_point_shader`, `fragment_point_depth_shader` and
`fragment_point_thickness_shader` compute the same. -/
theorem point_sprite_normal_is_unit (coord : vec2 ℝ) :
    (fragment_point_shader.normal Real.sqrt coord = none ↔
        (coord.x * 2 + -1) * (coord.x * 2 + -1) + (coord.y * -2 + 1) * (coord.y * -2 + 1) > 1)
    ∧ (∀ nrm : vec3 ℝ, fragment_point_shader.normal Real.sqrt coord = some nrm →
        0 ≤ 1 - ((coord.x * 2 + -1) * (coord.x * 2 + -1)
              + (coord.y * -2 + 1) * (coord.y * -2 + 1))
        ∧ nrm.x = coord.x * 2 + -1
        ∧ nrm.y = coord.y * -2 + 1
        ∧ nrm.z = Real.sqrt (1 - ((coord.x * 2 + -1) * (coord.x * 2 + -1)
              + (coord.y * -2 + 1) * (coord.y * -2 + 1)))
        ∧ nrm.x ^ 2 + nrm.y ^ 2 + nrm.z ^ 2 = 1)
    ∧ fragment_point_depth_shader.normal Real.sqrt coord =
        fragment_point_shader.normal Real.sqrt coord
    ∧ fragment_point_thickness_shader.normal Real.sqrt coord =
        fragment_point_shader.normal Real.sqrt coord := by
  refine ⟨?_, ?_, rfl, rfl⟩
  · by_cases h : (coord.x * 2 + -1) * (coord.x * 2 + -1)
        + (coord.y * -2 + 1) * (coord.y * -2 + 1) > 1
    · simp [fragment_point_shader.normal, h]
    · simp [fragment_point_shader.normal, h]
  · intro nrm hn
    by_cases h : (coord.x * 2 + -1) * (coord.x * 2 + -1)
        + (coord.y * -2 + 1) * (coord.y * -2 + 1) > 1
    · simp only [fragment_point_shader.normal, h, if_true] at hn
      cases hn
    · simp only [fragment_point_shader.normal, h, if_false, Option.some.injEq] at hn
      have h0 : 0 ≤ 1 - ((coord.x * 2 + -1) * (coord.x * 2 + -1)
          + (coord.y * -2 + 1) * (coord.y * -2 + 1)) := by linarith [not_lt.mp h]
      subst hn
      refine ⟨h0, rfl, rfl, rfl, ?_⟩
      simp only
      rw [Real.sq_sqrt h0]
      ring

/-- C12: `shadowSample` of `fragment_shader` returns `1.0` when `uvw.x` or `uvw.y` lies
outside `[0, 1]`, and otherwise `k/12` for `k` the number of the 12 taps `i` at which
`uvw.z - bias > shadowTex(uvw.xy + shadowTaps[i]*radius)` is false; the result lies in
`[0, 1]`, and inside the clip it is `0` exactly when all 12 taps are in shadow and `1`
exactly when none is. A tap `i` is in shadow when that comparison holds, with `bias = 0`
and `radius = 0.002`. -/
theorem shadowSample_counts_lit_taps {F : Type} [LinearOrderedField F]
    (shadowTex : vec2 F → F) (shadowTaps : Nat → vec2 F) (gl_TexCoord1 : vec4 F) (uvw : vec3 F) :
    -- uvw, and with it the result, exists unless gl_TexCoord[1].w is zero
    (fragment_shader.shadowSample_uvw gl_TexCoord1 = none ↔ gl_TexCoord1.w = 0)
    ∧ fragment_shader.shadowSample shadowTex shadowTaps gl_TexCoord1 =
        (fragment_shader.shadowSample_uvw gl_TexCoord1).map
          (fragment_shader.shadowSample_from shadowTex shadowTaps)
    -- the user clip, and the share of taps that are not in shadow
    ∧ fragment_shader.shadowSample_from shadowTex shadowTaps uvw =
        (if uvw.x < 0 ∨ uvw.x > 1 ∨ uvw.y < 0 ∨ uvw.y > 1 then 1
         else (((List.range 12).filter (fun i =>
            fragment_shader.shadowSample_isShadow shadowTex shadowTaps uvw i == false)).length : F)
            / 12)
    -- the result lies in [0, 1]
    ∧ 0 ≤ fragment_shader.shadowSample_from shadowTex shadowTaps uvw
    ∧ fragment_shader.shadowSample_from shadowTex shadowTaps uvw ≤ 1
    -- inside the clip it is 0 exactly when all taps are in shadow, 1 exactly when none is
    ∧ (¬ (uvw.x < 0 ∨ uvw.x > 1 ∨ uvw.y < 0 ∨ uvw.y > 1) →
        ((fragment_shader.shadowSample_from shadowTex shadowTaps uvw = 0 ↔
            ∀ i, i < 12 → fragment_shader.shadowSample_isShadow shadowTex shadowTaps uvw i = true)
        ∧ (fragment_shader.shadowSample_from shadowTex shadowTaps uvw = 1 ↔
            ∀ i, i < 12 →
              fragment_shader.shadowSample_isShadow shadowTex shadowTaps uvw i = false)))
    -- over all positions: 0 only inside the clip with all taps in shadow, and 1 whenever
    -- no tap is in shadow
    ∧ (fragment_shader.shadowSample_from shadowTex shadowTaps uvw = 0 ↔
        (¬ (uvw.x < 0 ∨ uvw.x > 1 ∨ uvw.y < 0 ∨ uvw.y > 1)
          ∧ ∀ i, i < 12 →
              fragment_shader.shadowSample_isShadow shadowTex shadowTaps uvw i = true))
    ∧ ((∀ i, i < 12 →
          fragment_shader.shadowSample_isShadow shadowTex shadowTaps uvw i = false) →
        fragment_shader.shadowSample_from shadowTex shadowTaps uvw = 1)
    -- the flag of tap i is the comparison uvw.z - bias > shadowTex(uvw.xy + shadowTaps[i]*radius)
    ∧ (∀ i, fragment_shader.shadowSample_isShadow shadowTex shadowTaps uvw i = true ↔
        uvw.z - 0 > shadowTex ⟨uvw.x + (shadowTaps i).x * (2 / 1000),
          uvw.y + (shadowTaps i).y * (2 / 1000)⟩)
    -- the same in terms of that comparison: inside the clip the result is k/12 for k the
    -- number of taps at which it is false, 0 exactly when it holds at all 12 taps and 1
    -- exactly when it holds at none
    ∧ (¬ (uvw.x < 0 ∨ uvw.x > 1 ∨ uvw.y < 0 ∨ uvw.y > 1) →
        (fragment_shader.shadowSample_from shadowTex shadowTaps uvw =
            (((List.range 12).filter (fun i => decide (¬ (uvw.z - 0 >
              shadowTex ⟨uvw.x + (shadowTaps i).x * (2 / 1000),
                uvw.y + (shadowTaps i).y * (2 / 1000)⟩)))).length : F) / 12
        ∧ (fragment_shader.shadowSample_from shadowTex shadowTaps uvw = 0 ↔
            ∀ i, i < 12 → uvw.z - 0 > shadowTex ⟨uvw.x + (shadowTaps i).x * (2 / 1000),
              uvw.y + (shadowTaps i).y * (2 / 1000)⟩)
        ∧ (fragment_shader.shadowSample_from shadowTex shadowTaps uvw = 1 ↔
            ∀ i, i < 12 → ¬ (uvw.z - 0 > shadowTex ⟨uvw.x + (shadowTaps i).x * (2 / 1000),
              uvw.y + (shadowTaps i).y * (2 / 1000)⟩)))) := by
  have hraw : ∀ i, fragment_shader.shadowSample_isShadow shadowTex shadowTaps uvw i = true ↔
      uvw.z - 0 > shadowTex ⟨uvw.x + (shadowTaps i).x * (2 / 1000),
        uvw.y + (shadowTaps i).y * (2 / 1000)⟩ := by
    intro i
    simp only [fragment_shader.shadowSample_isShadow, decide_eq_true_eq]
  have hrawF : ∀ i, fragment_shader.shadowSample_isShadow shadowTex shadowTaps uvw i = false ↔
      ¬ (uvw.z - 0 > shadowTex ⟨uvw.x + (shadowTaps i).x * (2 / 1000),
        uvw.y + (shadowTaps i).y * (2 / 1000)⟩) := by
    intro i
    rw [← hraw i]
    simp
  have hfun : (fun i => fragment_shader.shadowSample_isShadow shadowTex shadowTaps uvw i == false)
      = (fun i => decide (¬ (uvw.z - 0 > shadowTex ⟨uvw.x + (shadowTaps i).x * (2 / 1000),
          uvw.y + (shadowTaps i).y * (2 / 1000)⟩))) := by
    funext i
    rw [Bool.eq_iff_iff]
    simp only [beq_iff_eq, decide_eq_true_eq]
    exact hrawF i
  have hform : fragment_shader.shadowSample_from shadowTex shadowTaps uvw =
        (if uvw.x < 0 ∨ uvw.x > 1 ∨ uvw.y < 0 ∨ uvw.y > 1 then 1
         else (((List.range 12).filter (fun i =>
            fragment_shader.shadowSample_isShadow shadowTex shadowTaps uvw i == false)).length : F)
            / 12) := by
    unfold fragment_shader.shadowSample_from
    by_cases hx : uvw.x < 0 ∨ uvw.x > 1
    · have hc : uvw.x < 0 ∨ uvw.x > 1 ∨ uvw.y < 0 ∨ uvw.y > 1 := by tauto
      rw [if_pos hx, if_pos hc]
    · by_cases hy : uvw.y < 0 ∨ uvw.y > 1
      · have hc : uvw.x < 0 ∨ uvw.x > 1 ∨ uvw.y < 0 ∨ uvw.y > 1 := by tauto
        rw [if_neg hx, if_pos hy, if_pos hc]
      · have hc : ¬ (uvw.x < 0 ∨ uvw.x > 1 ∨ uvw.y < 0 ∨ uvw.y > 1) := by tauto
        rw [if_neg hx, if_neg hy, if_neg hc]
        simp only [forInt_count]
        norm_num
  have hk : ((List.range 12).filter (fun i =>
      fragment_shader.shadowSample_isShadow shadowTex shadowTaps uvw i == false)).length ≤ 12 := by
    have := List.length_filter_le (fun i =>
      fragment_shader.shadowSample_isShadow shadowTex shadowTaps uvw i == false) (List.range 12)
    simpa using this
  have hkF : (((List.range 12).filter (fun i =>
      fragment_shader.shadowSample_isShadow shadowTex shadowTaps uvw i == false)).length : F)
      ≤ 12 := by exact_mod_cast hk
  have hin : ¬ (uvw.x < 0 ∨ uvw.x > 1 ∨ uvw.y < 0 ∨ uvw.y > 1) →
      ((fragment_shader.shadowSample_from shadowTex shadowTaps uvw = 0 ↔
          ∀ i, i < 12 → fragment_shader.shadowSample_isShadow shadowTex shadowTaps uvw i = true)
      ∧ (fragment_shader.shadowSample_from shadowTex shadowTaps uvw = 1 ↔
          ∀ i, i < 12 →
            fragment_shader.shadowSample_isShadow shadowTex shadowTaps uvw i = false)) := by
    intro hc
    rw [hform, if_neg hc]
    constructor
    · rw [div_eq_zero_iff]
      constructor
      · intro h
        rcases h with h | h
        · have h0 : ((List.range 12).filter (fun i =>
              fragment_shader.shadowSample_isShadow shadowTex shadowTaps uvw i == false)).length
              = 0 := by exact_mod_cast h
          have hnil := List.length_eq_zero.mp h0
          rw [List.filter_eq_nil_iff] at hnil
          intro i hi
          have := hnil i (List.mem_range.mpr hi)
          simpa using this
        · norm_num at h
      · intro h
        left
        have hnil : (List.range 12).filter (fun i =>
            fragment_shader.shadowSample_isShadow shadowTex shadowTaps uvw i == false) = [] := by
          rw [List.filter_eq_nil_iff]
          intro i hi
          simp [h i (List.mem_range.mp hi)]
        rw [hnil]
        simp
    · rw [div_eq_one_iff_eq (by norm_num)]
      constructor
      · intro h
        have h12 : ((List.range 12).filter (fun i =>
              fragment_shader.shadowSample_isShadow shadowTex shadowTaps uvw i == false)).length
              = (List.range 12).length := by
          rw [List.length_range]
          exact_mod_cast h
        rw [List.filter_length_eq_length] at h12
        intro i hi
        have := h12 i (List.mem_range.mpr hi)
        simpa using this
      · intro h
        have h12 : ((List.range 12).filter (fun i =>
              fragment_shader.shadowSample_isShadow shadowTex shadowTaps uvw i == false)).length
              = (List.range 12).length := by
          rw [List.filter_length_eq_length]
          intro i hi
          simp [h i (List.mem_range.mp hi)]
        rw [h12, List.length_range]
        norm_num
  refine ⟨?_, ?_, hform, ?_, ?_, hin, ?_, ?_, hraw, ?_⟩
  · by_cases hw : gl_TexCoord1.w = 0
    · simp [fragment_shader.shadowSample_uvw, hw]
    · simp [fragment_shader.shadowSample_uvw, hw]
  · unfold fragment_shader.shadowSample
    cases fragment_shader.shadowSample_uvw gl_TexCoord1 <;> rfl
  · rw [hform]
    split
    · exact zero_le_one
    · positivity
  · rw [hform]
    split
    · exact le_refl _
    · rw [div_le_one (by norm_num)]
      exact hkF
  · by_cases hc : uvw.x < 0 ∨ uvw.x > 1 ∨ uvw.y < 0 ∨ uvw.y > 1
    · constructor
      · intro h
        rw [hform, if_pos hc] at h
        exact absurd h one_ne_zero
      · intro h
        exact absurd hc h.1
    · rw [(hin hc).1]
      constructor
      · intro h
        exact ⟨hc, h⟩
      · intro h
        exact h.2
  · intro h
    by_cases hc : uvw.x < 0 ∨ uvw.x > 1 ∨ uvw.y < 0 ∨ uvw.y > 1
    · rw [hform, if_pos hc]
    · exact (hin hc).2.mpr h
  · intro hc
    refine ⟨?_, ?_, ?_⟩
    · rw [hform, if_neg hc, hfun]
    · rw [(hin hc).1]
      exact forall_congr' (fun i => imp_congr_right (fun _ => hraw i))
    · rw [(hin hc).2]
      exact forall_congr' (fun i => imp_congr_right (fun _ => hrawF i))

/-! ## Frustum culling and the blur shader -/

/-- C13: `geometry_ellipsoid_depth_shader` and `geometry_diffuse_shader` emit no vertex when
`ndcPos.x < -1`, `ndcPos.x > 1`, `ndcPos.y < -1` or `ndcPos.y > 1`, and exactly four
vertices otherwise; the ellipsoid shader emits `(xmin,ymax,0,1)`, `(xmin,ymin,0,1)`,
`(xmax,ymax,0,1)`, `(xmax,ymin,0,1)` in this order, `(xmin,xmax,ymin,ymax)` being the
incoming bounds `gl_TexCoordIn[0][0]`. -/
theorem geometry_shaders_cull_or_emit_four {F : Type} [LinearOrderedField F]
    (gl_PositionIn0 : vec4 F) (gl_TexCoordIn0 : Nat → vec4 F)
    (length : vec3 F → F) (normalize : vec3 F → vec3 F)
    (pointScale motionBlurScale diffusion : F) (lightDir : vec3 F)
    (gl_ModelViewMatrix gl_ProjectionMatrix : mat4 F) :
    -- geometry_ellipsoid_depth_shader: nothing when culled, else the four corners in order
    (geometry_ellipsoid_depth_shader.main gl_PositionIn0 gl_TexCoordIn0).map
        (fun v => v.gl_Position) =
      (if (gl_TexCoordIn0 5).x < -1 ∨ (gl_TexCoordIn0 5).x > 1
          ∨ (gl_TexCoordIn0 5).y < -1 ∨ (gl_TexCoordIn0 5).y > 1 then []
       else
        [⟨(gl_TexCoordIn0 0).x, (gl_TexCoordIn0 0).w, 0, 1⟩,
         ⟨(gl_TexCoordIn0 0).x, (gl_TexCoordIn0 0).z, 0, 1⟩,
         ⟨(gl_TexCoordIn0 0).y, (gl_TexCoordIn0 0).w, 0, 1⟩,
         ⟨(gl_TexCoordIn0 0).y, (gl_TexCoordIn0 0).z, 0, 1⟩])
    ∧ (geometry_ellipsoid_depth_shader.main gl_PositionIn0 gl_TexCoordIn0).length =
      (if (gl_TexCoordIn0 5).x < -1 ∨ (gl_TexCoordIn0 5).x > 1
          ∨ (gl_TexCoordIn0 5).y < -1 ∨ (gl_TexCoordIn0 5).y > 1 then 0 else 4)
    -- geometry_diffuse_shader: nothing when culled, else exactly four vertices
    ∧ (geometry_diffuse_shader.main length normalize pointScale motionBlurScale diffusion
          lightDir gl_ModelViewMatrix gl_ProjectionMatrix gl_TexCoordIn0).length =
      (if (gl_TexCoordIn0 5).x < -1 ∨ (gl_TexCoordIn0 5).x > 1
          ∨ (gl_TexCoordIn0 5).y < -1 ∨ (gl_TexCoordIn0 5).y > 1 then 0 else 4)
    ∧ ((geometry_diffuse_shader.main length normalize pointScale motionBlurScale diffusion
          lightDir gl_ModelViewMatrix gl_ProjectionMatrix gl_TexCoordIn0).map
        (fun v => v.gl_TexCoord0) =
      (if (gl_TexCoordIn0 5).x < -1 ∨ (gl_TexCoordIn0 5).x > 1
          ∨ (gl_TexCoordIn0 5).y < -1 ∨ (gl_TexCoordIn0 5).y > 1 then []
       else [⟨0, 1, 0, 0⟩, ⟨0, 0, 0, 0⟩, ⟨1, 1, 0, 0⟩, ⟨1, 0, 0, 0⟩])) := by
  by_cases h1 : (gl_TexCoordIn0 5).x < -1
  · simp [geometry_ellipsoid_depth_shader.main, geometry_diffuse_shader.main, h1]
  · by_cases h2 : (gl_TexCoordIn0 5).x > 1
    · simp [geometry_ellipsoid_depth_shader.main, geometry_diffuse_shader.main, h1, h2]
    · by_cases h3 : (gl_TexCoordIn0 5).y < -1
      · simp [geometry_ellipsoid_depth_shader.main, geometry_diffuse_shader.main, h1, h2, h3]
      · by_cases h4 : (gl_TexCoordIn0 5).y > 1
        · simp [geometry_ellipsoid_depth_shader.main, geometry_diffuse_shader.main, h1, h2, h3,
            h4]
        · have hc : ¬ ((gl_TexCoordIn0 5).x < -1 ∨ (gl_TexCoordIn0 5).x > 1
              ∨ (gl_TexCoordIn0 5).y < -1 ∨ (gl_TexCoordIn0 5).y > 1) := by tauto
          rw [if_neg hc, if_neg hc, if_neg hc]
          simp [geometry_ellipsoid_depth_shader.main, geometry_diffuse_shader.main, h1, h2,
            h3, h4]

/-- One more unit of fuel changes nothing once the fuel exceeds the distance from `lo` to
`hi`: the loop has ended by itself. -/
theorem forFloat_fuel_succ {F σ : Type} [LinearOrderedField F] (body : F → σ → σ) (hi : F) :
    ∀ (fuel : Nat) (lo : F) (s : σ), hi < lo + fuel →
      forFloat (fuel + 1) lo hi body s = forFloat fuel lo hi body s := by
  intro fuel
  induction fuel with
  | zero =>
    intro lo s h
    have hlt : ¬ lo ≤ hi := by
      simp only [Nat.cast_zero, add_zero] at h
      exact not_le.mpr h
    simp [forFloat, hlt]
  | succ m ih =>
    intro lo s h
    by_cases hle : lo ≤ hi
    · have h2 : hi < lo + 1 + (m : F) := by
        have : lo + ((m + 1 : Nat) : F) = lo + 1 + (m : F) := by push_cast; ring
        rw [← this]
        exact h
      have e1 : forFloat (m + 1 + 1) lo hi body s = forFloat (m + 1) (lo + 1) hi body (body lo s) := by
        rw [forFloat]
        simp [hle]
      have e2 : forFloat (m + 1) lo hi body s = forFloat m (lo + 1) hi body (body lo s) := by
        rw [forFloat]
        simp [hle]
      rw [e1, e2]
      exact ih (lo + 1) (body lo s) h2
    · have e1 : forFloat (m + 1 + 1) lo hi body s = s := by
        rw [forFloat]
        simp [hle]
      have e2 : forFloat (m + 1) lo hi body s = s := by
        rw [forFloat]
        simp [hle]
      rw [e1, e2]

/-- The fuel `2*taps + 1` of the blur loops, which run from `-taps` to `taps` for the
integer `taps = ceil(radius)`, is enough: the loops end by themselves. -/
theorem forFloat_blur_fuel {F σ : Type} [LinearOrderedField F] (body : F → σ → σ) (taps : Int)
    (s : σ) :
    forFloat ((2 * taps + 1).toNat + 1) (-(taps : F)) (taps : F) body s =
      forFloat (2 * taps + 1).toNat (-(taps : F)) (taps : F) body s := by
  apply forFloat_fuel_succ
  have h1 : (2 * taps + 1 : Int) ≤ ((2 * taps + 1).toNat : Int) := Int.self_le_toNat _
  have h2 : ((2 * taps + 1 : Int) : F) ≤ (((2 * taps + 1).toNat : Int) : F) := by
    exact_mod_cast h1
  have h3 : (((2 * taps + 1).toNat : Int) : F) = (((2 * taps + 1).toNat : Nat) : F) := by
    push_cast
    rfl
  rw [h3] at h2
  push_cast at h2
  linarith

/-- C14: in debug mode `fragment_blur_depth_shader` writes the centre depth sample to
`gl_FragColor.x`; with `debug` false and a centre depth of `0.0` it writes `0.0`; in both
cases the output is the same for all depth textures that agree at the centre. -/
theorem blur_depth_early_exits {F : Type} [LinearOrderedField F] [FloorRing F]
    (exp sqrt : F → F) (depthTex depthTex2 thicknessTex : vec2 F → F)
    (blurRadiusWorld blurScale : F) (gl_FragCoord gl_TexCoord0 : vec2 F) :
    -- debug: the centre depth sample
    fragment_blur_depth_shader.main exp sqrt depthTex thicknessTex blurRadiusWorld blurScale
        true gl_FragCoord gl_TexCoord0 = some (depthTex gl_FragCoord)
    -- not debug, centre depth 0.0, whatever the neighbouring samples: 0.0
    ∧ fragment_blur_depth_shader.main exp sqrt
        (fun p => if p = gl_FragCoord then 0 else depthTex p) thicknessTex blurRadiusWorld
        blurScale false gl_FragCoord gl_TexCoord0 = some 0
    ∧ (depthTex gl_FragCoord = 0 →
        fragment_blur_depth_shader.main exp sqrt depthTex thicknessTex blurRadiusWorld blurScale
          false gl_FragCoord gl_TexCoord0 = some 0)
    -- two depth textures with the same centre sample give the same output
    ∧ (depthTex2 gl_FragCoord = depthTex gl_FragCoord →
        fragment_blur_depth_shader.main exp sqrt depthTex2 thicknessTex blurRadiusWorld
            blurScale true gl_FragCoord gl_TexCoord0 =
          fragment_blur_depth_shader.main exp sqrt depthTex thicknessTex blurRadiusWorld
            blurScale true gl_FragCoord gl_TexCoord0)
    ∧ (depthTex2 gl_FragCoord = depthTex gl_FragCoord → depthTex gl_FragCoord = 0 →
        fragment_blur_depth_shader.main exp sqrt depthTex2 thicknessTex blurRadiusWorld
            blurScale false gl_FragCoord gl_TexCoord0 =
          fragment_blur_depth_shader.main exp sqrt depthTex thicknessTex blurRadiusWorld
            blurScale false gl_FragCoord gl_TexCoord0) := by
  refine ⟨?_, ?_, ?_, ?_, ?_⟩
  · simp [fragment_blur_depth_shader.main]
  · simp [fragment_blur_depth_shader.main]
  · intro h
    simp [fragment_blur_depth_shader.main, h]
  · intro h
    simp [fragment_blur_depth_shader.main, h]
  · intro h h0
    simp [fragment_blur_depth_shader.main, h, h0]

end Physika
